import Mathlib

/-!
# CS40L26 haptic driver: sysfs attribute layer

Shallow embedding of `drivers/vibrator/cs/cs40l26/cs40l26-sysfs.c`.

* Text (`char *`) is a `List Char`: the characters before the terminating NUL.
* Machine integers are `Nat`/`Int` with explicit reduction modulo `2^32`.
* Every handler is a function on an explicit `State` (driver private data, register
  map, runtime-PM usage count, mutex flag, sysfs page) that also appends the
  operations it performs to `State.trace`, in program order.
* The outcome of every bus or driver-core call is drawn from an `Env`, so that a
  statement quantified over `Env` covers every outcome of the lower layers.
* `dev_err`/`dev_info`/`dev_dbg` diagnostics are not modelled.
-/

namespace CS40L26

/-! ## errno values and integer conversions -/

def EPERM : Int := 1
def EINVAL : Int := 22
def ERANGE : Int := 34

def UINT_MAX : Nat := 4294967295
def ULLONG_MAX : Nat := 18446744073709551615

/-- Conversion to `u32` / `unsigned int`. -/
def u32 (n : Nat) : Nat := n % 4294967296

/-- Conversion to `u16`. -/
def u16 (n : Nat) : Nat := n % 65536

/-- Conversion to `u8`. -/
def u8 (n : Nat) : Nat := n % 256

/-- Conversion of an unsigned value to `int` (two's complement, 32 bits): what
`ret = count` does, and how `%d` reads an `unsigned int` argument. -/
def to_int (n : Nat) : Int :=
  if n % 4294967296 < 2147483648 then (n % 4294967296 : Nat)
  else ((n % 4294967296 : Nat) : Int) - 4294967296

/-! ## Kernel text helpers used by the handlers (`kstrtou32`, `snprintf`) -/

/-- Value of one digit character, as in the loop of `_parse_integer`:
`'0'..'9'`, or `'a'..'f'` after `c | 0x20`. -/
def digit_val (c : Char) : Option Nat :=
  if 48 ≤ c.toNat ∧ c.toNat ≤ 57 then some (c.toNat - 48)
  else if 97 ≤ (c.toNat ||| 32) ∧ (c.toNat ||| 32) ≤ 102 then some ((c.toNat ||| 32) - 97 + 10)
  else none

/-- Modelled from the spec: `_parse_integer` of lib/kstrtox.c, which is not among
the sources ("kernel string-to-integer parsing"). Consumes the longest prefix of
digits below `base`; returns the accumulated value, the number of digits and the
unconsumed rest. The value is accumulated without wrapping; the caller compares
it with `ULLONG_MAX`, which is when the original raises its overflow flag. -/
def _parse_integer (base : Nat) : List Char → Nat → Nat → Nat × Nat × List Char
  | [], res, rv => (res, rv, [])
  | c :: s, res, rv =>
    match digit_val c with
    | some val =>
      if val < base then _parse_integer base s (res * base + val) (rv + 1)
      else (res, rv, c :: s)
    | none => (res, rv, c :: s)

/-- Modelled from the spec: `_parse_integer_fixup_radix` for an explicit base (the
handlers pass 10 or 16): in base 16 a leading `0x`/`0X` is skipped. -/
def _parse_integer_fixup_radix (s : List Char) (base : Nat) : List Char :=
  match s with
  | c0 :: c1 :: rest =>
    if base = 16 ∧ c0 = '0' ∧ (c1.toNat ||| 32) = 120 then rest else s
  | _ => s

/-- Modelled from the spec: `kstrtoull`: optional `+`, radix prefix, at least one
digit, optionally one trailing newline, then the end of the string. -/
def kstrtoull (s : List Char) (base : Nat) : Except Int Nat :=
  let s := match s with
    | '+' :: t => t
    | _ => s
  let s := _parse_integer_fixup_radix s base
  match _parse_integer base s 0 0 with
  | (res, rv, rest) =>
    if res > ULLONG_MAX then .error (-ERANGE)
    else if rv = 0 then .error (-EINVAL)
    else
      let rest := match rest with
        | '\n' :: t => t
        | _ => rest
      if rest ≠ [] then .error (-EINVAL) else .ok res

/-- Modelled from the spec: `kstrtou32` (= `kstrtouint`): `kstrtoull`, then the
value must fit 32 bits. -/
def kstrtou32 (s : List Char) (base : Nat) : Except Int Nat :=
  match kstrtoull s base with
  | .error rv => .error rv
  | .ok tmp => if tmp ≠ u32 tmp then .error (-ERANGE) else .ok tmp

/-- Upper-case digit character, as `%X` prints it. -/
def hex_digit_upper (d : Nat) : Char :=
  if d < 10 then Char.ofNat (48 + d) else Char.ofNat (55 + d)

/-- Digits of `num` in `base`, least significant first, at least one digit: the
`do { ... } while (num)` loop of `number()` in lib/vsprintf.c. `fuel` bounds
the number of digits. -/
def number_digits (base : Nat) : Nat → Nat → List Nat
  | 0, _ => []
  | fuel + 1, num =>
    (num % base) :: (if num / base = 0 then [] else number_digits base fuel (num / base))

/-- Size of the digit buffer of `number()`: `3 * sizeof(unsigned long long)`. -/
def NUMBER_TMP : Nat := 24

/-- Modelled from the spec: the conversion `%u`. -/
def fmt_u (v : Nat) : List Char :=
  ((number_digits 10 NUMBER_TMP v).reverse.map hex_digit_upper)

/-- Modelled from the spec: the conversion `%d` applied to an `int`. -/
def fmt_d (i : Int) : List Char :=
  if i < 0 then '-' :: fmt_u i.natAbs else fmt_u i.natAbs

/-- Modelled from the spec: the conversion `%0<width>X` applied to an
`unsigned int`: upper-case hexadecimal, zero-padded on the left to at least
`width` characters. -/
def fmt_0X (width : Nat) (v : Nat) : List Char :=
  let ds := (number_digits 16 NUMBER_TMP (u32 v)).reverse.map hex_digit_upper
  List.replicate (width - ds.length) '0' ++ ds

/-! ## Constants of `cs40l26.h` and `cl_dsp.h`

The headers are not among the sources, so every constant is a parameter. -/

structure Consts where
  PAGE_SIZE : Nat
  CL_DSP_XM_UNPACKED_TYPE : Nat
  CL_DSP_YM_UNPACKED_TYPE : Nat
  CL_DSP_BYTES_PER_WORD : Nat
  CS40L26_VIBEGEN_ALGO_ID : Nat
  CS40L26_EXT_ALGO_ID : Nat
  CS40L26_F0_EST_ALGO_ID : Nat
  CS40l26_SVC_ALGO_ID : Nat
  CS40L26_LOGGER_ALGO_ID : Nat
  CS40L26_FW_MODE_ROM : Nat
  CS40L26_FW_MODE_RAM : Nat
  CS40L26_FW_ID : Nat
  CS40L26_FW_CALIB_ID : Nat
  CS40L26_PM_TIMEOUT_MS_MIN : Nat
  CS40L26_GLOBAL_ENABLES : Nat
  CS40L26_GLOBAL_EN_MASK : Nat
  CS40L26_ENABLES_AND_CODES_DIG : Nat
  CS40L26_TEMP_RESULT_FILT_MASK : Nat
  CS40L26_TEMP_RESULT_FILT_SHIFT : Nat
  CS40L26_BOOST_DISABLE_DELAY_MIN : Nat
  CS40L26_BOOST_DISABLE_DELAY_MAX : Nat
  CS40L26_F0_OFFSET_MIN : Nat
  CS40L26_F0_OFFSET_MAX : Nat
  CS40L26_DSP_MBOX_CMD_INDEX_CALIBRATION_CONTROL : Nat
  CS40L26_DSP_MBOX_CMD_INDEX_SHIFT : Nat
  CS40L26_DSP_MBOX_CMD_INDEX_MASK : Nat
  CS40L26_DSP_MBOX_CMD_PAYLOAD_MASK : Nat
  CS40L26_DSP_MBOX_CMD_LOGGER_MAX_RESET : Nat
  CS40L26_DSP_VIRTUAL1_MBOX_1 : Nat
  CS40L26_DSP_MBOX_RESET : Nat
  CS40L26_F0_EST_MIN : Nat
  CS40L26_F0_EST_MAX : Nat
  CS40L26_Q_EST_MIN : Nat
  CS40L26_Q_EST_MAX : Nat
  CS40L26_F0_CHIRP_DURATION_FACTOR : Nat
  CS40L26_F0_EST_FREQ_SHIFT : Nat
  CS40L26_F0_AND_Q_CALIBRATION_BUFFER_MS : Nat
  CS40L26_SVC_INITIALIZATION_PERIOD_MS : Nat
  CS40L26_REDC_CALIBRATION_BUFFER_MS : Nat
  CS40L26_LOGGER_SRC_SIZE_MASK : Nat
  CS40L26_LOGGER_SRC_ID_MASK : Nat
  CS40L26_LOGGER_SRC_ID_SHIFT : Nat

/-! ## Device state -/

/-- One entry of the power-on sequence list. -/
structure cs40l26_pseq_op where
  size : Nat
  offset : Nat
  words : List Nat

/-- The fields of `struct cs40l26_private` that the sysfs layer reads or writes. -/
structure cs40l26_private where
  fw_mode : Nat
  vibe_state : Nat
  pseq_op_head : List cs40l26_pseq_op
  pseq_num_ops : Int
  pseq_base : Nat
  delay_before_stop_playback_us : Nat
  cal_requested : Nat
  fw_id : Nat

/-- Names of the private-state fields, for the access trace. -/
inductive Field
  | fw_mode
  | vibe_state
  | pseq_op_head
  | pseq_num_ops
  | pseq_base
  | delay_before_stop_playback_us
  | cal_requested
  | fw_id
deriving DecidableEq, Repr

/-- Operations a handler performs, in program order. Fallible calls carry the
code they returned. -/
inductive Event
  | pm_runtime_get_sync
  | pm_runtime_mark_last_busy
  | pm_runtime_put_autosuspend
  | mutex_lock
  | mutex_unlock
  | cl_dsp_get_reg (name : String) (block_type algo_id : Nat) (ret : Int)
  | regmap_read (reg : Nat) (ret : Int)
  | regmap_write (reg val : Nat) (ret : Int)
  | regmap_update_bits (reg mask val : Nat) (ret : Int)
  | cs40l26_ack_write (reg write_val reset_val : Nat) (ret : Int)
  | cs40l26_dsp_state_get (ret : Int)
  | cs40l26_pm_timeout_ms_get (ret : Int)
  | cs40l26_pm_timeout_ms_set (timeout_ms : Nat) (ret : Int)
  | cs40l26_get_num_waves (ret : Int)
  | cs40l26_fw_swap (id : Nat) (ret : Int)
  | priv_read (f : Field)
  | priv_write (f : Field)
  | snprintf (text : List Char)
deriving DecidableEq, Repr

structure State where
  /-- Driver private data (`dev_get_drvdata`). -/
  priv : cs40l26_private
  /-- The register map: address to 32-bit word. -/
  regs : Nat → Nat
  /-- Runtime-PM usage count of the device. -/
  usage_count : Int
  /-- Whether `cs40l26->lock` is held. -/
  lock_held : Bool
  /-- Set when the mutex is locked while held or unlocked while free. -/
  lock_misuse : Bool
  /-- The sysfs page handed to a show handler. -/
  buf : List Char
  /-- Number of bus and driver-core calls made so far. -/
  ncalls : Nat
  /-- Operations performed so far, oldest first. -/
  trace : List Event

/-- Outcomes of the layers below the sysfs file. -/
structure Env where
  c : Consts
  /-- The DSP symbol table: `(name, block type, algorithm id)` to return code and
  register address. -/
  sym : String → Nat → Nat → Int × Nat
  /-- Return code of the n-th bus or driver-core call (0 is success). -/
  rc : Nat → Int
  /-- Value delivered by the n-th call when it is a successful driver-core getter. -/
  getter : Nat → Nat
  /-- Content of a local variable that the n-th call left unwritten because it
  failed (the locals are not initialised). -/
  uninit : Nat → Nat

/-- Return value of a handler together with the state it leaves. -/
structure Result where
  ret : Int
  st : State

/-- How a call of a handler ends: it returns, or it evaluates an unsigned division
whose divisor is zero (`st` is then the state reached at the division). -/
inductive Outcome
  | returned (r : Result)
  | div_by_zero (st : State)

/-- The state in which a call ends. -/
def Outcome.st : Outcome → State
  | .returned r => r.st
  | .div_by_zero st => st

/-- The value a call returns, if it returns. -/
def Outcome.ret : Outcome → Option Int
  | .returned r => some r.ret
  | .div_by_zero _ => none

/-- The operations appended to the trace between the states `s` and `s'`. -/
def events_since (s s' : State) : List Event :=
  s'.trace.drop s.trace.length

/-! ## Primitive operations -/

/-- Result of a call that delivers a value through a pointer argument: the return
code, the content of the pointed-to variable after the call, the state. -/
structure Fetch where
  ret : Int
  val : Nat
  st : State

def emit (ev : Event) (s : State) : State :=
  { s with trace := s.trace ++ [ev] }

def pm_runtime_get_sync (s : State) : State :=
  emit .pm_runtime_get_sync { s with usage_count := s.usage_count + 1 }

def pm_runtime_mark_last_busy (s : State) : State :=
  emit .pm_runtime_mark_last_busy s

def pm_runtime_put_autosuspend (s : State) : State :=
  emit .pm_runtime_put_autosuspend { s with usage_count := s.usage_count - 1 }

def mutex_lock (s : State) : State :=
  emit .mutex_lock { s with lock_misuse := s.lock_misuse || s.lock_held, lock_held := true }

def mutex_unlock (s : State) : State :=
  emit .mutex_unlock { s with lock_misuse := s.lock_misuse || !s.lock_held, lock_held := false }

/-- Read of a private-state field. -/
def priv_read (f : Field) (s : State) : State :=
  emit (.priv_read f) s

/-- Write of a private-state field: `priv` is the private data after the write. -/
def priv_write (f : Field) (priv : cs40l26_private) (s : State) : State :=
  emit (.priv_write f) { s with priv := priv }

/-- The call `cl_dsp_get_reg(cs40l26->dsp, name, block_type, algo_id, &reg)`. -/
def cl_dsp_get_reg (e : Env) (name : String) (block_type algo_id : Nat) (s : State) : Fetch :=
  { ret := (e.sym name block_type algo_id).1
    val := u32 (e.sym name block_type algo_id).2
    st := emit (.cl_dsp_get_reg name block_type algo_id (e.sym name block_type algo_id).1) s }

/-- The call `regmap_read(cs40l26->regmap, reg, &val)`: on success `val` is the word
at `reg`; on failure `val` keeps its indeterminate content. -/
def regmap_read (e : Env) (reg : Nat) (s : State) : Fetch :=
  { ret := e.rc s.ncalls
    val := if e.rc s.ncalls = 0 then u32 (s.regs reg) else u32 (e.uninit s.ncalls)
    st := emit (.regmap_read reg (e.rc s.ncalls)) { s with ncalls := s.ncalls + 1 } }

/-- The call `regmap_write(cs40l26->regmap, reg, val)`. -/
def regmap_write (e : Env) (reg val : Nat) (s : State) : Result :=
  { ret := e.rc s.ncalls
    st := emit (.regmap_write reg val (e.rc s.ncalls))
      { s with
        ncalls := s.ncalls + 1
        regs := if e.rc s.ncalls = 0 then Function.update s.regs reg (u32 val) else s.regs } }

/-- The call `regmap_update_bits(cs40l26->regmap, reg, mask, val)`. -/
def regmap_update_bits (e : Env) (reg mask val : Nat) (s : State) : Result :=
  { ret := e.rc s.ncalls
    st := emit (.regmap_update_bits reg mask val (e.rc s.ncalls))
      { s with
        ncalls := s.ncalls + 1
        regs := if e.rc s.ncalls = 0 then
            Function.update s.regs reg
              ((u32 (s.regs reg) &&& (u32 mask ^^^ UINT_MAX)) ||| (u32 val &&& u32 mask))
          else s.regs } }

/-- The call `cs40l26_ack_write(cs40l26, reg, write_val, reset_val)` of the driver core. -/
def cs40l26_ack_write (e : Env) (reg write_val reset_val : Nat) (s : State) : Result :=
  { ret := e.rc s.ncalls
    st := emit (.cs40l26_ack_write reg write_val reset_val (e.rc s.ncalls))
      { s with ncalls := s.ncalls + 1 } }

/-- The call `cs40l26_dsp_state_get(cs40l26, &dsp_state)` of the driver core. -/
def cs40l26_dsp_state_get (e : Env) (s : State) : Fetch :=
  { ret := e.rc s.ncalls
    val := if e.rc s.ncalls = 0 then u8 (e.getter s.ncalls) else u8 (e.uninit s.ncalls)
    st := emit (.cs40l26_dsp_state_get (e.rc s.ncalls)) { s with ncalls := s.ncalls + 1 } }

/-- The call `cs40l26_pm_timeout_ms_get(cs40l26, &timeout_ms)` of the driver core. -/
def cs40l26_pm_timeout_ms_get (e : Env) (s : State) : Fetch :=
  { ret := e.rc s.ncalls
    val := if e.rc s.ncalls = 0 then u32 (e.getter s.ncalls) else u32 (e.uninit s.ncalls)
    st := emit (.cs40l26_pm_timeout_ms_get (e.rc s.ncalls)) { s with ncalls := s.ncalls + 1 } }

/-- The call `cs40l26_pm_timeout_ms_set(cs40l26, timeout_ms)` of the driver core. -/
def cs40l26_pm_timeout_ms_set (e : Env) (timeout_ms : Nat) (s : State) : Result :=
  { ret := e.rc s.ncalls
    st := emit (.cs40l26_pm_timeout_ms_set timeout_ms (e.rc s.ncalls))
      { s with ncalls := s.ncalls + 1 } }

/-- The call `cs40l26_get_num_waves(cs40l26, &nwaves)` of the driver core. -/
def cs40l26_get_num_waves (e : Env) (s : State) : Fetch :=
  { ret := e.rc s.ncalls
    val := if e.rc s.ncalls = 0 then u32 (e.getter s.ncalls) else u32 (e.uninit s.ncalls)
    st := emit (.cs40l26_get_num_waves (e.rc s.ncalls)) { s with ncalls := s.ncalls + 1 } }

/-- The call `cs40l26_fw_swap(cs40l26, id)` of the driver core. -/
def cs40l26_fw_swap (e : Env) (id : Nat) (s : State) : Result :=
  { ret := e.rc s.ncalls
    st := emit (.cs40l26_fw_swap id (e.rc s.ncalls)) { s with ncalls := s.ncalls + 1 } }

/-- The call `snprintf(buf, size, ...)` with the formatted text `text`: stores at
most `size - 1` characters and returns the length of the whole text. -/
def snprintf (size : Nat) (text : List Char) (s : State) : Result :=
  { ret := (text.length : Int)
    st := emit (.snprintf (text.take (size - 1))) { s with buf := text.take (size - 1) } }

/-! ## The handlers of the `default` attribute group

A label reached by `goto` is a local function; a `goto` is a call of it. -/

def dsp_state_show (e : Env) (s : State) : Result :=
  let s := pm_runtime_get_sync s
  let r := cs40l26_dsp_state_get e s
  let ret := r.ret
  let dsp_state := r.val
  let s := pm_runtime_mark_last_busy r.st
  let s := pm_runtime_put_autosuspend s
  if ret ≠ 0 then ⟨ret, s⟩
  else snprintf e.c.PAGE_SIZE (fmt_u (dsp_state &&& 0xFF) ++ ['\n']) s

def halo_heartbeat_show (e : Env) (s : State) : Result :=
  let s := priv_read .fw_id s
  let r := cl_dsp_get_reg e "HALO_HEARTBEAT" e.c.CL_DSP_XM_UNPACKED_TYPE s.priv.fw_id s
  if r.ret ≠ 0 then ⟨r.ret, r.st⟩
  else
    let reg := r.val
    let s := pm_runtime_get_sync r.st
    let r := regmap_read e reg s
    let ret := r.ret
    let halo_heartbeat := r.val
    let s := pm_runtime_mark_last_busy r.st
    let s := pm_runtime_put_autosuspend s
    if ret ≠ 0 then ⟨ret, s⟩
    else snprintf e.c.PAGE_SIZE (fmt_d (to_int halo_heartbeat) ++ ['\n']) s

def fw_mode_show (e : Env) (s : State) : Result :=
  let s := mutex_lock s
  let s := priv_read .fw_mode s
  let ret : Int :=
    if s.priv.fw_mode ≠ e.c.CS40L26_FW_MODE_ROM ∧ s.priv.fw_mode ≠ e.c.CS40L26_FW_MODE_RAM
    then -EINVAL else 0
  let mode := s.priv.fw_mode
  let s := mutex_unlock s
  if ret ≠ 0 then ⟨ret, s⟩
  else snprintf e.c.PAGE_SIZE (fmt_u (u32 mode) ++ ['\n']) s

def pm_timeout_ms_show (e : Env) (s : State) : Result :=
  let s := pm_runtime_get_sync s
  let r := cs40l26_pm_timeout_ms_get e s
  let ret := r.ret
  let timeout_ms := r.val
  let s := pm_runtime_mark_last_busy r.st
  let s := pm_runtime_put_autosuspend s
  if ret ≠ 0 then ⟨ret, s⟩
  else snprintf e.c.PAGE_SIZE (fmt_u timeout_ms ++ ['\n']) s

def pm_timeout_ms_store (e : Env) (buf : List Char) (count : Nat) (s : State) : Result :=
  match kstrtou32 buf 10 with
  | .error _ => ⟨-EINVAL, s⟩
  | .ok timeout_ms =>
    if timeout_ms < e.c.CS40L26_PM_TIMEOUT_MS_MIN then ⟨-EINVAL, s⟩
    else
      let s := pm_runtime_get_sync s
      let r := cs40l26_pm_timeout_ms_set e timeout_ms s
      let ret := r.ret
      let s := pm_runtime_mark_last_busy r.st
      let s := pm_runtime_put_autosuspend s
      if ret ≠ 0 then ⟨ret, s⟩ else ⟨count, s⟩

def vibe_state_show (e : Env) (s : State) : Result :=
  let s := mutex_lock s
  let s := priv_read .vibe_state s
  let state := s.priv.vibe_state
  let s := mutex_unlock s
  snprintf e.c.PAGE_SIZE (fmt_u (u32 state) ++ ['\n']) s

/-- The loop `list_for_each_entry_reverse` of `power_on_seq_show`: each entry is
written to the kernel log and counted. -/
def pseq_count (ops : List cs40l26_pseq_op) : Int :=
  ops.reverse.foldl (fun count _ => count + 1) 0

def power_on_seq_show (e : Env) (s : State) : Result :=
  let s := priv_read .pseq_base s
  let s := mutex_lock s
  let s := priv_read .pseq_op_head s
  if s.priv.pseq_op_head.isEmpty then
    let s := mutex_unlock s
    ⟨-EINVAL, s⟩
  else
    let count := pseq_count s.priv.pseq_op_head
    let s := mutex_unlock s
    let s := priv_read .pseq_num_ops s
    if count ≠ s.priv.pseq_num_ops then ⟨-EINVAL, s⟩
    else
      let s := priv_read .pseq_num_ops s
      snprintf e.c.PAGE_SIZE (fmt_d s.priv.pseq_num_ops ++ ['\n']) s

def owt_free_space_show (e : Env) (s : State) : Result :=
  let err_pm (ret : Int) (s : State) : Result :=
    let s := pm_runtime_mark_last_busy s
    let s := pm_runtime_put_autosuspend s
    ⟨ret, s⟩
  let s := pm_runtime_get_sync s
  let r := cl_dsp_get_reg e "OWT_SIZE_XM" e.c.CL_DSP_XM_UNPACKED_TYPE e.c.CS40L26_VIBEGEN_ALGO_ID s
  if r.ret ≠ 0 then err_pm r.ret r.st
  else
    let r := regmap_read e r.val r.st
    if r.ret ≠ 0 then err_pm r.ret r.st
    else
      let words := r.val
      let r := snprintf e.c.PAGE_SIZE
        (fmt_d (to_int (u32 (words * e.c.CL_DSP_BYTES_PER_WORD))) ++ ['\n']) r.st
      err_pm r.ret r.st

def die_temp_show (e : Env) (s : State) : Result :=
  let err_pm (ret : Int) (s : State) : Result :=
    let s := pm_runtime_mark_last_busy s
    let s := pm_runtime_put_autosuspend s
    ⟨ret, s⟩
  let s := pm_runtime_get_sync s
  let r := regmap_read e e.c.CS40L26_GLOBAL_ENABLES s
  if r.ret ≠ 0 then err_pm r.ret r.st
  else if r.val &&& e.c.CS40L26_GLOBAL_EN_MASK = 0 then err_pm (-EPERM) r.st
  else
    let r := regmap_read e e.c.CS40L26_ENABLES_AND_CODES_DIG r.st
    if r.ret ≠ 0 then err_pm r.ret r.st
    else
      let val := r.val
      let die_temp := u16 ((val &&& e.c.CS40L26_TEMP_RESULT_FILT_MASK) >>>
        e.c.CS40L26_TEMP_RESULT_FILT_SHIFT)
      let r := snprintf e.c.PAGE_SIZE (['0', 'x'] ++ fmt_0X 3 die_temp ++ ['\n']) r.st
      err_pm r.ret r.st

def num_waves_show (e : Env) (s : State) : Result :=
  let err_pm (ret : Int) (s : State) : Result :=
    let s := pm_runtime_mark_last_busy s
    let s := pm_runtime_put_autosuspend s
    ⟨ret, s⟩
  let s := pm_runtime_get_sync s
  let r := cs40l26_get_num_waves e s
  if r.ret ≠ 0 then err_pm r.ret r.st
  else
    let nwaves := r.val
    let r := snprintf e.c.PAGE_SIZE (fmt_u nwaves ++ ['\n']) r.st
    err_pm r.ret r.st

def boost_disable_delay_show (e : Env) (s : State) : Result :=
  let err_pm (ret : Int) (s : State) : Result :=
    let s := pm_runtime_mark_last_busy s
    let s := pm_runtime_put_autosuspend s
    ⟨ret, s⟩
  let s := pm_runtime_get_sync s
  let r := cl_dsp_get_reg e "BOOST_DISABLE_DELAY" e.c.CL_DSP_XM_UNPACKED_TYPE
    e.c.CS40L26_EXT_ALGO_ID s
  if r.ret ≠ 0 then err_pm r.ret r.st
  else
    let r := regmap_read e r.val r.st
    if r.ret ≠ 0 then err_pm r.ret r.st
    else
      let boost_disable_delay := r.val
      let r := snprintf e.c.PAGE_SIZE (fmt_d (to_int boost_disable_delay) ++ ['\n']) r.st
      err_pm r.ret r.st

def boost_disable_delay_store (e : Env) (buf : List Char) (count : Nat) (s : State) : Result :=
  let err_pm (ret : Int) (s : State) : Result :=
    let s := pm_runtime_mark_last_busy s
    let s := pm_runtime_put_autosuspend s
    if ret ≠ 0 then ⟨ret, s⟩ else ⟨count, s⟩
  match kstrtou32 buf 10 with
  | .error _ => ⟨-EINVAL, s⟩
  | .ok boost_disable_delay =>
    if boost_disable_delay < e.c.CS40L26_BOOST_DISABLE_DELAY_MIN ∨
        boost_disable_delay > e.c.CS40L26_BOOST_DISABLE_DELAY_MAX then ⟨-EINVAL, s⟩
    else
      let s := pm_runtime_get_sync s
      let r := cl_dsp_get_reg e "BOOST_DISABLE_DELAY" e.c.CL_DSP_XM_UNPACKED_TYPE
        e.c.CS40L26_EXT_ALGO_ID s
      if r.ret ≠ 0 then err_pm r.ret r.st
      else
        let r := regmap_write e r.val boost_disable_delay r.st
        err_pm r.ret r.st

def f0_offset_show (e : Env) (s : State) : Result :=
  let err_mutex (ret : Int) (s : State) : Result :=
    let s := mutex_unlock s
    let s := pm_runtime_mark_last_busy s
    let s := pm_runtime_put_autosuspend s
    ⟨ret, s⟩
  let s := pm_runtime_get_sync s
  let s := mutex_lock s
  let r := cl_dsp_get_reg e "F0_OFFSET" e.c.CL_DSP_XM_UNPACKED_TYPE e.c.CS40L26_VIBEGEN_ALGO_ID s
  if r.ret ≠ 0 then err_mutex r.ret r.st
  else
    let r := regmap_read e r.val r.st
    if r.ret ≠ 0 then err_mutex r.ret r.st
    else
      let val := r.val
      let r := snprintf e.c.PAGE_SIZE (fmt_u val ++ ['\n']) r.st
      err_mutex r.ret r.st

def f0_offset_store (e : Env) (buf : List Char) (count : Nat) (s : State) : Result :=
  let err_mutex (ret : Int) (s : State) : Result :=
    let s := mutex_unlock s
    let s := pm_runtime_mark_last_busy s
    let s := pm_runtime_put_autosuspend s
    ⟨ret, s⟩
  match kstrtou32 buf 10 with
  | .error _ => ⟨-EINVAL, s⟩
  | .ok val =>
    if val > e.c.CS40L26_F0_OFFSET_MAX ∧ val < e.c.CS40L26_F0_OFFSET_MIN then ⟨-EINVAL, s⟩
    else
      let s := pm_runtime_get_sync s
      let s := mutex_lock s
      let r := cl_dsp_get_reg e "F0_OFFSET" e.c.CL_DSP_XM_UNPACKED_TYPE
        e.c.CS40L26_VIBEGEN_ALGO_ID s
      if r.ret ≠ 0 then err_mutex r.ret r.st
      else
        let r := regmap_write e r.val val r.st
        if r.ret ≠ 0 then err_mutex r.ret r.st
        else err_mutex (to_int count) r.st

def delay_before_stop_playback_us_show (e : Env) (s : State) : Result :=
  let s := mutex_lock s
  let s := priv_read .delay_before_stop_playback_us s
  let r := snprintf e.c.PAGE_SIZE
    (fmt_d (to_int s.priv.delay_before_stop_playback_us) ++ ['\n']) s
  let s := mutex_unlock r.st
  ⟨r.ret, s⟩

def delay_before_stop_playback_us_store (_e : Env) (buf : List Char) (count : Nat) (s : State) :
    Result :=
  match kstrtou32 buf 10 with
  | .error _ => ⟨-EINVAL, s⟩
  | .ok val =>
    let s := mutex_lock s
    let s := priv_write .delay_before_stop_playback_us
      { s.priv with delay_before_stop_playback_us := val } s
    let s := mutex_unlock s
    ⟨count, s⟩

/-! ## The handlers of the `calibration` attribute group -/

def trigger_calibration_store (e : Env) (buf : List Char) (count : Nat) (s : State) : Result :=
  match kstrtou32 buf 16 with
  | .error _ => ⟨-EINVAL, s⟩
  | .ok calibration_request_payload =>
    if calibration_request_payload < 1 ∨ calibration_request_payload > 2 then ⟨-EINVAL, s⟩
    else
      let mailbox_command :=
        u32 ((u32 (e.c.CS40L26_DSP_MBOX_CMD_INDEX_CALIBRATION_CONTROL <<<
              e.c.CS40L26_DSP_MBOX_CMD_INDEX_SHIFT) &&&
            e.c.CS40L26_DSP_MBOX_CMD_INDEX_MASK) |||
          (calibration_request_payload &&& e.c.CS40L26_DSP_MBOX_CMD_PAYLOAD_MASK))
      -- pm_runtime_put occurs is irq_handler after diagnostic is finished
      let s := pm_runtime_get_sync s
      let s := mutex_lock s
      let r := cs40l26_ack_write e e.c.CS40L26_DSP_VIRTUAL1_MBOX_1 mailbox_command
        e.c.CS40L26_DSP_MBOX_RESET s
      if r.ret ≠ 0 then
        let s := priv_write .cal_requested { r.st.priv with cal_requested := 0 } r.st
        let s := mutex_unlock s
        ⟨r.ret, s⟩
      else
        let s := priv_write .cal_requested
          { r.st.priv with cal_requested := calibration_request_payload } r.st
        let s := mutex_unlock s
        ⟨to_int count, s⟩

def f0_measured_show (e : Env) (s : State) : Result :=
  let err_mutex (ret : Int) (f0_measured : Nat) (s : State) : Result :=
    let s := mutex_unlock s
    let s := pm_runtime_mark_last_busy s
    let s := pm_runtime_put_autosuspend s
    if ret ≠ 0 then ⟨ret, s⟩
    else snprintf e.c.PAGE_SIZE (fmt_0X 8 f0_measured ++ ['\n']) s
  let s := pm_runtime_get_sync s
  let s := mutex_lock s
  let r := cl_dsp_get_reg e "F0_EST" e.c.CL_DSP_XM_UNPACKED_TYPE e.c.CS40L26_F0_EST_ALGO_ID s
  if r.ret ≠ 0 then err_mutex r.ret (u32 (e.uninit r.st.ncalls)) r.st
  else
    let r := regmap_read e r.val r.st
    err_mutex r.ret r.val r.st

def q_measured_show (e : Env) (s : State) : Result :=
  let err_mutex (ret : Int) (q_measured : Nat) (s : State) : Result :=
    let s := mutex_unlock s
    let s := pm_runtime_mark_last_busy s
    let s := pm_runtime_put_autosuspend s
    if ret ≠ 0 then ⟨ret, s⟩
    else snprintf e.c.PAGE_SIZE (fmt_0X 8 q_measured ++ ['\n']) s
  let s := pm_runtime_get_sync s
  let s := mutex_lock s
  let r := cl_dsp_get_reg e "Q_EST" e.c.CL_DSP_XM_UNPACKED_TYPE e.c.CS40L26_F0_EST_ALGO_ID s
  if r.ret ≠ 0 then err_mutex r.ret (u32 (e.uninit r.st.ncalls)) r.st
  else
    let r := regmap_read e r.val r.st
    err_mutex r.ret r.val r.st

def redc_measured_show (e : Env) (s : State) : Result :=
  let err_mutex (ret : Int) (redc_measured : Nat) (s : State) : Result :=
    let s := mutex_unlock s
    let s := pm_runtime_mark_last_busy s
    let s := pm_runtime_put_autosuspend s
    if ret ≠ 0 then ⟨ret, s⟩
    else snprintf e.c.PAGE_SIZE (fmt_0X 8 redc_measured ++ ['\n']) s
  let s := pm_runtime_get_sync s
  let s := mutex_lock s
  let r := cl_dsp_get_reg e "RE_EST_STATUS" e.c.CL_DSP_YM_UNPACKED_TYPE e.c.CS40l26_SVC_ALGO_ID s
  if r.ret ≠ 0 then err_mutex r.ret (u32 (e.uninit r.st.ncalls)) r.st
  else
    let r := regmap_read e r.val r.st
    err_mutex r.ret r.val r.st

def redc_est_show (e : Env) (s : State) : Result :=
  let err_mutex (ret : Int) (redc_est : Nat) (s : State) : Result :=
    let s := mutex_unlock s
    let s := pm_runtime_mark_last_busy s
    let s := pm_runtime_put_autosuspend s
    if ret ≠ 0 then ⟨ret, s⟩
    else snprintf e.c.PAGE_SIZE (fmt_0X 8 redc_est ++ ['\n']) s
  let s := pm_runtime_get_sync s
  let s := mutex_lock s
  let r := cl_dsp_get_reg e "REDC" e.c.CL_DSP_XM_UNPACKED_TYPE e.c.CS40L26_F0_EST_ALGO_ID s
  if r.ret ≠ 0 then err_mutex r.ret (u32 (e.uninit r.st.ncalls)) r.st
  else
    let r := regmap_read e r.val r.st
    err_mutex r.ret r.val r.st

def redc_est_store (e : Env) (buf : List Char) (count : Nat) (s : State) : Result :=
  let err_mutex (ret : Int) (s : State) : Result :=
    let s := mutex_unlock s
    let s := pm_runtime_mark_last_busy s
    let s := pm_runtime_put_autosuspend s
    if ret ≠ 0 then ⟨ret, s⟩ else ⟨count, s⟩
  match kstrtou32 buf 16 with
  | .error ret => ⟨ret, s⟩
  | .ok redc_est =>
    let s := pm_runtime_get_sync s
    let s := mutex_lock s
    let r := cl_dsp_get_reg e "REDC" e.c.CL_DSP_XM_UNPACKED_TYPE e.c.CS40L26_F0_EST_ALGO_ID s
    if r.ret ≠ 0 then err_mutex r.ret r.st
    else
      let r := regmap_write e r.val redc_est r.st
      err_mutex r.ret r.st

def f0_stored_show (e : Env) (s : State) : Result :=
  let err_mutex (ret : Int) (f0_stored : Nat) (s : State) : Result :=
    let s := mutex_unlock s
    let s := pm_runtime_mark_last_busy s
    let s := pm_runtime_put_autosuspend s
    if ret ≠ 0 then ⟨ret, s⟩
    else snprintf e.c.PAGE_SIZE (fmt_0X 8 f0_stored ++ ['\n']) s
  let s := pm_runtime_get_sync s
  let s := mutex_lock s
  let r := cl_dsp_get_reg e "F0_OTP_STORED" e.c.CL_DSP_XM_UNPACKED_TYPE e.c.CS40L26_VIBEGEN_ALGO_ID s
  if r.ret ≠ 0 then err_mutex r.ret (u32 (e.uninit r.st.ncalls)) r.st
  else
    let r := regmap_read e r.val r.st
    err_mutex r.ret r.val r.st

def f0_stored_store (e : Env) (buf : List Char) (count : Nat) (s : State) : Result :=
  let err_mutex (ret : Int) (s : State) : Result :=
    let s := mutex_unlock s
    let s := pm_runtime_mark_last_busy s
    let s := pm_runtime_put_autosuspend s
    if ret ≠ 0 then ⟨ret, s⟩ else ⟨count, s⟩
  match kstrtou32 buf 16 with
  | .error _ => ⟨-EINVAL, s⟩
  | .ok f0_stored =>
    if f0_stored < e.c.CS40L26_F0_EST_MIN ∨ f0_stored > e.c.CS40L26_F0_EST_MAX then ⟨-EINVAL, s⟩
    else
      let s := pm_runtime_get_sync s
      let s := mutex_lock s
      let r := cl_dsp_get_reg e "F0_OTP_STORED" e.c.CL_DSP_XM_UNPACKED_TYPE e.c.CS40L26_VIBEGEN_ALGO_ID s
      if r.ret ≠ 0 then err_mutex r.ret r.st
      else
        let r := regmap_write e r.val f0_stored r.st
        err_mutex r.ret r.st

def q_stored_show (e : Env) (s : State) : Result :=
  let err_mutex (ret : Int) (q_stored : Nat) (s : State) : Result :=
    let s := mutex_unlock s
    let s := pm_runtime_mark_last_busy s
    let s := pm_runtime_put_autosuspend s
    if ret ≠ 0 then ⟨ret, s⟩
    else snprintf e.c.PAGE_SIZE (fmt_0X 8 q_stored ++ ['\n']) s
  let s := pm_runtime_get_sync s
  let s := mutex_lock s
  let r := cl_dsp_get_reg e "Q_STORED" e.c.CL_DSP_XM_UNPACKED_TYPE e.c.CS40L26_VIBEGEN_ALGO_ID s
  if r.ret ≠ 0 then err_mutex r.ret (u32 (e.uninit r.st.ncalls)) r.st
  else
    let r := regmap_read e r.val r.st
    err_mutex r.ret r.val r.st

def q_stored_store (e : Env) (buf : List Char) (count : Nat) (s : State) : Result :=
  let err_mutex (ret : Int) (s : State) : Result :=
    let s := mutex_unlock s
    let s := pm_runtime_mark_last_busy s
    let s := pm_runtime_put_autosuspend s
    if ret ≠ 0 then ⟨ret, s⟩ else ⟨count, s⟩
  match kstrtou32 buf 16 with
  | .error _ => ⟨-EINVAL, s⟩
  | .ok q_stored =>
    if q_stored < e.c.CS40L26_Q_EST_MIN ∨ q_stored > e.c.CS40L26_Q_EST_MAX then ⟨-EINVAL, s⟩
    else
      let s := pm_runtime_get_sync s
      let s := mutex_lock s
      let r := cl_dsp_get_reg e "Q_STORED" e.c.CL_DSP_XM_UNPACKED_TYPE e.c.CS40L26_VIBEGEN_ALGO_ID s
      if r.ret ≠ 0 then err_mutex r.ret r.st
      else
        let r := regmap_write e r.val q_stored r.st
        err_mutex r.ret r.st

def redc_stored_show (e : Env) (s : State) : Result :=
  let err_mutex (ret : Int) (redc_stored : Nat) (s : State) : Result :=
    let s := mutex_unlock s
    let s := pm_runtime_mark_last_busy s
    let s := pm_runtime_put_autosuspend s
    if ret ≠ 0 then ⟨ret, s⟩
    else snprintf e.c.PAGE_SIZE (fmt_0X 8 redc_stored ++ ['\n']) s
  let s := pm_runtime_get_sync s
  let s := mutex_lock s
  let r := cl_dsp_get_reg e "REDC_OTP_STORED" e.c.CL_DSP_XM_UNPACKED_TYPE e.c.CS40L26_VIBEGEN_ALGO_ID s
  if r.ret ≠ 0 then err_mutex r.ret (u32 (e.uninit r.st.ncalls)) r.st
  else
    let r := regmap_read e r.val r.st
    err_mutex r.ret r.val r.st

def redc_stored_store (e : Env) (buf : List Char) (count : Nat) (s : State) : Result :=
  let err_mutex (ret : Int) (s : State) : Result :=
    let s := mutex_unlock s
    let s := pm_runtime_mark_last_busy s
    let s := pm_runtime_put_autosuspend s
    if ret ≠ 0 then ⟨ret, s⟩ else ⟨count, s⟩
  match kstrtou32 buf 16 with
  | .error ret => ⟨ret, s⟩
  | .ok redc_stored =>
    let s := pm_runtime_get_sync s
    let s := mutex_lock s
    let r := cl_dsp_get_reg e "REDC_OTP_STORED" e.c.CL_DSP_XM_UNPACKED_TYPE e.c.CS40L26_VIBEGEN_ALGO_ID s
    if r.ret ≠ 0 then err_mutex r.ret r.st
    else
      let r := regmap_write e r.val redc_stored r.st
      err_mutex r.ret r.st

/-- The handler `f0_and_q_cal_time_ms_show`. The outcome is `div_by_zero` when the
unsigned division is evaluated with a zero divisor. When the read of FREQ_CENTRE
fails the source does not jump to `err_mutex`, so the quotient is still evaluated,
on the indeterminate content of `freq_centre`. -/
def f0_and_q_cal_time_ms_show (e : Env) (s : State) : Outcome :=
  let err_mutex (ret : Int) (f0_and_q_cal_time_ms : Nat) (s : State) : Outcome :=
    let s := mutex_unlock s
    let s := pm_runtime_mark_last_busy s
    let s := pm_runtime_put_autosuspend s
    if ret ≠ 0 then .returned ⟨ret, s⟩
    else .returned (snprintf e.c.PAGE_SIZE (fmt_d (to_int f0_and_q_cal_time_ms) ++ ['\n']) s)
  let s := pm_runtime_get_sync s
  let s := mutex_lock s
  let r := cl_dsp_get_reg e "FREQ_SPAN" e.c.CL_DSP_XM_UNPACKED_TYPE e.c.CS40L26_F0_EST_ALGO_ID s
  if r.ret ≠ 0 then err_mutex r.ret (u32 (e.uninit r.st.ncalls)) r.st
  else
    let r := regmap_read e r.val r.st
    if r.ret ≠ 0 then err_mutex r.ret (u32 (e.uninit r.st.ncalls)) r.st
    else
      let freq_span := r.val
      let r := cl_dsp_get_reg e "FREQ_CENTRE" e.c.CL_DSP_XM_UNPACKED_TYPE
        e.c.CS40L26_F0_EST_ALGO_ID r.st
      if r.ret ≠ 0 then err_mutex r.ret (u32 (e.uninit r.st.ncalls)) r.st
      else
        let r := regmap_read e r.val r.st
        let freq_centre := r.val
        if freq_centre >>> e.c.CS40L26_F0_EST_FREQ_SHIFT = 0 then .div_by_zero r.st
        else
          let f0_and_q_cal_time_ms :=
            u32 (u32 (e.c.CS40L26_F0_CHIRP_DURATION_FACTOR *
                  (freq_span >>> e.c.CS40L26_F0_EST_FREQ_SHIFT)) /
                (freq_centre >>> e.c.CS40L26_F0_EST_FREQ_SHIFT) +
              e.c.CS40L26_F0_AND_Q_CALIBRATION_BUFFER_MS)
          err_mutex r.ret f0_and_q_cal_time_ms r.st

def redc_cal_time_ms_show (e : Env) (s : State) : Result :=
  let err_mutex (ret : Int) (redc_total_cal_time_ms : Nat) (s : State) : Result :=
    let s := mutex_unlock s
    let s := pm_runtime_mark_last_busy s
    let s := pm_runtime_put_autosuspend s
    if ret ≠ 0 then ⟨ret, s⟩
    else snprintf e.c.PAGE_SIZE (fmt_d (to_int redc_total_cal_time_ms) ++ ['\n']) s
  let s := pm_runtime_get_sync s
  let s := mutex_lock s
  let s := priv_read .fw_id s
  let r := cl_dsp_get_reg e "REDC_PLAYTIME_MS" e.c.CL_DSP_XM_UNPACKED_TYPE s.priv.fw_id s
  if r.ret ≠ 0 then err_mutex r.ret (u32 (e.uninit r.st.ncalls)) r.st
  else
    let r := regmap_read e r.val r.st
    let redc_playtime_ms := r.val
    let redc_total_cal_time_ms :=
      u32 (redc_playtime_ms + e.c.CS40L26_SVC_INITIALIZATION_PERIOD_MS +
        e.c.CS40L26_REDC_CALIBRATION_BUFFER_MS)
    err_mutex r.ret redc_total_cal_time_ms r.st

def logging_en_show (e : Env) (s : State) : Result :=
  let err_mutex (ret : Int) (s : State) : Result :=
    let s := mutex_unlock s
    let s := pm_runtime_mark_last_busy s
    let s := pm_runtime_put_autosuspend s
    ⟨ret, s⟩
  let s := pm_runtime_get_sync s
  let s := mutex_lock s
  let r := cl_dsp_get_reg e "ENABLE" e.c.CL_DSP_XM_UNPACKED_TYPE e.c.CS40L26_LOGGER_ALGO_ID s
  if r.ret ≠ 0 then err_mutex r.ret r.st
  else
    let r := regmap_read e r.val r.st
    if r.ret ≠ 0 then err_mutex r.ret r.st
    else
      let enable := r.val
      let r := snprintf e.c.PAGE_SIZE (fmt_d (to_int enable) ++ ['\n']) r.st
      err_mutex r.ret r.st

def logging_en_store (e : Env) (buf : List Char) (count : Nat) (s : State) : Result :=
  let src_val := e.c.CS40L26_LOGGER_SRC_SIZE_MASK
  let src_mask := src_val ||| e.c.CS40L26_LOGGER_SRC_ID_MASK
  let exit_mutex (_ret : Int) (s : State) : Result :=
    let s := mutex_unlock s
    let s := pm_runtime_mark_last_busy s
    let s := pm_runtime_put_autosuspend s
    ⟨count, s⟩
  match kstrtou32 buf 10 with
  | .error ret => ⟨ret, s⟩
  | .ok enable =>
    if enable ≠ 0 ∧ enable ≠ 1 then ⟨-EINVAL, s⟩
    else
      let s := pm_runtime_get_sync s
      let s := mutex_lock s
      let r := cl_dsp_get_reg e "ENABLE" e.c.CL_DSP_XM_UNPACKED_TYPE e.c.CS40L26_LOGGER_ALGO_ID s
      if r.ret ≠ 0 then exit_mutex r.ret r.st
      else
        let r := regmap_write e r.val enable r.st
        if r.ret ≠ 0 then exit_mutex r.ret r.st
        else if enable = 0 then exit_mutex r.ret r.st
        else
          let r := cl_dsp_get_reg e "COUNT" e.c.CL_DSP_XM_UNPACKED_TYPE
            e.c.CS40L26_LOGGER_ALGO_ID r.st
          if r.ret ≠ 0 then exit_mutex r.ret r.st
          else
            let r := regmap_write e r.val 2 r.st
            if r.ret ≠ 0 then exit_mutex r.ret r.st
            else
              let r := cl_dsp_get_reg e "SOURCE" e.c.CL_DSP_XM_UNPACKED_TYPE
                e.c.CS40L26_LOGGER_ALGO_ID r.st
              if r.ret ≠ 0 then exit_mutex r.ret r.st
              else
                let reg := r.val
                let r := regmap_update_bits e reg src_mask
                  (src_val ||| (1 <<< e.c.CS40L26_LOGGER_SRC_ID_SHIFT)) r.st
                if r.ret ≠ 0 then exit_mutex r.ret r.st
                else
                  let r := regmap_update_bits e (u32 (reg + 4)) src_mask
                    (src_val ||| (2 <<< e.c.CS40L26_LOGGER_SRC_ID_SHIFT)) r.st
                  exit_mutex r.ret r.st

def logging_max_reset_store (e : Env) (buf : List Char) (count : Nat) (s : State) : Result :=
  match kstrtou32 buf 10 with
  | .error ret => ⟨ret, s⟩
  | .ok rst =>
    if rst ≠ 1 then ⟨-EINVAL, s⟩
    else
      let s := pm_runtime_get_sync s
      let r := cs40l26_ack_write e e.c.CS40L26_DSP_VIRTUAL1_MBOX_1
        e.c.CS40L26_DSP_MBOX_CMD_LOGGER_MAX_RESET e.c.CS40L26_DSP_MBOX_RESET s
      let s := pm_runtime_mark_last_busy r.st
      let s := pm_runtime_put_autosuspend s
      ⟨count, s⟩

def max_bemf_show (e : Env) (s : State) : Result :=
  let err_mutex (ret : Int) (max_bemf : Nat) (s : State) : Result :=
    let s := mutex_unlock s
    let s := pm_runtime_mark_last_busy s
    let s := pm_runtime_put_autosuspend s
    if ret ≠ 0 then ⟨ret, s⟩
    else snprintf e.c.PAGE_SIZE (['0', 'x'] ++ fmt_0X 6 max_bemf ++ ['\n']) s
  let s := pm_runtime_get_sync s
  let s := mutex_lock s
  let r := cl_dsp_get_reg e "DATA" e.c.CL_DSP_XM_UNPACKED_TYPE e.c.CS40L26_LOGGER_ALGO_ID s
  if r.ret ≠ 0 then err_mutex r.ret (u32 (e.uninit r.st.ncalls)) r.st
  else
    let r := regmap_read e (u32 (r.val + 4)) r.st
    err_mutex r.ret r.val r.st

def max_vbst_show (e : Env) (s : State) : Result :=
  let err_mutex (ret : Int) (max_vbst : Nat) (s : State) : Result :=
    let s := mutex_unlock s
    let s := pm_runtime_mark_last_busy s
    let s := pm_runtime_put_autosuspend s
    if ret ≠ 0 then ⟨ret, s⟩
    else snprintf e.c.PAGE_SIZE (['0', 'x'] ++ fmt_0X 6 max_vbst ++ ['\n']) s
  let s := pm_runtime_get_sync s
  let s := mutex_lock s
  let r := cl_dsp_get_reg e "DATA" e.c.CL_DSP_XM_UNPACKED_TYPE e.c.CS40L26_LOGGER_ALGO_ID s
  if r.ret ≠ 0 then err_mutex r.ret (u32 (e.uninit r.st.ncalls)) r.st
  else
    let r := regmap_read e (u32 (r.val + 16)) r.st
    err_mutex r.ret r.val r.st

def calib_fw_load_show (e : Env) (s : State) : Result :=
  let s := mutex_lock s
  let s := priv_read .fw_id s
  if s.priv.fw_id = e.c.CS40L26_FW_ID then
    let r := snprintf e.c.PAGE_SIZE (fmt_d 0 ++ ['\n']) s
    let s := mutex_unlock r.st
    ⟨r.ret, s⟩
  else if s.priv.fw_id = e.c.CS40L26_FW_CALIB_ID then
    let r := snprintf e.c.PAGE_SIZE (fmt_d 1 ++ ['\n']) s
    let s := mutex_unlock r.st
    ⟨r.ret, s⟩
  else
    let s := mutex_unlock s
    ⟨-EINVAL, s⟩

def calib_fw_load_store (e : Env) (buf : List Char) (count : Nat) (s : State) : Result :=
  match kstrtou32 buf 10 with
  | .error ret => ⟨ret, s⟩
  | .ok variant =>
    if variant = 0 then
      let r := cs40l26_fw_swap e e.c.CS40L26_FW_ID s
      if r.ret ≠ 0 then ⟨r.ret, r.st⟩ else ⟨count, r.st⟩
    else if variant = 1 then
      let r := cs40l26_fw_swap e e.c.CS40L26_FW_CALIB_ID s
      if r.ret ≠ 0 then ⟨r.ret, r.st⟩ else ⟨count, r.st⟩
    else ⟨-EINVAL, s⟩

/-! ## The attribute tables -/

/-- The attributes of `cs40l26_dev_attrs` and `cs40l26_dev_attrs_cal`. -/
inductive Attr
  | num_waves
  | die_temp
  | owt_free_space
  | power_on_seq
  | dsp_state
  | halo_heartbeat
  | fw_mode
  | pm_timeout_ms
  | vibe_state
  | boost_disable_delay
  | f0_offset
  | delay_before_stop_playback_us
  | calib_fw_load
  | max_vbst
  | max_bemf
  | logging_max_reset
  | logging_en
  | trigger_calibration
  | f0_measured
  | q_measured
  | redc_measured
  | redc_est
  | f0_stored
  | q_stored
  | redc_stored
  | f0_and_q_cal_time_ms
  | redc_cal_time_ms
deriving DecidableEq, Repr

/-- The show handler of an attribute (`DEVICE_ATTR_RO`, `DEVICE_ATTR_RW`); `none` for a
write-only attribute.  -/
def Attr.show_handler : Attr → Option (Env → State → Outcome)
  | .num_waves => some fun e s => .returned (num_waves_show e s)
  | .die_temp => some fun e s => .returned (die_temp_show e s)
  | .owt_free_space => some fun e s => .returned (owt_free_space_show e s)
  | .power_on_seq => some fun e s => .returned (power_on_seq_show e s)
  | .dsp_state => some fun e s => .returned (dsp_state_show e s)
  | .halo_heartbeat => some fun e s => .returned (halo_heartbeat_show e s)
  | .fw_mode => some fun e s => .returned (fw_mode_show e s)
  | .pm_timeout_ms => some fun e s => .returned (pm_timeout_ms_show e s)
  | .vibe_state => some fun e s => .returned (vibe_state_show e s)
  | .boost_disable_delay => some fun e s => .returned (boost_disable_delay_show e s)
  | .f0_offset => some fun e s => .returned (f0_offset_show e s)
  | .delay_before_stop_playback_us => some fun e s => .returned (delay_before_stop_playback_us_show e s)
  | .calib_fw_load => some fun e s => .returned (calib_fw_load_show e s)
  | .max_vbst => some fun e s => .returned (max_vbst_show e s)
  | .max_bemf => some fun e s => .returned (max_bemf_show e s)
  | .logging_max_reset => none
  | .logging_en => some fun e s => .returned (logging_en_show e s)
  | .trigger_calibration => none
  | .f0_measured => some fun e s => .returned (f0_measured_show e s)
  | .q_measured => some fun e s => .returned (q_measured_show e s)
  | .redc_measured => some fun e s => .returned (redc_measured_show e s)
  | .redc_est => some fun e s => .returned (redc_est_show e s)
  | .f0_stored => some fun e s => .returned (f0_stored_show e s)
  | .q_stored => some fun e s => .returned (q_stored_show e s)
  | .redc_stored => some fun e s => .returned (redc_stored_show e s)
  | .f0_and_q_cal_time_ms => some f0_and_q_cal_time_ms_show
  | .redc_cal_time_ms => some fun e s => .returned (redc_cal_time_ms_show e s)

/-- The store handler of an attribute (`DEVICE_ATTR_WO`, `DEVICE_ATTR_RW`); `none` for a
read-only attribute. -/
def Attr.store_handler : Attr → Option (Env → List Char → Nat → State → Result)
  | .pm_timeout_ms => some pm_timeout_ms_store
  | .boost_disable_delay => some boost_disable_delay_store
  | .f0_offset => some f0_offset_store
  | .delay_before_stop_playback_us => some delay_before_stop_playback_us_store
  | .calib_fw_load => some calib_fw_load_store
  | .logging_max_reset => some logging_max_reset_store
  | .logging_en => some logging_en_store
  | .trigger_calibration => some trigger_calibration_store
  | .redc_est => some redc_est_store
  | .f0_stored => some f0_stored_store
  | .q_stored => some q_stored_store
  | .redc_stored => some redc_stored_store
  | _ => none

/-- The base each store handler passes to `kstrtou32`. -/
def Attr.store_base : Attr → Nat
  | .trigger_calibration => 16
  | .redc_est => 16
  | .f0_stored => 16
  | .q_stored => 16
  | .redc_stored => 16
  | _ => 10

/-- The firmware symbol (name, block type, algorithm id) behind an attribute whose
handlers resolve a single symbol with a fixed algorithm id. -/
def Attr.symbol (c : Consts) : Attr → String × Nat × Nat
  | .owt_free_space => ("OWT_SIZE_XM", c.CL_DSP_XM_UNPACKED_TYPE, c.CS40L26_VIBEGEN_ALGO_ID)
  | .boost_disable_delay => ("BOOST_DISABLE_DELAY", c.CL_DSP_XM_UNPACKED_TYPE, c.CS40L26_EXT_ALGO_ID)
  | .f0_offset => ("F0_OFFSET", c.CL_DSP_XM_UNPACKED_TYPE, c.CS40L26_VIBEGEN_ALGO_ID)
  | .f0_measured => ("F0_EST", c.CL_DSP_XM_UNPACKED_TYPE, c.CS40L26_F0_EST_ALGO_ID)
  | .q_measured => ("Q_EST", c.CL_DSP_XM_UNPACKED_TYPE, c.CS40L26_F0_EST_ALGO_ID)
  | .redc_measured => ("RE_EST_STATUS", c.CL_DSP_YM_UNPACKED_TYPE, c.CS40l26_SVC_ALGO_ID)
  | .redc_est => ("REDC", c.CL_DSP_XM_UNPACKED_TYPE, c.CS40L26_F0_EST_ALGO_ID)
  | .f0_stored => ("F0_OTP_STORED", c.CL_DSP_XM_UNPACKED_TYPE, c.CS40L26_VIBEGEN_ALGO_ID)
  | .q_stored => ("Q_STORED", c.CL_DSP_XM_UNPACKED_TYPE, c.CS40L26_VIBEGEN_ALGO_ID)
  | .redc_stored => ("REDC_OTP_STORED", c.CL_DSP_XM_UNPACKED_TYPE, c.CS40L26_VIBEGEN_ALGO_ID)
  | .logging_en => ("ENABLE", c.CL_DSP_XM_UNPACKED_TYPE, c.CS40L26_LOGGER_ALGO_ID)
  | .max_bemf => ("DATA", c.CL_DSP_XM_UNPACKED_TYPE, c.CS40L26_LOGGER_ALGO_ID)
  | .max_vbst => ("DATA", c.CL_DSP_XM_UNPACKED_TYPE, c.CS40L26_LOGGER_ALGO_ID)
  | _ => ("", 0, 0)

/-- The register address the symbol of an attribute resolves to. -/
def Attr.reg (e : Env) (a : Attr) : Nat :=
  u32 (e.sym (a.symbol e.c).1 (a.symbol e.c).2.1 (a.symbol e.c).2.2).2

/-- The return code of the lookup of the symbol of an attribute. -/
def Attr.lookup_ret (e : Env) (a : Attr) : Int :=
  (e.sym (a.symbol e.c).1 (a.symbol e.c).2.1 (a.symbol e.c).2.2).1

/-- Lower bound a store handler checks the parsed value against. -/
def Attr.range_min (c : Consts) : Attr → Nat
  | .boost_disable_delay => c.CS40L26_BOOST_DISABLE_DELAY_MIN
  | .f0_stored => c.CS40L26_F0_EST_MIN
  | .q_stored => c.CS40L26_Q_EST_MIN
  | _ => 0

/-- Upper bound a store handler checks the parsed value against. -/
def Attr.range_max (c : Consts) : Attr → Nat
  | .boost_disable_delay => c.CS40L26_BOOST_DISABLE_DELAY_MAX
  | .f0_stored => c.CS40L26_F0_EST_MAX
  | .q_stored => c.CS40L26_Q_EST_MAX
  | _ => UINT_MAX

/-! ## Predicates on traces -/

/-- A symbol lookup. -/
def Event.is_lookup : Event → Bool
  | .cl_dsp_get_reg _ _ _ _ => true
  | _ => false

/-- A register-map write transaction. -/
def Event.is_reg_write : Event → Bool
  | .regmap_write _ _ _ => true
  | .regmap_update_bits _ _ _ _ => true
  | _ => false

/-- A register-map transaction issued by a handler itself, or an access to a field of
the private state. -/
def Event.is_guarded : Event → Bool
  | .regmap_read _ _ => true
  | .regmap_write _ _ _ => true
  | .regmap_update_bits _ _ _ _ => true
  | .priv_read _ => true
  | .priv_write _ => true
  | _ => false

/-- An acquisition of `cs40l26->lock`. -/
def Event.is_lock : Event → Bool
  | .mutex_lock => true
  | _ => false

/-- Replays the lock and unlock operations of a trace, starting with the lock held or
not as `held` says, and checks that every operation selected by `p` happens while
the lock is held. -/
def all_under_lock (p : Event → Bool) : Bool → List Event → Bool
  | _, [] => true
  | held, ev :: t =>
    match ev with
    | .mutex_lock => all_under_lock p true t
    | .mutex_unlock => all_under_lock p false t
    | _ => (held || !p ev) && all_under_lock p held t

/-- The operations the lock is meant to cover: symbol lookups, register-map
transactions issued by a handler itself, accesses to private-state fields. -/
def guarded_or_lookup (ev : Event) : Bool :=
  ev.is_guarded || ev.is_lookup

/-- The walk of the power-on sequence list. -/
def Event.is_pseq_walk : Event → Bool
  | .priv_read .pseq_op_head => true
  | _ => false

/-- The code a fallible lower-layer call returned; 0 for every other operation. -/
def Event.ret : Event → Int
  | .cl_dsp_get_reg _ _ _ ret => ret
  | .regmap_read _ ret => ret
  | .regmap_write _ _ ret => ret
  | .regmap_update_bits _ _ _ ret => ret
  | .cs40l26_ack_write _ _ _ ret => ret
  | .cs40l26_dsp_state_get ret => ret
  | .cs40l26_pm_timeout_ms_get ret => ret
  | .cs40l26_pm_timeout_ms_set _ ret => ret
  | .cs40l26_get_num_waves ret => ret
  | .cs40l26_fw_swap _ ret => ret
  | _ => 0

/-- A symbol lookup, a register-map transaction, a call into the driver core, or a
write to the sysfs page. -/
def Event.is_access_or_output : Event → Bool
  | .cl_dsp_get_reg _ _ _ _ => true
  | .regmap_read _ _ => true
  | .regmap_write _ _ _ => true
  | .regmap_update_bits _ _ _ _ => true
  | .cs40l26_ack_write _ _ _ _ => true
  | .cs40l26_dsp_state_get _ => true
  | .cs40l26_pm_timeout_ms_get _ => true
  | .cs40l26_pm_timeout_ms_set _ _ => true
  | .cs40l26_get_num_waves _ => true
  | .cs40l26_fw_swap _ _ => true
  | .snprintf _ => true
  | _ => false

/-- The code returned by the first failing lower-layer call of a trace. -/
def first_failure : List Event → Option Int
  | [] => none
  | ev :: t => if ev.ret ≠ 0 then some ev.ret else first_failure t

/-- Whether nothing follows the first failing lower-layer call of a trace but
operations that are neither accesses nor output. -/
def quiet_after_failure : List Event → Bool
  | [] => true
  | ev :: t =>
    if ev.ret ≠ 0 then t.all fun x => !x.is_access_or_output else quiet_after_failure t

/-- Spec side of `%08X`: the value written as exactly eight upper-case hexadecimal
digits, most significant first. -/
def hex8 (v : Nat) : List Char :=
  [hex_digit_upper (v / 268435456 % 16), hex_digit_upper (v / 16777216 % 16),
   hex_digit_upper (v / 1048576 % 16), hex_digit_upper (v / 65536 % 16),
   hex_digit_upper (v / 4096 % 16), hex_digit_upper (v / 256 % 16),
   hex_digit_upper (v / 16 % 16), hex_digit_upper (v % 16)]

/-! ## Example inputs -/

/-- Example values for the header constants. -/
def example_consts : Consts where
  PAGE_SIZE := 4096
  CL_DSP_XM_UNPACKED_TYPE := 5
  CL_DSP_YM_UNPACKED_TYPE := 6
  CL_DSP_BYTES_PER_WORD := 4
  CS40L26_VIBEGEN_ALGO_ID := 0x000100BD
  CS40L26_EXT_ALGO_ID := 0x0004013C
  CS40L26_F0_EST_ALGO_ID := 0x00040F31
  CS40l26_SVC_ALGO_ID := 0x0001F207
  CS40L26_LOGGER_ALGO_ID := 0x0004013D
  CS40L26_FW_MODE_ROM := 0
  CS40L26_FW_MODE_RAM := 1
  CS40L26_FW_ID := 0x1800D4
  CS40L26_FW_CALIB_ID := 0x1800DA
  CS40L26_PM_TIMEOUT_MS_MIN := 100
  CS40L26_GLOBAL_ENABLES := 0x2014
  CS40L26_GLOBAL_EN_MASK := 1
  CS40L26_ENABLES_AND_CODES_DIG := 0x4308
  CS40L26_TEMP_RESULT_FILT_MASK := 0x01FF0000
  CS40L26_TEMP_RESULT_FILT_SHIFT := 16
  CS40L26_BOOST_DISABLE_DELAY_MIN := 0
  CS40L26_BOOST_DISABLE_DELAY_MAX := 8388608
  CS40L26_F0_OFFSET_MIN := 0xE70000
  CS40L26_F0_OFFSET_MAX := 0x190000
  CS40L26_DSP_MBOX_CMD_INDEX_CALIBRATION_CONTROL := 7
  CS40L26_DSP_MBOX_CMD_INDEX_SHIFT := 24
  CS40L26_DSP_MBOX_CMD_INDEX_MASK := 0x1F000000
  CS40L26_DSP_MBOX_CMD_PAYLOAD_MASK := 0x00FFFFFF
  CS40L26_DSP_MBOX_CMD_LOGGER_MAX_RESET := 0x03000008
  CS40L26_DSP_VIRTUAL1_MBOX_1 := 0x13020
  CS40L26_DSP_MBOX_RESET := 0
  CS40L26_F0_EST_MIN := 0xC8000
  CS40L26_F0_EST_MAX := 0x7FC000
  CS40L26_Q_EST_MIN := 0
  CS40L26_Q_EST_MAX := 0x7FFFFF
  CS40L26_F0_CHIRP_DURATION_FACTOR := 3750
  CS40L26_F0_EST_FREQ_SHIFT := 14
  CS40L26_F0_AND_Q_CALIBRATION_BUFFER_MS := 1500
  CS40L26_SVC_INITIALIZATION_PERIOD_MS := 6
  CS40L26_REDC_CALIBRATION_BUFFER_MS := 10
  CS40L26_LOGGER_SRC_SIZE_MASK := 0x400000
  CS40L26_LOGGER_SRC_ID_MASK := 0xF0000
  CS40L26_LOGGER_SRC_ID_SHIFT := 16

/-- An environment in which every symbol resolves (COUNT to 0x2800004, SOURCE to
0x2800008, every other name to 0x2800000) and the n-th bus or driver-core call
returns `rc n`. -/
def example_env (rc : Nat → Int) : Env where
  c := example_consts
  sym := fun name _ _ =>
    (0, if name = "COUNT" then 0x2800004 else if name = "SOURCE" then 0x2800008 else 0x2800000)
  rc := rc
  getter := fun _ => 0
  uninit := fun _ => 0

/-- A device at rest: lock free, usage count 0, all registers 0, empty trace. -/
def example_state : State where
  priv :=
    { fw_mode := 1
      vibe_state := 0
      pseq_op_head := [⟨1, 0, [0]⟩]
      pseq_num_ops := 1
      pseq_base := 0
      delay_before_stop_playback_us := 0
      cal_requested := 0
      fw_id := 0x1800D4 }
  regs := fun _ => 0
  usage_count := 0
  lock_held := false
  lock_misuse := false
  buf := []
  ncalls := 0
  trace := []

/-- The errno value of a failed bus transfer (`EIO`). -/
def bus_error : Int := 5


/-! ## Definitions for the formats, the estimate, the die temperature and the logger -/

/-- Spec side of `%06X` for a value of at most six hexadecimal digits: exactly six
upper-case digits, most significant first. -/
def hex6 (v : Nat) : List Char :=
  [hex_digit_upper (v / 1048576 % 16), hex_digit_upper (v / 65536 % 16),
   hex_digit_upper (v / 4096 % 16), hex_digit_upper (v / 256 % 16),
   hex_digit_upper (v / 16 % 16), hex_digit_upper (v % 16)]

/-- The offset of the word each logger-maximum attribute reads, from the DATA symbol. -/
def Attr.data_offset : Attr → Nat
  | .max_bemf => 4
  | .max_vbst => 16
  | _ => 0

/-- The estimate of `f0_and_q_cal_time_ms_show` as the handler computes it, in
unsigned 32-bit arithmetic. -/
def cal_time_u32 (c : Consts) (freq_span freq_centre : Nat) : Nat :=
  u32 (u32 (c.CS40L26_F0_CHIRP_DURATION_FACTOR * (freq_span >>> c.CS40L26_F0_EST_FREQ_SHIFT)) /
      (freq_centre >>> c.CS40L26_F0_EST_FREQ_SHIFT) +
    c.CS40L26_F0_AND_Q_CALIBRATION_BUFFER_MS)

/-- Spec side: the same estimate over the unbounded naturals. -/
def cal_time_nat (c : Consts) (freq_span freq_centre : Nat) : Nat :=
  c.CS40L26_F0_CHIRP_DURATION_FACTOR * (freq_span >>> c.CS40L26_F0_EST_FREQ_SHIFT) /
      (freq_centre >>> c.CS40L26_F0_EST_FREQ_SHIFT) +
    c.CS40L26_F0_AND_Q_CALIBRATION_BUFFER_MS

/-- What the constants of the header must satisfy for the estimate to stay below
2^31 for all register values: the largest estimate, reached with the largest
FREQ_SPAN and a shifted FREQ_CENTRE of 1. -/
@[reducible]
def cal_time_bound (c : Consts) : Prop :=
  c.CS40L26_F0_CHIRP_DURATION_FACTOR * (4294967295 >>> c.CS40L26_F0_EST_FREQ_SHIFT) +
    c.CS40L26_F0_AND_Q_CALIBRATION_BUFFER_MS < 2147483648

/-- The outcome of the n-th bus call when it is a read of the register `reg`: the
word read, or the error code. -/
def bus_read (e : Env) (n : Nat) (regs : Nat → Nat) (reg : Nat) : Except Int Nat :=
  if e.rc n = 0 then .ok (u32 (regs reg)) else .error (e.rc n)

/-- The address of a register read. -/
def Event.read_addr : Event → Option Nat
  | .regmap_read reg _ => some reg
  | _ => none

/-- Spec side: a 16-bit value in upper-case hexadecimal, zero-padded to at least
three digits. -/
def hex3_min (v : Nat) : List Char :=
  if v < 4096 then
    [hex_digit_upper (v / 256 % 16), hex_digit_upper (v / 16 % 16), hex_digit_upper (v % 16)]
  else
    [hex_digit_upper (v / 4096 % 16), hex_digit_upper (v / 256 % 16),
     hex_digit_upper (v / 16 % 16), hex_digit_upper (v % 16)]

/-- What the reference for the die temperature yields: the return value, the text
put on the sysfs page if any, and the registers read, in order. -/
structure DieTempRef where
  ret : Int
  text : Option (List Char)
  reads : List Nat

/-- Spec side: the reference for the die-temperature read. `global_enables` is the
outcome of reading CS40L26_GLOBAL_ENABLES, `enables_and_codes_dig` the outcome of
reading CS40L26_ENABLES_AND_CODES_DIG should it be read. -/
def die_temp_reference (c : Consts) (global_enables enables_and_codes_dig : Except Int Nat) :
    DieTempRef :=
  match global_enables with
  | .error err => ⟨err, none, [c.CS40L26_GLOBAL_ENABLES]⟩
  | .ok value =>
    if value &&& c.CS40L26_GLOBAL_EN_MASK = 0 then
      ⟨-EPERM, none, [c.CS40L26_GLOBAL_ENABLES]⟩
    else
      match enables_and_codes_dig with
      | .error err =>
        ⟨err, none, [c.CS40L26_GLOBAL_ENABLES, c.CS40L26_ENABLES_AND_CODES_DIG]⟩
      | .ok value =>
        ⟨(['0', 'x'] ++ hex3_min (((value &&& c.CS40L26_TEMP_RESULT_FILT_MASK) >>>
              c.CS40L26_TEMP_RESULT_FILT_SHIFT) % 65536) ++ ['\n']).length,
          some (['0', 'x'] ++ hex3_min (((value &&& c.CS40L26_TEMP_RESULT_FILT_MASK) >>>
              c.CS40L26_TEMP_RESULT_FILT_SHIFT) % 65536) ++ ['\n']),
          [c.CS40L26_GLOBAL_ENABLES, c.CS40L26_ENABLES_AND_CODES_DIG]⟩

/-- A mailbox write with acknowledgement. -/
def Event.is_ack_write : Event → Bool
  | .cs40l26_ack_write _ _ _ _ => true
  | _ => false

/-- The address a symbol of the logger algorithm resolves to. -/
def logger_reg (e : Env) (name : String) : Nat :=
  u32 (e.sym name e.c.CL_DSP_XM_UNPACKED_TYPE e.c.CS40L26_LOGGER_ALGO_ID).2

/-- The return code of the lookup of a symbol of the logger algorithm. -/
def logger_lookup_ret (e : Env) (name : String) : Int :=
  (e.sym name e.c.CL_DSP_XM_UNPACKED_TYPE e.c.CS40L26_LOGGER_ALGO_ID).1

/-! ## Effect of each primitive operation on each component of the state -/

@[simp]
theorem emit_priv (ev : Event) (s : State) :
    (emit ev s).priv = s.priv := rfl

@[simp]
theorem emit_regs (ev : Event) (s : State) :
    (emit ev s).regs = s.regs := rfl

@[simp]
theorem emit_usage_count (ev : Event) (s : State) :
    (emit ev s).usage_count = s.usage_count := rfl

@[simp]
theorem emit_lock_held (ev : Event) (s : State) :
    (emit ev s).lock_held = s.lock_held := rfl

@[simp]
theorem emit_lock_misuse (ev : Event) (s : State) :
    (emit ev s).lock_misuse = s.lock_misuse := rfl

@[simp]
theorem emit_buf (ev : Event) (s : State) :
    (emit ev s).buf = s.buf := rfl

@[simp]
theorem emit_ncalls (ev : Event) (s : State) :
    (emit ev s).ncalls = s.ncalls := rfl

@[simp]
theorem emit_trace (ev : Event) (s : State) :
    (emit ev s).trace = s.trace ++ [ev] := rfl

@[simp]
theorem pm_runtime_get_sync_priv (s : State) :
    (pm_runtime_get_sync s).priv = s.priv := rfl

@[simp]
theorem pm_runtime_get_sync_regs (s : State) :
    (pm_runtime_get_sync s).regs = s.regs := rfl

@[simp]
theorem pm_runtime_get_sync_usage_count (s : State) :
    (pm_runtime_get_sync s).usage_count = s.usage_count + 1 := rfl

@[simp]
theorem pm_runtime_get_sync_lock_held (s : State) :
    (pm_runtime_get_sync s).lock_held = s.lock_held := rfl

@[simp]
theorem pm_runtime_get_sync_lock_misuse (s : State) :
    (pm_runtime_get_sync s).lock_misuse = s.lock_misuse := rfl

@[simp]
theorem pm_runtime_get_sync_buf (s : State) :
    (pm_runtime_get_sync s).buf = s.buf := rfl

@[simp]
theorem pm_runtime_get_sync_ncalls (s : State) :
    (pm_runtime_get_sync s).ncalls = s.ncalls := rfl

@[simp]
theorem pm_runtime_get_sync_trace (s : State) :
    (pm_runtime_get_sync s).trace = s.trace ++ [.pm_runtime_get_sync] := rfl

@[simp]
theorem pm_runtime_mark_last_busy_priv (s : State) :
    (pm_runtime_mark_last_busy s).priv = s.priv := rfl

@[simp]
theorem pm_runtime_mark_last_busy_regs (s : State) :
    (pm_runtime_mark_last_busy s).regs = s.regs := rfl

@[simp]
theorem pm_runtime_mark_last_busy_usage_count (s : State) :
    (pm_runtime_mark_last_busy s).usage_count = s.usage_count := rfl

@[simp]
theorem pm_runtime_mark_last_busy_lock_held (s : State) :
    (pm_runtime_mark_last_busy s).lock_held = s.lock_held := rfl

@[simp]
theorem pm_runtime_mark_last_busy_lock_misuse (s : State) :
    (pm_runtime_mark_last_busy s).lock_misuse = s.lock_misuse := rfl

@[simp]
theorem pm_runtime_mark_last_busy_buf (s : State) :
    (pm_runtime_mark_last_busy s).buf = s.buf := rfl

@[simp]
theorem pm_runtime_mark_last_busy_ncalls (s : State) :
    (pm_runtime_mark_last_busy s).ncalls = s.ncalls := rfl

@[simp]
theorem pm_runtime_mark_last_busy_trace (s : State) :
    (pm_runtime_mark_last_busy s).trace = s.trace ++ [.pm_runtime_mark_last_busy] := rfl

@[simp]
theorem pm_runtime_put_autosuspend_priv (s : State) :
    (pm_runtime_put_autosuspend s).priv = s.priv := rfl

@[simp]
theorem pm_runtime_put_autosuspend_regs (s : State) :
    (pm_runtime_put_autosuspend s).regs = s.regs := rfl

@[simp]
theorem pm_runtime_put_autosuspend_usage_count (s : State) :
    (pm_runtime_put_autosuspend s).usage_count = s.usage_count - 1 := rfl

@[simp]
theorem pm_runtime_put_autosuspend_lock_held (s : State) :
    (pm_runtime_put_autosuspend s).lock_held = s.lock_held := rfl

@[simp]
theorem pm_runtime_put_autosuspend_lock_misuse (s : State) :
    (pm_runtime_put_autosuspend s).lock_misuse = s.lock_misuse := rfl

@[simp]
theorem pm_runtime_put_autosuspend_buf (s : State) :
    (pm_runtime_put_autosuspend s).buf = s.buf := rfl

@[simp]
theorem pm_runtime_put_autosuspend_ncalls (s : State) :
    (pm_runtime_put_autosuspend s).ncalls = s.ncalls := rfl

@[simp]
theorem pm_runtime_put_autosuspend_trace (s : State) :
    (pm_runtime_put_autosuspend s).trace = s.trace ++ [.pm_runtime_put_autosuspend] := rfl

@[simp]
theorem mutex_lock_priv (s : State) :
    (mutex_lock s).priv = s.priv := rfl

@[simp]
theorem mutex_lock_regs (s : State) :
    (mutex_lock s).regs = s.regs := rfl

@[simp]
theorem mutex_lock_usage_count (s : State) :
    (mutex_lock s).usage_count = s.usage_count := rfl

@[simp]
theorem mutex_lock_lock_held (s : State) :
    (mutex_lock s).lock_held = true := rfl

@[simp]
theorem mutex_lock_lock_misuse (s : State) :
    (mutex_lock s).lock_misuse = (s.lock_misuse || s.lock_held) := rfl

@[simp]
theorem mutex_lock_buf (s : State) :
    (mutex_lock s).buf = s.buf := rfl

@[simp]
theorem mutex_lock_ncalls (s : State) :
    (mutex_lock s).ncalls = s.ncalls := rfl

@[simp]
theorem mutex_lock_trace (s : State) :
    (mutex_lock s).trace = s.trace ++ [.mutex_lock] := rfl

@[simp]
theorem mutex_unlock_priv (s : State) :
    (mutex_unlock s).priv = s.priv := rfl

@[simp]
theorem mutex_unlock_regs (s : State) :
    (mutex_unlock s).regs = s.regs := rfl

@[simp]
theorem mutex_unlock_usage_count (s : State) :
    (mutex_unlock s).usage_count = s.usage_count := rfl

@[simp]
theorem mutex_unlock_lock_held (s : State) :
    (mutex_unlock s).lock_held = false := rfl

@[simp]
theorem mutex_unlock_lock_misuse (s : State) :
    (mutex_unlock s).lock_misuse = (s.lock_misuse || !s.lock_held) := rfl

@[simp]
theorem mutex_unlock_buf (s : State) :
    (mutex_unlock s).buf = s.buf := rfl

@[simp]
theorem mutex_unlock_ncalls (s : State) :
    (mutex_unlock s).ncalls = s.ncalls := rfl

@[simp]
theorem mutex_unlock_trace (s : State) :
    (mutex_unlock s).trace = s.trace ++ [.mutex_unlock] := rfl

@[simp]
theorem priv_read_priv (f : Field) (s : State) :
    (priv_read f s).priv = s.priv := rfl

@[simp]
theorem priv_read_regs (f : Field) (s : State) :
    (priv_read f s).regs = s.regs := rfl

@[simp]
theorem priv_read_usage_count (f : Field) (s : State) :
    (priv_read f s).usage_count = s.usage_count := rfl

@[simp]
theorem priv_read_lock_held (f : Field) (s : State) :
    (priv_read f s).lock_held = s.lock_held := rfl

@[simp]
theorem priv_read_lock_misuse (f : Field) (s : State) :
    (priv_read f s).lock_misuse = s.lock_misuse := rfl

@[simp]
theorem priv_read_buf (f : Field) (s : State) :
    (priv_read f s).buf = s.buf := rfl

@[simp]
theorem priv_read_ncalls (f : Field) (s : State) :
    (priv_read f s).ncalls = s.ncalls := rfl

@[simp]
theorem priv_read_trace (f : Field) (s : State) :
    (priv_read f s).trace = s.trace ++ [.priv_read f] := rfl

@[simp]
theorem priv_write_priv (f : Field) (p : cs40l26_private) (s : State) :
    (priv_write f p s).priv = p := rfl

@[simp]
theorem priv_write_regs (f : Field) (p : cs40l26_private) (s : State) :
    (priv_write f p s).regs = s.regs := rfl

@[simp]
theorem priv_write_usage_count (f : Field) (p : cs40l26_private) (s : State) :
    (priv_write f p s).usage_count = s.usage_count := rfl

@[simp]
theorem priv_write_lock_held (f : Field) (p : cs40l26_private) (s : State) :
    (priv_write f p s).lock_held = s.lock_held := rfl

@[simp]
theorem priv_write_lock_misuse (f : Field) (p : cs40l26_private) (s : State) :
    (priv_write f p s).lock_misuse = s.lock_misuse := rfl

@[simp]
theorem priv_write_buf (f : Field) (p : cs40l26_private) (s : State) :
    (priv_write f p s).buf = s.buf := rfl

@[simp]
theorem priv_write_ncalls (f : Field) (p : cs40l26_private) (s : State) :
    (priv_write f p s).ncalls = s.ncalls := rfl

@[simp]
theorem priv_write_trace (f : Field) (p : cs40l26_private) (s : State) :
    (priv_write f p s).trace = s.trace ++ [.priv_write f] := rfl

@[simp]
theorem cl_dsp_get_reg_ret (e : Env) (name : String) (block_type algo_id : Nat) (s : State) :
    (cl_dsp_get_reg e name block_type algo_id s).ret = (e.sym name block_type algo_id).1 := rfl

@[simp]
theorem cl_dsp_get_reg_val (e : Env) (name : String) (block_type algo_id : Nat) (s : State) :
    (cl_dsp_get_reg e name block_type algo_id s).val = u32 (e.sym name block_type algo_id).2 := rfl

@[simp]
theorem cl_dsp_get_reg_priv (e : Env) (name : String) (block_type algo_id : Nat) (s : State) :
    (cl_dsp_get_reg e name block_type algo_id s).st.priv = s.priv := rfl

@[simp]
theorem cl_dsp_get_reg_regs (e : Env) (name : String) (block_type algo_id : Nat) (s : State) :
    (cl_dsp_get_reg e name block_type algo_id s).st.regs = s.regs := rfl

@[simp]
theorem cl_dsp_get_reg_usage_count (e : Env) (name : String) (block_type algo_id : Nat) (s : State) :
    (cl_dsp_get_reg e name block_type algo_id s).st.usage_count = s.usage_count := rfl

@[simp]
theorem cl_dsp_get_reg_lock_held (e : Env) (name : String) (block_type algo_id : Nat) (s : State) :
    (cl_dsp_get_reg e name block_type algo_id s).st.lock_held = s.lock_held := rfl

@[simp]
theorem cl_dsp_get_reg_lock_misuse (e : Env) (name : String) (block_type algo_id : Nat) (s : State) :
    (cl_dsp_get_reg e name block_type algo_id s).st.lock_misuse = s.lock_misuse := rfl

@[simp]
theorem cl_dsp_get_reg_buf (e : Env) (name : String) (block_type algo_id : Nat) (s : State) :
    (cl_dsp_get_reg e name block_type algo_id s).st.buf = s.buf := rfl

@[simp]
theorem cl_dsp_get_reg_ncalls (e : Env) (name : String) (block_type algo_id : Nat) (s : State) :
    (cl_dsp_get_reg e name block_type algo_id s).st.ncalls = s.ncalls := rfl

@[simp]
theorem cl_dsp_get_reg_trace (e : Env) (name : String) (block_type algo_id : Nat) (s : State) :
    (cl_dsp_get_reg e name block_type algo_id s).st.trace = s.trace ++ [.cl_dsp_get_reg name block_type algo_id (e.sym name block_type algo_id).1] := rfl

@[simp]
theorem regmap_read_ret (e : Env) (reg : Nat) (s : State) :
    (regmap_read e reg s).ret = e.rc s.ncalls := rfl

@[simp]
theorem regmap_read_val (e : Env) (reg : Nat) (s : State) :
    (regmap_read e reg s).val = if e.rc s.ncalls = 0 then u32 (s.regs reg) else u32 (e.uninit s.ncalls) := rfl

@[simp]
theorem regmap_read_priv (e : Env) (reg : Nat) (s : State) :
    (regmap_read e reg s).st.priv = s.priv := rfl

@[simp]
theorem regmap_read_regs (e : Env) (reg : Nat) (s : State) :
    (regmap_read e reg s).st.regs = s.regs := rfl

@[simp]
theorem regmap_read_usage_count (e : Env) (reg : Nat) (s : State) :
    (regmap_read e reg s).st.usage_count = s.usage_count := rfl

@[simp]
theorem regmap_read_lock_held (e : Env) (reg : Nat) (s : State) :
    (regmap_read e reg s).st.lock_held = s.lock_held := rfl

@[simp]
theorem regmap_read_lock_misuse (e : Env) (reg : Nat) (s : State) :
    (regmap_read e reg s).st.lock_misuse = s.lock_misuse := rfl

@[simp]
theorem regmap_read_buf (e : Env) (reg : Nat) (s : State) :
    (regmap_read e reg s).st.buf = s.buf := rfl

@[simp]
theorem regmap_read_ncalls (e : Env) (reg : Nat) (s : State) :
    (regmap_read e reg s).st.ncalls = s.ncalls + 1 := rfl

@[simp]
theorem regmap_read_trace (e : Env) (reg : Nat) (s : State) :
    (regmap_read e reg s).st.trace = s.trace ++ [.regmap_read reg (e.rc s.ncalls)] := rfl

@[simp]
theorem regmap_write_ret (e : Env) (reg val : Nat) (s : State) :
    (regmap_write e reg val s).ret = e.rc s.ncalls := rfl

@[simp]
theorem regmap_write_priv (e : Env) (reg val : Nat) (s : State) :
    (regmap_write e reg val s).st.priv = s.priv := rfl

@[simp]
theorem regmap_write_regs (e : Env) (reg val : Nat) (s : State) :
    (regmap_write e reg val s).st.regs = if e.rc s.ncalls = 0 then Function.update s.regs reg (u32 val) else s.regs := rfl

@[simp]
theorem regmap_write_usage_count (e : Env) (reg val : Nat) (s : State) :
    (regmap_write e reg val s).st.usage_count = s.usage_count := rfl

@[simp]
theorem regmap_write_lock_held (e : Env) (reg val : Nat) (s : State) :
    (regmap_write e reg val s).st.lock_held = s.lock_held := rfl

@[simp]
theorem regmap_write_lock_misuse (e : Env) (reg val : Nat) (s : State) :
    (regmap_write e reg val s).st.lock_misuse = s.lock_misuse := rfl

@[simp]
theorem regmap_write_buf (e : Env) (reg val : Nat) (s : State) :
    (regmap_write e reg val s).st.buf = s.buf := rfl

@[simp]
theorem regmap_write_ncalls (e : Env) (reg val : Nat) (s : State) :
    (regmap_write e reg val s).st.ncalls = s.ncalls + 1 := rfl

@[simp]
theorem regmap_write_trace (e : Env) (reg val : Nat) (s : State) :
    (regmap_write e reg val s).st.trace = s.trace ++ [.regmap_write reg val (e.rc s.ncalls)] := rfl

@[simp]
theorem regmap_update_bits_ret (e : Env) (reg mask val : Nat) (s : State) :
    (regmap_update_bits e reg mask val s).ret = e.rc s.ncalls := rfl

@[simp]
theorem regmap_update_bits_priv (e : Env) (reg mask val : Nat) (s : State) :
    (regmap_update_bits e reg mask val s).st.priv = s.priv := rfl

@[simp]
theorem regmap_update_bits_regs (e : Env) (reg mask val : Nat) (s : State) :
    (regmap_update_bits e reg mask val s).st.regs = if e.rc s.ncalls = 0 then Function.update s.regs reg ((u32 (s.regs reg) &&& (u32 mask ^^^ UINT_MAX)) ||| (u32 val &&& u32 mask)) else s.regs := rfl

@[simp]
theorem regmap_update_bits_usage_count (e : Env) (reg mask val : Nat) (s : State) :
    (regmap_update_bits e reg mask val s).st.usage_count = s.usage_count := rfl

@[simp]
theorem regmap_update_bits_lock_held (e : Env) (reg mask val : Nat) (s : State) :
    (regmap_update_bits e reg mask val s).st.lock_held = s.lock_held := rfl

@[simp]
theorem regmap_update_bits_lock_misuse (e : Env) (reg mask val : Nat) (s : State) :
    (regmap_update_bits e reg mask val s).st.lock_misuse = s.lock_misuse := rfl

@[simp]
theorem regmap_update_bits_buf (e : Env) (reg mask val : Nat) (s : State) :
    (regmap_update_bits e reg mask val s).st.buf = s.buf := rfl

@[simp]
theorem regmap_update_bits_ncalls (e : Env) (reg mask val : Nat) (s : State) :
    (regmap_update_bits e reg mask val s).st.ncalls = s.ncalls + 1 := rfl

@[simp]
theorem regmap_update_bits_trace (e : Env) (reg mask val : Nat) (s : State) :
    (regmap_update_bits e reg mask val s).st.trace = s.trace ++ [.regmap_update_bits reg mask val (e.rc s.ncalls)] := rfl

@[simp]
theorem cs40l26_ack_write_ret (e : Env) (reg write_val reset_val : Nat) (s : State) :
    (cs40l26_ack_write e reg write_val reset_val s).ret = e.rc s.ncalls := rfl

@[simp]
theorem cs40l26_ack_write_priv (e : Env) (reg write_val reset_val : Nat) (s : State) :
    (cs40l26_ack_write e reg write_val reset_val s).st.priv = s.priv := rfl

@[simp]
theorem cs40l26_ack_write_regs (e : Env) (reg write_val reset_val : Nat) (s : State) :
    (cs40l26_ack_write e reg write_val reset_val s).st.regs = s.regs := rfl

@[simp]
theorem cs40l26_ack_write_usage_count (e : Env) (reg write_val reset_val : Nat) (s : State) :
    (cs40l26_ack_write e reg write_val reset_val s).st.usage_count = s.usage_count := rfl

@[simp]
theorem cs40l26_ack_write_lock_held (e : Env) (reg write_val reset_val : Nat) (s : State) :
    (cs40l26_ack_write e reg write_val reset_val s).st.lock_held = s.lock_held := rfl

@[simp]
theorem cs40l26_ack_write_lock_misuse (e : Env) (reg write_val reset_val : Nat) (s : State) :
    (cs40l26_ack_write e reg write_val reset_val s).st.lock_misuse = s.lock_misuse := rfl

@[simp]
theorem cs40l26_ack_write_buf (e : Env) (reg write_val reset_val : Nat) (s : State) :
    (cs40l26_ack_write e reg write_val reset_val s).st.buf = s.buf := rfl

@[simp]
theorem cs40l26_ack_write_ncalls (e : Env) (reg write_val reset_val : Nat) (s : State) :
    (cs40l26_ack_write e reg write_val reset_val s).st.ncalls = s.ncalls + 1 := rfl

@[simp]
theorem cs40l26_ack_write_trace (e : Env) (reg write_val reset_val : Nat) (s : State) :
    (cs40l26_ack_write e reg write_val reset_val s).st.trace = s.trace ++ [.cs40l26_ack_write reg write_val reset_val (e.rc s.ncalls)] := rfl

@[simp]
theorem cs40l26_dsp_state_get_ret (e : Env) (s : State) :
    (cs40l26_dsp_state_get e s).ret = e.rc s.ncalls := rfl

@[simp]
theorem cs40l26_dsp_state_get_val (e : Env) (s : State) :
    (cs40l26_dsp_state_get e s).val = if e.rc s.ncalls = 0 then u8 (e.getter s.ncalls) else u8 (e.uninit s.ncalls) := rfl

@[simp]
theorem cs40l26_dsp_state_get_priv (e : Env) (s : State) :
    (cs40l26_dsp_state_get e s).st.priv = s.priv := rfl

@[simp]
theorem cs40l26_dsp_state_get_regs (e : Env) (s : State) :
    (cs40l26_dsp_state_get e s).st.regs = s.regs := rfl

@[simp]
theorem cs40l26_dsp_state_get_usage_count (e : Env) (s : State) :
    (cs40l26_dsp_state_get e s).st.usage_count = s.usage_count := rfl

@[simp]
theorem cs40l26_dsp_state_get_lock_held (e : Env) (s : State) :
    (cs40l26_dsp_state_get e s).st.lock_held = s.lock_held := rfl

@[simp]
theorem cs40l26_dsp_state_get_lock_misuse (e : Env) (s : State) :
    (cs40l26_dsp_state_get e s).st.lock_misuse = s.lock_misuse := rfl

@[simp]
theorem cs40l26_dsp_state_get_buf (e : Env) (s : State) :
    (cs40l26_dsp_state_get e s).st.buf = s.buf := rfl

@[simp]
theorem cs40l26_dsp_state_get_ncalls (e : Env) (s : State) :
    (cs40l26_dsp_state_get e s).st.ncalls = s.ncalls + 1 := rfl

@[simp]
theorem cs40l26_dsp_state_get_trace (e : Env) (s : State) :
    (cs40l26_dsp_state_get e s).st.trace = s.trace ++ [.cs40l26_dsp_state_get (e.rc s.ncalls)] := rfl

@[simp]
theorem cs40l26_pm_timeout_ms_get_ret (e : Env) (s : State) :
    (cs40l26_pm_timeout_ms_get e s).ret = e.rc s.ncalls := rfl

@[simp]
theorem cs40l26_pm_timeout_ms_get_val (e : Env) (s : State) :
    (cs40l26_pm_timeout_ms_get e s).val = if e.rc s.ncalls = 0 then u32 (e.getter s.ncalls) else u32 (e.uninit s.ncalls) := rfl

@[simp]
theorem cs40l26_pm_timeout_ms_get_priv (e : Env) (s : State) :
    (cs40l26_pm_timeout_ms_get e s).st.priv = s.priv := rfl

@[simp]
theorem cs40l26_pm_timeout_ms_get_regs (e : Env) (s : State) :
    (cs40l26_pm_timeout_ms_get e s).st.regs = s.regs := rfl

@[simp]
theorem cs40l26_pm_timeout_ms_get_usage_count (e : Env) (s : State) :
    (cs40l26_pm_timeout_ms_get e s).st.usage_count = s.usage_count := rfl

@[simp]
theorem cs40l26_pm_timeout_ms_get_lock_held (e : Env) (s : State) :
    (cs40l26_pm_timeout_ms_get e s).st.lock_held = s.lock_held := rfl

@[simp]
theorem cs40l26_pm_timeout_ms_get_lock_misuse (e : Env) (s : State) :
    (cs40l26_pm_timeout_ms_get e s).st.lock_misuse = s.lock_misuse := rfl

@[simp]
theorem cs40l26_pm_timeout_ms_get_buf (e : Env) (s : State) :
    (cs40l26_pm_timeout_ms_get e s).st.buf = s.buf := rfl

@[simp]
theorem cs40l26_pm_timeout_ms_get_ncalls (e : Env) (s : State) :
    (cs40l26_pm_timeout_ms_get e s).st.ncalls = s.ncalls + 1 := rfl

@[simp]
theorem cs40l26_pm_timeout_ms_get_trace (e : Env) (s : State) :
    (cs40l26_pm_timeout_ms_get e s).st.trace = s.trace ++ [.cs40l26_pm_timeout_ms_get (e.rc s.ncalls)] := rfl

@[simp]
theorem cs40l26_pm_timeout_ms_set_ret (e : Env) (timeout_ms : Nat) (s : State) :
    (cs40l26_pm_timeout_ms_set e timeout_ms s).ret = e.rc s.ncalls := rfl

@[simp]
theorem cs40l26_pm_timeout_ms_set_priv (e : Env) (timeout_ms : Nat) (s : State) :
    (cs40l26_pm_timeout_ms_set e timeout_ms s).st.priv = s.priv := rfl

@[simp]
theorem cs40l26_pm_timeout_ms_set_regs (e : Env) (timeout_ms : Nat) (s : State) :
    (cs40l26_pm_timeout_ms_set e timeout_ms s).st.regs = s.regs := rfl

@[simp]
theorem cs40l26_pm_timeout_ms_set_usage_count (e : Env) (timeout_ms : Nat) (s : State) :
    (cs40l26_pm_timeout_ms_set e timeout_ms s).st.usage_count = s.usage_count := rfl

@[simp]
theorem cs40l26_pm_timeout_ms_set_lock_held (e : Env) (timeout_ms : Nat) (s : State) :
    (cs40l26_pm_timeout_ms_set e timeout_ms s).st.lock_held = s.lock_held := rfl

@[simp]
theorem cs40l26_pm_timeout_ms_set_lock_misuse (e : Env) (timeout_ms : Nat) (s : State) :
    (cs40l26_pm_timeout_ms_set e timeout_ms s).st.lock_misuse = s.lock_misuse := rfl

@[simp]
theorem cs40l26_pm_timeout_ms_set_buf (e : Env) (timeout_ms : Nat) (s : State) :
    (cs40l26_pm_timeout_ms_set e timeout_ms s).st.buf = s.buf := rfl

@[simp]
theorem cs40l26_pm_timeout_ms_set_ncalls (e : Env) (timeout_ms : Nat) (s : State) :
    (cs40l26_pm_timeout_ms_set e timeout_ms s).st.ncalls = s.ncalls + 1 := rfl

@[simp]
theorem cs40l26_pm_timeout_ms_set_trace (e : Env) (timeout_ms : Nat) (s : State) :
    (cs40l26_pm_timeout_ms_set e timeout_ms s).st.trace = s.trace ++ [.cs40l26_pm_timeout_ms_set timeout_ms (e.rc s.ncalls)] := rfl

@[simp]
theorem cs40l26_get_num_waves_ret (e : Env) (s : State) :
    (cs40l26_get_num_waves e s).ret = e.rc s.ncalls := rfl

@[simp]
theorem cs40l26_get_num_waves_val (e : Env) (s : State) :
    (cs40l26_get_num_waves e s).val = if e.rc s.ncalls = 0 then u32 (e.getter s.ncalls) else u32 (e.uninit s.ncalls) := rfl

@[simp]
theorem cs40l26_get_num_waves_priv (e : Env) (s : State) :
    (cs40l26_get_num_waves e s).st.priv = s.priv := rfl

@[simp]
theorem cs40l26_get_num_waves_regs (e : Env) (s : State) :
    (cs40l26_get_num_waves e s).st.regs = s.regs := rfl

@[simp]
theorem cs40l26_get_num_waves_usage_count (e : Env) (s : State) :
    (cs40l26_get_num_waves e s).st.usage_count = s.usage_count := rfl

@[simp]
theorem cs40l26_get_num_waves_lock_held (e : Env) (s : State) :
    (cs40l26_get_num_waves e s).st.lock_held = s.lock_held := rfl

@[simp]
theorem cs40l26_get_num_waves_lock_misuse (e : Env) (s : State) :
    (cs40l26_get_num_waves e s).st.lock_misuse = s.lock_misuse := rfl

@[simp]
theorem cs40l26_get_num_waves_buf (e : Env) (s : State) :
    (cs40l26_get_num_waves e s).st.buf = s.buf := rfl

@[simp]
theorem cs40l26_get_num_waves_ncalls (e : Env) (s : State) :
    (cs40l26_get_num_waves e s).st.ncalls = s.ncalls + 1 := rfl

@[simp]
theorem cs40l26_get_num_waves_trace (e : Env) (s : State) :
    (cs40l26_get_num_waves e s).st.trace = s.trace ++ [.cs40l26_get_num_waves (e.rc s.ncalls)] := rfl

@[simp]
theorem cs40l26_fw_swap_ret (e : Env) (id : Nat) (s : State) :
    (cs40l26_fw_swap e id s).ret = e.rc s.ncalls := rfl

@[simp]
theorem cs40l26_fw_swap_priv (e : Env) (id : Nat) (s : State) :
    (cs40l26_fw_swap e id s).st.priv = s.priv := rfl

@[simp]
theorem cs40l26_fw_swap_regs (e : Env) (id : Nat) (s : State) :
    (cs40l26_fw_swap e id s).st.regs = s.regs := rfl

@[simp]
theorem cs40l26_fw_swap_usage_count (e : Env) (id : Nat) (s : State) :
    (cs40l26_fw_swap e id s).st.usage_count = s.usage_count := rfl

@[simp]
theorem cs40l26_fw_swap_lock_held (e : Env) (id : Nat) (s : State) :
    (cs40l26_fw_swap e id s).st.lock_held = s.lock_held := rfl

@[simp]
theorem cs40l26_fw_swap_lock_misuse (e : Env) (id : Nat) (s : State) :
    (cs40l26_fw_swap e id s).st.lock_misuse = s.lock_misuse := rfl

@[simp]
theorem cs40l26_fw_swap_buf (e : Env) (id : Nat) (s : State) :
    (cs40l26_fw_swap e id s).st.buf = s.buf := rfl

@[simp]
theorem cs40l26_fw_swap_ncalls (e : Env) (id : Nat) (s : State) :
    (cs40l26_fw_swap e id s).st.ncalls = s.ncalls + 1 := rfl

@[simp]
theorem cs40l26_fw_swap_trace (e : Env) (id : Nat) (s : State) :
    (cs40l26_fw_swap e id s).st.trace = s.trace ++ [.cs40l26_fw_swap id (e.rc s.ncalls)] := rfl

@[simp]
theorem snprintf_ret (size : Nat) (text : List Char) (s : State) :
    (snprintf size text s).ret = (text.length : Int) := rfl

@[simp]
theorem snprintf_priv (size : Nat) (text : List Char) (s : State) :
    (snprintf size text s).st.priv = s.priv := rfl

@[simp]
theorem snprintf_regs (size : Nat) (text : List Char) (s : State) :
    (snprintf size text s).st.regs = s.regs := rfl

@[simp]
theorem snprintf_usage_count (size : Nat) (text : List Char) (s : State) :
    (snprintf size text s).st.usage_count = s.usage_count := rfl

@[simp]
theorem snprintf_lock_held (size : Nat) (text : List Char) (s : State) :
    (snprintf size text s).st.lock_held = s.lock_held := rfl

@[simp]
theorem snprintf_lock_misuse (size : Nat) (text : List Char) (s : State) :
    (snprintf size text s).st.lock_misuse = s.lock_misuse := rfl

@[simp]
theorem snprintf_buf (size : Nat) (text : List Char) (s : State) :
    (snprintf size text s).st.buf = text.take (size - 1) := rfl

@[simp]
theorem snprintf_ncalls (size : Nat) (text : List Char) (s : State) :
    (snprintf size text s).st.ncalls = s.ncalls := rfl

@[simp]
theorem snprintf_trace (size : Nat) (text : List Char) (s : State) :
    (snprintf size text s).st.trace = s.trace ++ [.snprintf (text.take (size - 1))] := rfl
/-! ## Lemmas on the text helpers -/

theorem kstrtoull_error_neg (buf : List Char) (base : Nat) (rv : Int)
    (h : kstrtoull buf base = .error rv) : rv < 0 := by
  unfold kstrtoull at h
  simp only [] at h
  split at h
  · injection h with h; subst h; decide
  · split at h
    · injection h with h; subst h; decide
    · split at h
      · injection h with h; subst h; decide
      · cases h

theorem kstrtou32_error_neg (buf : List Char) (base : Nat) (rv : Int)
    (h : kstrtou32 buf base = .error rv) : rv < 0 := by
  unfold kstrtou32 at h
  split at h
  · next rv2 h2 =>
    injection h with h; subst h
    exact kstrtoull_error_neg _ _ _ h2
  · split_ifs at h
    · injection h with h; subst h; decide

theorem kstrtou32_ok_lt (buf : List Char) (base : Nat) (v : Nat)
    (h : kstrtou32 buf base = .ok v) : v < 4294967296 := by
  unfold kstrtou32 at h
  split at h
  · cases h
  · split_ifs at h with h2
    injection h with h; subst h
    simp only [u32, ne_eq, not_not] at h2
    omega

/-! ## Rejection of malformed input -/

/-- C1: for every store handler and every input text that `kstrtou32` rejects in the
base the handler uses, the handler returns a negative error code and leaves the whole
state as it was: no register access, no mailbox write, no firmware swap, no
runtime-PM get, no mutex acquisition (the trace, the usage count and the lock flag
are parts of the state) and no change to the private data. -/
theorem store_rejects_malformed_input (a : Attr)
    (h : Env → List Char → Nat → State → Result)
    (e : Env) (buf : List Char) (count : Nat) (s : State) (rv : Int)
    (hh : a.store_handler = some h)
    (hrej : kstrtou32 buf a.store_base = .error rv) :
    (h e buf count s).ret < 0 ∧ (h e buf count s).st = s := by
  have hneg := kstrtou32_error_neg _ _ _ hrej
  cases a <;> simp [Attr.store_handler] at hh <;> subst hh <;>
    simp [Attr.store_base] at hrej <;>
    simp [pm_timeout_ms_store, boost_disable_delay_store, f0_offset_store,
      delay_before_stop_playback_us_store, calib_fw_load_store, logging_max_reset_store,
      logging_en_store, trigger_calibration_store, redc_est_store, f0_stored_store,
      q_stored_store, redc_stored_store, hrej, EINVAL, hneg]

theorem store_rejects_malformed_input_witness :
    kstrtou32 ['1', '2', 'z'] 10 = .error (-22) ∧
    (logging_en_store (example_env fun _ => 0) ['1', '2', 'z'] 3 example_state).ret < 0 ∧
    (logging_en_store (example_env fun _ => 0) ['1', '2', 'z'] 3 example_state).st
      = example_state :=
  ⟨rfl, store_rejects_malformed_input .logging_en logging_en_store (example_env fun _ => 0)
    ['1', '2', 'z'] 3 example_state (-22) rfl rfl⟩

/-! ## Propagation of lower-layer failures -/

/-- C2: `logging_en_store` and `logging_max_reset_store` report success although a
lower-layer call failed. With the input "1": when the write of ENABLE fails with
`-EIO`, `logging_en_store` returns the byte count; when that write succeeds and the
write of COUNT fails, it returns the byte count with ENABLE changed from 0 to 1; and
`logging_max_reset_store` returns the byte count when the mailbox write fails. -/
theorem logging_store_ignores_failure :
    (logging_en_store (example_env fun _ => -bus_error) ['1', '\n'] 2 example_state).ret = 2 ∧
    events_since example_state
        (logging_en_store (example_env fun _ => -bus_error) ['1', '\n'] 2 example_state).st =
      [.pm_runtime_get_sync, .mutex_lock,
        .cl_dsp_get_reg "ENABLE" 5 0x0004013D 0,
        .regmap_write 0x2800000 1 (-5),
        .mutex_unlock, .pm_runtime_mark_last_busy, .pm_runtime_put_autosuspend] ∧
    (logging_en_store (example_env fun n => if n = 0 then 0 else -bus_error) ['1', '\n'] 2
        example_state).ret = 2 ∧
    (logging_en_store (example_env fun n => if n = 0 then 0 else -bus_error) ['1', '\n'] 2
        example_state).st.regs 0x2800000 = 1 ∧
    example_state.regs 0x2800000 = 0 ∧
    events_since example_state
        (logging_en_store (example_env fun n => if n = 0 then 0 else -bus_error) ['1', '\n'] 2
          example_state).st =
      [.pm_runtime_get_sync, .mutex_lock,
        .cl_dsp_get_reg "ENABLE" 5 0x0004013D 0,
        .regmap_write 0x2800000 1 0,
        .cl_dsp_get_reg "COUNT" 5 0x0004013D 0,
        .regmap_write 0x2800004 2 (-5),
        .mutex_unlock, .pm_runtime_mark_last_busy, .pm_runtime_put_autosuspend] ∧
    (logging_max_reset_store (example_env fun _ => -bus_error) ['1', '\n'] 2 example_state).ret = 2 ∧
    events_since example_state
        (logging_max_reset_store (example_env fun _ => -bus_error) ['1', '\n'] 2 example_state).st =
      [.pm_runtime_get_sync,
        .cs40l26_ack_write 0x13020 0x03000008 0 (-5),
        .pm_runtime_mark_last_busy, .pm_runtime_put_autosuspend] := by
  refine ⟨rfl, ?_, rfl, ?_, rfl, ?_, rfl, ?_⟩ <;> decide

/-- C3: in `f0_and_q_cal_time_ms_show` a failed read of FREQ_CENTRE is not followed
by a jump to `err_mutex`. With the FREQ_SPAN read succeeding, the FREQ_CENTRE read
failing with `-EIO` and the unwritten local `freq_centre` holding 0, the handler
does not return `-EIO`: it evaluates the quotient with a zero divisor, the last
operation before that being the failed read, with the lock still held. -/
theorem f0_and_q_cal_time_ms_show_failed_read :
    (example_env fun n => if n = 0 then 0 else -bus_error).rc 1 = -5 ∧
    (example_env fun n => if n = 0 then 0 else -bus_error).uninit 1 = 0 ∧
    (f0_and_q_cal_time_ms_show (example_env fun n => if n = 0 then 0 else -bus_error)
        example_state).ret = none ∧
    events_since example_state
        (f0_and_q_cal_time_ms_show (example_env fun n => if n = 0 then 0 else -bus_error)
          example_state).st =
      [.pm_runtime_get_sync, .mutex_lock,
        .cl_dsp_get_reg "FREQ_SPAN" 5 0x00040F31 0,
        .regmap_read 0x2800000 0,
        .cl_dsp_get_reg "FREQ_CENTRE" 5 0x00040F31 0,
        .regmap_read 0x2800000 (-5)] ∧
    (f0_and_q_cal_time_ms_show (example_env fun n => if n = 0 then 0 else -bus_error)
        example_state).st.lock_held = true := by
  refine ⟨rfl, rfl, ?_, ?_, rfl⟩ <;> decide

/-! ## Range checks -/

/-- C4: `boost_disable_delay_store` (base 10), `f0_stored_store` and `q_stored_store`
(base 16), with the bounds as parameters. For an input that parses to `v`: the
handler returns `-EINVAL` without any symbol lookup or register write exactly when
`v < MIN` or `v > MAX`; and when `MIN ≤ v ≤ MAX` and the symbol lookup and the
write succeed, the handler issues exactly one register write, of `v` itself to the
resolved address, and returns `count`. -/
theorem range_checked_store (a : Attr)
    (h : Env → List Char → Nat → State → Result)
    (e : Env) (buf : List Char) (count : Nat) (s : State) (v : Nat)
    (ha : a = .boost_disable_delay ∨ a = .f0_stored ∨ a = .q_stored)
    (hh : a.store_handler = some h)
    (hv : kstrtou32 buf a.store_base = .ok v) :
    (((h e buf count s).ret = -EINVAL ∧
        (events_since s (h e buf count s).st).filter Event.is_lookup = [] ∧
        (events_since s (h e buf count s).st).filter Event.is_reg_write = []) ↔
      (v < a.range_min e.c ∨ v > a.range_max e.c)) ∧
    (a.range_min e.c ≤ v → v ≤ a.range_max e.c →
      a.lookup_ret e = 0 → e.rc s.ncalls = 0 →
      (h e buf count s).ret = count ∧
      (events_since s (h e buf count s).st).filter Event.is_reg_write =
        [.regmap_write (a.reg e) v 0]) := by
  by_cases hr : (v < a.range_min e.c ∨ v > a.range_max e.c)
  · rcases ha with rfl | rfl | rfl <;> simp [Attr.store_handler] at hh <;> subst hh <;>
      simp [Attr.store_base] at hv <;> simp only [Attr.range_min, Attr.range_max] at hr <;>
      simp only [Attr.range_min, Attr.range_max, Attr.lookup_ret, Attr.reg, Attr.symbol] <;>
      simp [boost_disable_delay_store, f0_stored_store, q_stored_store, hv, hr, events_since] <;>
      omega
  · refine ⟨?_, ?_⟩
    · simp only [hr, iff_false, not_and]
      intro _ hl
      exfalso
      revert hl
      rcases ha with rfl | rfl | rfl <;> simp [Attr.store_handler] at hh <;> subst hh <;>
        simp [Attr.store_base] at hv <;> simp only [Attr.range_min, Attr.range_max] at hr <;>
        simp [boost_disable_delay_store, f0_stored_store, q_stored_store, hv, hr,
          events_since, cl_dsp_get_reg, regmap_write, emit, pm_runtime_get_sync,
          pm_runtime_mark_last_busy, pm_runtime_put_autosuspend, mutex_lock, mutex_unlock,
          Event.is_lookup] <;>
        split_ifs <;> simp [List.filter_cons, Event.is_lookup]
    · intro _ _ hl hw
      rcases ha with rfl | rfl | rfl <;> simp [Attr.store_handler] at hh <;> subst hh <;>
        simp [Attr.store_base] at hv <;> simp only [Attr.range_min, Attr.range_max] at hr <;>
        simp only [Attr.lookup_ret, Attr.symbol] at hl <;>
        simp [boost_disable_delay_store, f0_stored_store, q_stored_store, hv, hr,
          events_since, cl_dsp_get_reg, regmap_write, emit, pm_runtime_get_sync,
          pm_runtime_mark_last_busy, pm_runtime_put_autosuspend, mutex_lock, mutex_unlock,
          hl, hw, Event.is_reg_write, List.filter_cons, Attr.reg, Attr.symbol]

/-! ## Hexadecimal text -/

theorem digit_val_hex_digit_upper (d : Nat) (h : d < 16) :
    digit_val (hex_digit_upper d) = some d := by
  interval_cases d <;> rfl

theorem hex_digit_upper_mem (d : Nat) (h : d < 16) :
    hex_digit_upper d ∈ "0123456789ABCDEF".toList := by
  interval_cases d <;> decide

theorem hex_digit_upper_not_plus (d : Nat) (h : d < 16) : hex_digit_upper d ≠ '+' := by
  interval_cases d <;> decide

theorem hex_digit_upper_not_x (d : Nat) (h : d < 16) :
    (hex_digit_upper d).toNat ||| 32 ≠ 120 := by
  interval_cases d <;> decide

/-- The digits `number_digits` produces, padded with zeros to `k + 1` digits, are the
`k + 1` low hexadecimal digits of the number. -/
theorem number_digits_padded (k : Nat) : ∀ (fuel n : Nat), k + 1 ≤ fuel → n < 16 ^ (k + 1) →
    number_digits 16 fuel n ++ List.replicate (k + 1 - (number_digits 16 fuel n).length) 0 =
      (List.range (k + 1)).map fun i => n / 16 ^ i % 16 := by
  induction k with
  | zero =>
    intro fuel n hf hn
    obtain ⟨f, rfl⟩ : ∃ f, fuel = f + 1 := ⟨fuel - 1, by omega⟩
    have h0 : n / 16 = 0 := by omega
    simp [number_digits, h0, List.range_succ]
  | succ k ih =>
    intro fuel n hf hn
    obtain ⟨f, rfl⟩ : ∃ f, fuel = f + 1 := ⟨fuel - 1, by omega⟩
    have hn' : n / 16 < 16 ^ (k + 1) := by
      rw [Nat.div_lt_iff_lt_mul (by norm_num)]
      calc n < 16 ^ (k + 1 + 1) := hn
        _ = 16 ^ (k + 1) * 16 := by ring
    have ih' := ih f (n / 16) (by omega) hn'
    have hrhs : ((List.range (k + 1 + 1)).map fun i => n / 16 ^ i % 16) =
        (n % 16) :: ((List.range (k + 1)).map fun i => n / 16 / 16 ^ i % 16) := by
      rw [List.range_succ_eq_map]
      simp [List.map_map, Function.comp_def, Nat.pow_succ, Nat.div_div_eq_div_mul, Nat.mul_comm]
    rw [hrhs, ← ih']
    by_cases h0 : n / 16 = 0
    · obtain ⟨g, rfl⟩ : ∃ g, f = g + 1 := ⟨f - 1, by omega⟩
      simp [number_digits, h0, List.replicate_succ]
    · simp [number_digits, h0]

theorem fmt_0X_8 (v : Nat) (hv : v < 4294967296) : fmt_0X 8 v = hex8 v := by
  have hu : u32 v = v := by simp [u32]; omega
  have h := number_digits_padded 7 NUMBER_TMP v (by decide) (by simpa using hv)
  have hlen : (number_digits 16 NUMBER_TMP v).length ≤ 8 := by
    have := congrArg List.length h
    simp at this
    omega
  have h2 := congrArg (fun l => (l.reverse.map hex_digit_upper)) h
  simp only [List.reverse_append, List.map_append, List.reverse_replicate, List.map_replicate] at h2
  simp only [fmt_0X, hu, List.length_map, List.length_reverse]
  have h0 : hex_digit_upper 0 = '0' := rfl
  rw [h0] at h2
  simp only [Nat.reduceAdd] at h2
  rw [h2]
  simp [List.range_succ, hex8]

theorem kstrtou32_hex8 (v : Nat) (hv : v < 4294967296) :
    kstrtou32 (hex8 v ++ ['\n']) 16 = .ok v := by
  have d7 : v / 268435456 % 16 < 16 := Nat.mod_lt _ (by norm_num)
  have d6 : v / 16777216 % 16 < 16 := Nat.mod_lt _ (by norm_num)
  have d5 : v / 1048576 % 16 < 16 := Nat.mod_lt _ (by norm_num)
  have d4 : v / 65536 % 16 < 16 := Nat.mod_lt _ (by norm_num)
  have d3 : v / 4096 % 16 < 16 := Nat.mod_lt _ (by norm_num)
  have d2 : v / 256 % 16 < 16 := Nat.mod_lt _ (by norm_num)
  have d1 : v / 16 % 16 < 16 := Nat.mod_lt _ (by norm_num)
  have d0 : v % 16 < 16 := Nat.mod_lt _ (by norm_num)
  have hsum : (((((((v / 268435456 % 16) * 16 + v / 16777216 % 16) * 16 + v / 1048576 % 16) * 16
      + v / 65536 % 16) * 16 + v / 4096 % 16) * 16 + v / 256 % 16) * 16 + v / 16 % 16) * 16
      + v % 16 = v := by
    have e2 : v / 256 = v / 16 / 16 := by rw [Nat.div_div_eq_div_mul]
    have e3 : v / 4096 = v / 256 / 16 := by rw [Nat.div_div_eq_div_mul]
    have e4 : v / 65536 = v / 4096 / 16 := by rw [Nat.div_div_eq_div_mul]
    have e5 : v / 1048576 = v / 65536 / 16 := by rw [Nat.div_div_eq_div_mul]
    have e6 : v / 16777216 = v / 1048576 / 16 := by rw [Nat.div_div_eq_div_mul]
    have e7 : v / 268435456 = v / 16777216 / 16 := by rw [Nat.div_div_eq_div_mul]
    omega
  have hnl : digit_val '\n' = none := by decide
  have hparse : _parse_integer 16 (hex8 v ++ ['\n']) 0 0 = (v, 8, ['\n']) := by
    simp [hex8, _parse_integer, digit_val_hex_digit_upper, d7, d6, d5, d4, d3, d2, d1, d0, hnl,
      hsum]
  have hplus : (match hex8 v ++ ['\n'] with
      | '+' :: t => t
      | _ => hex8 v ++ ['\n']) = hex8 v ++ ['\n'] := by
    have := hex_digit_upper_not_plus _ d7
    simp only [hex8, List.cons_append]
    split
    · next heq => simp at heq; exact absurd heq.1 this
    · rfl
  have hfix : _parse_integer_fixup_radix (hex8 v ++ ['\n']) 16 = hex8 v ++ ['\n'] := by
    have := hex_digit_upper_not_x _ d6
    simp [hex8, _parse_integer_fixup_radix, this]
  unfold kstrtou32 kstrtoull
  simp only [hplus, hfix, hparse]
  have h1 : ¬ v > ULLONG_MAX := by simp only [ULLONG_MAX]; omega
  have h2 : u32 v = v := by simp only [u32]; omega
  simp [h1, h2]

theorem hex8_mem (v : Nat) : ∀ c ∈ hex8 v, c ∈ "0123456789ABCDEF".toList := by
  intro c hc
  simp only [hex8, List.mem_cons, List.mem_singleton, List.not_mem_nil, or_false] at hc
  rcases hc with rfl | rfl | rfl | rfl | rfl | rfl | rfl | rfl <;>
    exact hex_digit_upper_mem _ (Nat.mod_lt _ (by norm_num))

/-! ## Round trips of the hexadecimal calibration attributes -/

theorem hex_show_succeeds (a : Attr) (hsh : Env → State → Outcome)
    (e : Env) (s : State) (v : Nat)
    (ha : a = .f0_measured ∨ a = .q_measured ∨ a = .redc_measured ∨ a = .redc_est ∨
      a = .f0_stored ∨ a = .q_stored ∨ a = .redc_stored)
    (hh : a.show_handler = some hsh)
    (hpage : 9 < e.c.PAGE_SIZE)
    (hl : a.lookup_ret e = 0) (hr : e.rc s.ncalls = 0)
    (hv : s.regs (a.reg e) = v) (hlt : v < 4294967296) :
    (hsh e s).ret = some 9 ∧ (hsh e s).st.buf = hex8 v ++ ['\n'] := by
  have hu : u32 v = v := by simp only [u32]; omega
  have hfmt := fmt_0X_8 v hlt
  have hlen : (hex8 v ++ ['\n']).length = 9 := rfl
  have htake : List.take (e.c.PAGE_SIZE - 1) (hex8 v ++ ['\n']) = hex8 v ++ ['\n'] :=
    List.take_of_length_le (by rw [hlen]; omega)
  rcases ha with rfl | rfl | rfl | rfl | rfl | rfl | rfl <;>
    simp [Attr.show_handler] at hh <;> subst hh <;>
    simp only [Attr.lookup_ret, Attr.reg, Attr.symbol] at hl hv <;>
    simp [f0_measured_show, q_measured_show, redc_measured_show, redc_est_show,
      f0_stored_show, q_stored_show, redc_stored_show, Outcome.ret, Outcome.st,
      cl_dsp_get_reg, regmap_read, snprintf, emit, pm_runtime_get_sync,
      pm_runtime_mark_last_busy, pm_runtime_put_autosuspend, mutex_lock, mutex_unlock,
      hl, hr, hv, hu, hfmt, htake] <;>
    rfl

/-- C6: for each of `f0_measured`, `q_measured`, `redc_measured`, `redc_est`,
`f0_stored`, `q_stored`, `redc_stored` and every 32-bit value `v` held by the
attribute's register, when the lookup and the read succeed the show handler
returns 9 and leaves a text of exactly 9 characters, eight from `0-9A-F` and a
newline, and `kstrtou32` in base 16 parses that text back to `v`. -/
theorem hex_show_format_parse (a : Attr) (hsh : Env → State → Outcome)
    (e : Env) (s : State) (v : Nat)
    (ha : a = .f0_measured ∨ a = .q_measured ∨ a = .redc_measured ∨ a = .redc_est ∨
      a = .f0_stored ∨ a = .q_stored ∨ a = .redc_stored)
    (hh : a.show_handler = some hsh)
    (hpage : 9 < e.c.PAGE_SIZE)
    (hl : a.lookup_ret e = 0) (hr : e.rc s.ncalls = 0)
    (hv : s.regs (a.reg e) = v) (hlt : v < 4294967296) :
    (hsh e s).ret = some 9 ∧
    (hsh e s).st.buf = hex8 v ++ ['\n'] ∧
    (hsh e s).st.buf.length = 9 ∧
    (∀ c ∈ (hsh e s).st.buf.take 8, c ∈ "0123456789ABCDEF".toList) ∧
    (hsh e s).st.buf.drop 8 = ['\n'] ∧
    kstrtou32 (hsh e s).st.buf 16 = .ok v := by
  have hbuf := hex_show_succeeds a hsh e s v ha hh hpage hl hr hv hlt
  refine ⟨hbuf.1, hbuf.2, ?_, ?_, ?_, ?_⟩
  · rw [hbuf.2]; rfl
  · rw [hbuf.2]
    intro c hc
    exact hex8_mem v c (by simpa [hex8] using hc)
  · rw [hbuf.2]; rfl
  · rw [hbuf.2]; exact kstrtou32_hex8 v hlt

/-- C5: for each of `redc_est`, `f0_stored`, `q_stored`, `redc_stored`: if the store
handler accepts a text with parsed value `v` (it returns `count`), the lower layers
returning 0 or a negative errno, then the show handler run next, its read
succeeding, returns 9 and fills the page with `v` as eight zero-padded upper-case
hexadecimal digits and a newline. -/
theorem hex_store_show_roundtrip (a : Attr)
    (hst : Env → List Char → Nat → State → Result) (hsh : Env → State → Outcome)
    (e : Env) (buf : List Char) (count : Nat) (s : State) (v : Nat)
    (ha : a = .redc_est ∨ a = .f0_stored ∨ a = .q_stored ∨ a = .redc_stored)
    (hst_eq : a.store_handler = some hst) (hsh_eq : a.show_handler = some hsh)
    (hpage : 9 < e.c.PAGE_SIZE)
    (hsym : a.lookup_ret e ≤ 0) (hbus : e.rc s.ncalls ≤ 0)
    (hv : kstrtou32 buf 16 = .ok v)
    (hacc : (hst e buf count s).ret = count)
    (hread : e.rc (hst e buf count s).st.ncalls = 0) :
    (hsh e (hst e buf count s).st).ret = some 9 ∧
    (hsh e (hst e buf count s).st).st.buf = hex8 v ++ ['\n'] := by
  have hlt := kstrtou32_ok_lt _ _ _ hv
  have hu : u32 v = v := by simp only [u32]; omega
  have hc : (0 : Int) ≤ count := Int.natCast_nonneg count
  -- the store handler took its success path
  have hok : a.lookup_ret e = 0 ∧ e.rc s.ncalls = 0 ∧
      (hst e buf count s).st.regs (a.reg e) = v ∧
      (hst e buf count s).st.ncalls = s.ncalls + 1 := by
    rcases ha with rfl | rfl | rfl | rfl <;>
      simp [Attr.store_handler] at hst_eq <;> subst hst_eq <;>
      simp only [Attr.lookup_ret, Attr.reg, Attr.symbol] at hsym ⊢ <;>
      simp only [redc_est_store, f0_stored_store, q_stored_store, redc_stored_store, hv,
        cl_dsp_get_reg, regmap_write, emit, pm_runtime_get_sync,
        pm_runtime_mark_last_busy, pm_runtime_put_autosuspend, mutex_lock, mutex_unlock, EINVAL]
        at hacc ⊢ <;>
      split_ifs at hacc ⊢ <;>
      simp_all
  have h6 := hex_show_succeeds a hsh e (hst e buf count s).st v
    (by rcases ha with rfl | rfl | rfl | rfl <;> simp) hsh_eq hpage hok.1 hread hok.2.2.1 hlt
  exact h6

/-! ## Decimal round trip of `delay_before_stop_playback_us` -/

/-- C7: the text "4294967295" is accepted by `delay_before_stop_playback_us_store`,
which stores 4294967295 and returns `count`; the show handler then prints the value
with `%d`, giving "-1", and the store handler rejects that text with `-EINVAL`. -/
theorem delay_before_stop_playback_us_roundtrip_fails :
    kstrtou32 "4294967295".toList 10 = .ok 4294967295 ∧
    (delay_before_stop_playback_us_store (example_env fun _ => 0) "4294967295".toList 10
        example_state).ret = 10 ∧
    (delay_before_stop_playback_us_store (example_env fun _ => 0) "4294967295".toList 10
        example_state).st.priv.delay_before_stop_playback_us = 4294967295 ∧
    (delay_before_stop_playback_us_show (example_env fun _ => 0)
        (delay_before_stop_playback_us_store (example_env fun _ => 0) "4294967295".toList 10
          example_state).st).st.buf = "-1\n".toList ∧
    (delay_before_stop_playback_us_show (example_env fun _ => 0)
        (delay_before_stop_playback_us_store (example_env fun _ => 0) "4294967295".toList 10
          example_state).st).ret = 3 ∧
    kstrtou32 "-1\n".toList 10 = .error (-EINVAL) ∧
    (delay_before_stop_playback_us_store (example_env fun _ => 0) "-1\n".toList 3
        example_state).ret = -EINVAL := by
  refine ⟨rfl, rfl, rfl, ?_, rfl, rfl, rfl⟩
  decide

/-! ## Runtime-PM usage count -/

/-- C8, the claim as stated fails: `trigger_calibration_store` with the input "1" and a
successful mailbox write returns with the usage count one above its value on entry. -/
theorem trigger_calibration_store_keeps_pm_reference :
    (trigger_calibration_store (example_env fun _ => 0) ['1'] 1 example_state).ret = 1 ∧
    (trigger_calibration_store (example_env fun _ => 0) ['1'] 1 example_state).st.usage_count
      ≠ example_state.usage_count := by
  decide


/-! ## Per-handler facts used by the pairing theorems -/

theorem show_usage_count (a : Attr) (hsh : Env → State → Outcome) (e : Env) (s : State)
    (r : Result) (hh : a.show_handler = some hsh) (hr : hsh e s = .returned r) :
    r.st.usage_count = s.usage_count := by
  cases a <;> simp only [Attr.show_handler, Option.some.injEq, reduceCtorEq] at hh <;>
    subst hh <;>
    simp only [num_waves_show, die_temp_show, owt_free_space_show, power_on_seq_show,
      dsp_state_show, halo_heartbeat_show, fw_mode_show, pm_timeout_ms_show,
      vibe_state_show, boost_disable_delay_show, f0_offset_show,
      delay_before_stop_playback_us_show, calib_fw_load_show, max_vbst_show, max_bemf_show,
      logging_en_show, f0_measured_show, q_measured_show, redc_measured_show, redc_est_show,
      f0_stored_show, q_stored_show, redc_stored_show, f0_and_q_cal_time_ms_show,
      redc_cal_time_ms_show] at hr <;>
    (try split_ifs at hr) <;>
    simp only [Outcome.returned.injEq, reduceCtorEq] at hr <;>
    subst hr <;> simp

theorem store_usage_count (a : Attr) (hst : Env → List Char → Nat → State → Result)
    (e : Env) (buf : List Char) (count : Nat) (s : State)
    (hh : a.store_handler = some hst) (ha : a ≠ .trigger_calibration) :
    (hst e buf count s).st.usage_count = s.usage_count := by
  cases a <;> simp only [Attr.store_handler, Option.some.injEq, reduceCtorEq] at hh <;>
    first
    | exact absurd rfl ha
    | (subst hh
       simp only [pm_timeout_ms_store, boost_disable_delay_store, f0_offset_store,
         delay_before_stop_playback_us_store, calib_fw_load_store, logging_max_reset_store,
         logging_en_store, redc_est_store, f0_stored_store, q_stored_store, redc_stored_store]
       split <;> (try split_ifs) <;> simp)

theorem show_returns (a : Attr) (hsh : Env → State → Outcome) (e : Env) (s : State)
    (hh : a.show_handler = some hsh) (ha : a ≠ .f0_and_q_cal_time_ms) :
    ∃ r, hsh e s = .returned r := by
  cases a <;> simp only [Attr.show_handler, Option.some.injEq, reduceCtorEq] at hh <;>
    first
    | exact absurd rfl ha
    | (subst hh; exact ⟨_, rfl⟩)

theorem f0_and_q_cal_time_ms_show_returns (e : Env) (s : State)
    (h : (e.sym "FREQ_SPAN" e.c.CL_DSP_XM_UNPACKED_TYPE e.c.CS40L26_F0_EST_ALGO_ID).1 ≠ 0 ∨
      e.rc s.ncalls ≠ 0 ∨
      (e.sym "FREQ_CENTRE" e.c.CL_DSP_XM_UNPACKED_TYPE e.c.CS40L26_F0_EST_ALGO_ID).1 ≠ 0 ∨
      (if e.rc (s.ncalls + 1) = 0 then
          u32 (s.regs (u32
            (e.sym "FREQ_CENTRE" e.c.CL_DSP_XM_UNPACKED_TYPE e.c.CS40L26_F0_EST_ALGO_ID).2))
        else u32 (e.uninit (s.ncalls + 1))) >>> e.c.CS40L26_F0_EST_FREQ_SHIFT ≠ 0) :
    ∃ r, f0_and_q_cal_time_ms_show e s = .returned r := by
  simp only [f0_and_q_cal_time_ms_show]
  split_ifs <;> simp_all [regmap_read]

/-- When the mailbox write fails, `trigger_calibration_store` returns the error code
with the usage count one above its value on entry: no put is made on this path. -/
theorem trigger_calibration_store_failed_request :
    (trigger_calibration_store (example_env fun _ => -bus_error) ['1'] 1 example_state).ret
      = -bus_error ∧
    (trigger_calibration_store (example_env fun _ => -bus_error) ['1'] 1
      example_state).st.usage_count = example_state.usage_count + 1 := by
  decide

theorem show_lock (a : Attr) (hsh : Env → State → Outcome) (e : Env) (s : State)
    (hh : a.show_handler = some hsh) (hfree : s.lock_held = false)
    (hok : s.lock_misuse = false) :
    (hsh e s).st.lock_misuse = false ∧
    ((hsh e s).ret ≠ none → (hsh e s).st.lock_held = false) ∧
    (a ≠ .f0_and_q_cal_time_ms → (hsh e s).ret ≠ none) := by
  cases a <;> simp only [Attr.show_handler, Option.some.injEq, reduceCtorEq] at hh <;>
    subst hh <;>
    simp only [num_waves_show, die_temp_show, owt_free_space_show, power_on_seq_show,
      dsp_state_show, halo_heartbeat_show, fw_mode_show, pm_timeout_ms_show,
      vibe_state_show, boost_disable_delay_show, f0_offset_show,
      delay_before_stop_playback_us_show, calib_fw_load_show, max_vbst_show, max_bemf_show,
      logging_en_show, f0_measured_show, q_measured_show, redc_measured_show, redc_est_show,
      f0_stored_show, q_stored_show, redc_stored_show, f0_and_q_cal_time_ms_show,
      redc_cal_time_ms_show] <;>
    (try split_ifs) <;>
    simp [Outcome.st, Outcome.ret, hfree, hok]

theorem store_lock (a : Attr) (hst : Env → List Char → Nat → State → Result)
    (e : Env) (buf : List Char) (count : Nat) (s : State)
    (hh : a.store_handler = some hst) (hfree : s.lock_held = false)
    (hok : s.lock_misuse = false) :
    (hst e buf count s).st.lock_misuse = false ∧ (hst e buf count s).st.lock_held = false := by
  cases a <;> simp only [Attr.store_handler, Option.some.injEq, reduceCtorEq] at hh <;>
    subst hh <;>
    simp only [pm_timeout_ms_store, boost_disable_delay_store, f0_offset_store,
      delay_before_stop_playback_us_store, calib_fw_load_store, logging_max_reset_store,
      logging_en_store, redc_est_store, f0_stored_store, q_stored_store, redc_stored_store,
      trigger_calibration_store] <;>
    split <;> (try split_ifs) <;> simp [hfree, hok]

theorem show_under_lock (a : Attr) (hsh : Env → State → Outcome) (e : Env) (s : State)
    (hh : a.show_handler = some hsh)
    (ha : a ≠ .halo_heartbeat ∧ a ≠ .owt_free_space ∧ a ≠ .die_temp ∧
      a ≠ .boost_disable_delay ∧ a ≠ .power_on_seq) :
    all_under_lock guarded_or_lookup false (events_since s (hsh e s).st) = true := by
  obtain ⟨h1, h2, h3, h4, h5⟩ := ha
  cases a <;> simp only [Attr.show_handler, Option.some.injEq, reduceCtorEq] at hh <;>
    first
    | exact absurd rfl h1
    | exact absurd rfl h2
    | exact absurd rfl h3
    | exact absurd rfl h4
    | exact absurd rfl h5
    | (subst hh
       simp only [num_waves_show, dsp_state_show, fw_mode_show, pm_timeout_ms_show,
         vibe_state_show, f0_offset_show,
         delay_before_stop_playback_us_show, calib_fw_load_show, max_vbst_show, max_bemf_show,
         logging_en_show, f0_measured_show, q_measured_show, redc_measured_show, redc_est_show,
         f0_stored_show, q_stored_show, redc_stored_show, f0_and_q_cal_time_ms_show,
         redc_cal_time_ms_show]
       (try split_ifs) <;>
       simp [Outcome.st, events_since, all_under_lock, guarded_or_lookup, Event.is_guarded,
         Event.is_lookup])

set_option maxHeartbeats 2000000 in
theorem store_under_lock (a : Attr) (hst : Env → List Char → Nat → State → Result)
    (e : Env) (buf : List Char) (count : Nat) (s : State)
    (hh : a.store_handler = some hst)
    (ha : a ≠ .halo_heartbeat ∧ a ≠ .owt_free_space ∧ a ≠ .die_temp ∧
      a ≠ .boost_disable_delay ∧ a ≠ .power_on_seq) :
    all_under_lock guarded_or_lookup false (events_since s (hst e buf count s).st) = true := by
  obtain ⟨h1, h2, h3, h4, h5⟩ := ha
  cases a <;> simp only [Attr.store_handler, Option.some.injEq, reduceCtorEq] at hh <;>
    first
    | exact absurd rfl h4
    | (subst hh
       simp only [pm_timeout_ms_store, f0_offset_store,
         delay_before_stop_playback_us_store, calib_fw_load_store, logging_max_reset_store,
         logging_en_store, redc_est_store, f0_stored_store, q_stored_store, redc_stored_store,
         trigger_calibration_store]
       split <;> (try split_ifs) <;>
       simp [events_since, all_under_lock, guarded_or_lookup, Event.is_guarded,
         Event.is_lookup])

theorem power_on_seq_show_walk_locked (e : Env) (s : State) :
    all_under_lock Event.is_pseq_walk false
      (events_since s (power_on_seq_show e s).st) = true := by
  simp only [power_on_seq_show]
  split_ifs <;> simp [events_since, all_under_lock, Event.is_pseq_walk]

theorem lock_free_handlers (e : Env) (s : State) (buf : List Char) (count : Nat) :
    (events_since s (halo_heartbeat_show e s).st).filter Event.is_lock = [] ∧
    (events_since s (owt_free_space_show e s).st).filter Event.is_lock = [] ∧
    (events_since s (die_temp_show e s).st).filter Event.is_lock = [] ∧
    (events_since s (boost_disable_delay_show e s).st).filter Event.is_lock = [] ∧
    (events_since s (boost_disable_delay_store e buf count s).st).filter Event.is_lock = [] := by
  refine ⟨?_, ?_, ?_, ?_, ?_⟩
  · simp only [halo_heartbeat_show]
    split_ifs <;> simp [events_since, List.filter_cons, Event.is_lock]
  · simp only [owt_free_space_show]
    split_ifs <;> simp [events_since, List.filter_cons, Event.is_lock]
  · simp only [die_temp_show]
    split_ifs <;> simp [events_since, List.filter_cons, Event.is_lock]
  · simp only [boost_disable_delay_show]
    split_ifs <;> simp [events_since, List.filter_cons, Event.is_lock]
  · simp only [boost_disable_delay_store]
    split <;> (try split_ifs) <;> simp [events_since, List.filter_cons, Event.is_lock]

/-! ## Runtime-PM usage count, continued -/

/-- C8, amended: every show handler other than `f0_and_q_cal_time_ms_show` and every
store handler other than `trigger_calibration_store` returns, on every input and
every outcome of the lower-layer calls, with the usage count it was entered with;
`f0_and_q_cal_time_ms_show` does so on every run on which a lookup or the read of
FREQ_SPAN fails or the shifted content of `freq_centre` is not zero;
`trigger_calibration_store` returns with the count unchanged when it rejects the
input, and returns `count` with the usage count one higher when the mailbox write
succeeds (the put is left to the interrupt handler). -/
theorem runtime_pm_balance (e : Env) (s : State) :
    (∀ (a : Attr) (hsh : Env → State → Outcome),
      a.show_handler = some hsh → a ≠ .f0_and_q_cal_time_ms →
      (hsh e s).ret ≠ none ∧ (hsh e s).st.usage_count = s.usage_count) ∧
    (((e.sym "FREQ_SPAN" e.c.CL_DSP_XM_UNPACKED_TYPE e.c.CS40L26_F0_EST_ALGO_ID).1 ≠ 0 ∨
        e.rc s.ncalls ≠ 0 ∨
        (e.sym "FREQ_CENTRE" e.c.CL_DSP_XM_UNPACKED_TYPE e.c.CS40L26_F0_EST_ALGO_ID).1 ≠ 0 ∨
        (if e.rc (s.ncalls + 1) = 0 then
            u32 (s.regs (u32
              (e.sym "FREQ_CENTRE" e.c.CL_DSP_XM_UNPACKED_TYPE e.c.CS40L26_F0_EST_ALGO_ID).2))
          else u32 (e.uninit (s.ncalls + 1))) >>> e.c.CS40L26_F0_EST_FREQ_SHIFT ≠ 0) →
      (f0_and_q_cal_time_ms_show e s).ret ≠ none ∧
      (f0_and_q_cal_time_ms_show e s).st.usage_count = s.usage_count) ∧
    (∀ (a : Attr) (hst : Env → List Char → Nat → State → Result) (buf : List Char) (count : Nat),
      a.store_handler = some hst → a ≠ .trigger_calibration →
      (hst e buf count s).st.usage_count = s.usage_count) ∧
    (∀ (buf : List Char) (count : Nat),
      (∀ v, kstrtou32 buf 16 = .ok v → v < 1 ∨ v > 2) →
      (trigger_calibration_store e buf count s).ret = -EINVAL ∧
      (trigger_calibration_store e buf count s).st.usage_count = s.usage_count) ∧
    (∀ (buf : List Char) (count : Nat) (v : Nat),
      kstrtou32 buf 16 = .ok v → 1 ≤ v → v ≤ 2 → e.rc s.ncalls = 0 →
      (trigger_calibration_store e buf count s).ret = to_int count ∧
      (trigger_calibration_store e buf count s).st.usage_count = s.usage_count + 1) := by
  refine ⟨?_, ?_, ?_, ?_, ?_⟩
  · intro a hsh hh ha
    obtain ⟨r, hr⟩ := show_returns a hsh e s hh ha
    have hu := show_usage_count a hsh e s r hh hr
    rw [hr]
    exact ⟨by simp [Outcome.ret], hu⟩
  · intro h
    obtain ⟨r, hr⟩ := f0_and_q_cal_time_ms_show_returns e s h
    have hu := show_usage_count .f0_and_q_cal_time_ms f0_and_q_cal_time_ms_show e s r rfl hr
    rw [hr]
    exact ⟨by simp [Outcome.ret], hu⟩
  · intro a hst buf count hh ha
    exact store_usage_count a hst e buf count s hh ha
  · intro buf count hrej
    simp only [trigger_calibration_store]
    split
    · exact ⟨rfl, rfl⟩
    · next v hv =>
      rw [if_pos (hrej v hv)]
      exact ⟨rfl, rfl⟩
  · intro buf count v hv h1 h2 hrc
    have hr : ¬ (v < 1 ∨ v > 2) := by omega
    simp only [trigger_calibration_store, hv]
    rw [if_neg hr]
    simp [hrc]

theorem runtime_pm_balance_witness :
    (die_temp_show (example_env fun _ => -bus_error) example_state).st.usage_count = 0 ∧
    (f0_and_q_cal_time_ms_show (example_env fun _ => 0)
        { example_state with regs := fun _ => 0x10000 }).ret = some 5 ∧
    ((Outcome.st (f0_and_q_cal_time_ms_show (example_env fun _ => 0)
        { example_state with regs := fun _ => 0x10000 })).usage_count = 0) ∧
    (logging_en_store (example_env fun _ => 0) ['1'] 1 example_state).st.usage_count = 0 ∧
    (trigger_calibration_store (example_env fun _ => 0) ['3'] 1 example_state).st.usage_count
      = 0 ∧
    (trigger_calibration_store (example_env fun _ => 0) ['2'] 1 example_state).st.usage_count
      = 0 + 1 :=
  ⟨((runtime_pm_balance (example_env fun _ => -bus_error) example_state).1 .die_temp
      (fun e s => .returned (die_temp_show e s)) rfl (by decide)).2,
   by decide,
   ((runtime_pm_balance (example_env fun _ => 0)
      { example_state with regs := fun _ => 0x10000 }).2.1
      (Or.inr (Or.inr (Or.inr (by decide))))).2,
   (runtime_pm_balance (example_env fun _ => 0) example_state).2.2.1 .logging_en
      logging_en_store ['1'] 1 rfl (by decide),
   ((runtime_pm_balance (example_env fun _ => 0) example_state).2.2.2.1 ['3'] 1
      (fun v hv => Or.inr (by
        have h3 : kstrtou32 ['3'] 16 = .ok 3 := rfl
        rw [h3] at hv
        injection hv with hv
        omega))).2,
   ((runtime_pm_balance (example_env fun _ => 0) example_state).2.2.2.2 ['2'] 1 2
      rfl (by decide) (by decide) rfl).2⟩

/-! ## The device mutex -/

/-- C9, the code breaks the claim: entered with the lock free, with every lookup and
both reads succeeding and the word 0 in FREQ_CENTRE, `f0_and_q_cal_time_ms_show`
acquires the lock once and ends in the division by zero of lines 950-953 without
having released it: the handler does not return and the lock is left held. -/
theorem f0_and_q_cal_time_ms_show_leaves_lock_held :
    example_state.lock_held = false ∧ example_state.lock_misuse = false ∧
    (f0_and_q_cal_time_ms_show (example_env fun _ => 0) example_state).ret = none ∧
    (f0_and_q_cal_time_ms_show (example_env fun _ => 0) example_state).st.lock_held = true ∧
    (events_since example_state
        (f0_and_q_cal_time_ms_show (example_env fun _ => 0) example_state).st).count
      .mutex_lock = 1 ∧
    (events_since example_state
        (f0_and_q_cal_time_ms_show (example_env fun _ => 0) example_state).st).count
      .mutex_unlock = 0 := by
  refine ⟨rfl, rfl, ?_, rfl, ?_, ?_⟩ <;> decide

/-- C10, the claim as stated fails: `halo_heartbeat_show` reads `fw.id` and issues its
register read without ever taking the lock, and `power_on_seq_show` reads
`pseq_base` before it takes the lock and `pseq_num_ops` after it has released it. -/
theorem accesses_outside_lock :
    events_since example_state (halo_heartbeat_show (example_env fun _ => 0) example_state).st =
      [.priv_read .fw_id,
        .cl_dsp_get_reg "HALO_HEARTBEAT" 5 0x1800D4 0,
        .pm_runtime_get_sync,
        .regmap_read 0x2800000 0,
        .pm_runtime_mark_last_busy, .pm_runtime_put_autosuspend,
        .snprintf ['0', '\n']] ∧
    all_under_lock Event.is_guarded false
      (events_since example_state
        (halo_heartbeat_show (example_env fun _ => 0) example_state).st) = false ∧
    events_since example_state (power_on_seq_show (example_env fun _ => 0) example_state).st =
      [.priv_read .pseq_base, .mutex_lock, .priv_read .pseq_op_head, .mutex_unlock,
        .priv_read .pseq_num_ops, .priv_read .pseq_num_ops, .snprintf ['1', '\n']] ∧
    all_under_lock Event.is_guarded false
      (events_since example_state
        (power_on_seq_show (example_env fun _ => 0) example_state).st) = false := by
  decide

/-- C10, amended: every handler of an attribute other than `halo_heartbeat`,
`owt_free_space`, `die_temp`, `boost_disable_delay` and `power_on_seq` performs each
symbol lookup, each register-map transaction it issues itself and each access to a
private-state field while it holds the lock, between the acquisition and the
release; `power_on_seq_show` walks the power-on sequence list under the lock; the
handlers of `halo_heartbeat`, `owt_free_space`, `die_temp` and `boost_disable_delay`
never take the lock. -/
theorem accesses_under_lock (e : Env) (s : State) :
    (∀ (a : Attr) (hsh : Env → State → Outcome), a.show_handler = some hsh →
      (a ≠ .halo_heartbeat ∧ a ≠ .owt_free_space ∧ a ≠ .die_temp ∧
        a ≠ .boost_disable_delay ∧ a ≠ .power_on_seq) →
      all_under_lock guarded_or_lookup false (events_since s (hsh e s).st) = true) ∧
    (∀ (a : Attr) (hst : Env → List Char → Nat → State → Result) (buf : List Char) (count : Nat),
      a.store_handler = some hst →
      (a ≠ .halo_heartbeat ∧ a ≠ .owt_free_space ∧ a ≠ .die_temp ∧
        a ≠ .boost_disable_delay ∧ a ≠ .power_on_seq) →
      all_under_lock guarded_or_lookup false (events_since s (hst e buf count s).st) = true) ∧
    all_under_lock Event.is_pseq_walk false
      (events_since s (power_on_seq_show e s).st) = true ∧
    (∀ (buf : List Char) (count : Nat),
      (events_since s (halo_heartbeat_show e s).st).filter Event.is_lock = [] ∧
      (events_since s (owt_free_space_show e s).st).filter Event.is_lock = [] ∧
      (events_since s (die_temp_show e s).st).filter Event.is_lock = [] ∧
      (events_since s (boost_disable_delay_show e s).st).filter Event.is_lock = [] ∧
      (events_since s (boost_disable_delay_store e buf count s).st).filter Event.is_lock = []) :=
  ⟨fun a hsh hh ha => show_under_lock a hsh e s hh ha,
   fun a hst buf count hh ha => store_under_lock a hst e buf count s hh ha,
   power_on_seq_show_walk_locked e s,
   fun buf count => lock_free_handlers e s buf count⟩

theorem accesses_under_lock_witness :
    all_under_lock guarded_or_lookup false
      (events_since example_state
        (Outcome.st (f0_and_q_cal_time_ms_show (example_env fun _ => 0) example_state))) = true ∧
    all_under_lock guarded_or_lookup false
      (events_since example_state
        (logging_en_store (example_env fun _ => 0) ['1'] 1 example_state).st) = true :=
  ⟨(accesses_under_lock (example_env fun _ => 0) example_state).1 .f0_and_q_cal_time_ms
      f0_and_q_cal_time_ms_show rfl (by decide),
   (accesses_under_lock (example_env fun _ => 0) example_state).2.1 .logging_en
      logging_en_store ['1'] 1 rfl (by decide)⟩

/-! ## Concrete instances -/

theorem range_checked_store_witness :
    kstrtou32 "C8000".toList 16 = .ok 0xC8000 ∧
    (f0_stored_store (example_env fun _ => 0) "C8000".toList 5 example_state).ret = 5 ∧
    (events_since example_state
        (f0_stored_store (example_env fun _ => 0) "C8000".toList 5 example_state).st).filter
        Event.is_reg_write = [.regmap_write 0x2800000 0xC8000 0] :=
  ⟨rfl,
   (range_checked_store .f0_stored f0_stored_store (example_env fun _ => 0) "C8000".toList 5
      example_state 0xC8000 (Or.inr (Or.inl rfl)) rfl rfl).2 (by decide) (by decide) rfl rfl⟩

theorem hex_show_format_parse_witness :
    (f0_measured_show (example_env fun _ => 0)
        { example_state with regs := fun _ => 0xABCDEF }).ret = 9 ∧
    (f0_measured_show (example_env fun _ => 0)
        { example_state with regs := fun _ => 0xABCDEF }).st.buf = "00ABCDEF\n".toList ∧
    kstrtou32 "00ABCDEF\n".toList 16 = .ok 0xABCDEF := by
  have h := hex_show_format_parse .f0_measured (fun e s => .returned (f0_measured_show e s))
    (example_env fun _ => 0) { example_state with regs := fun _ => 0xABCDEF } 0xABCDEF
    (Or.inl rfl) rfl (by decide) rfl rfl rfl (by decide)
  exact ⟨by simpa [Outcome.ret] using h.1, h.2.1, h.2.2.2.2.2⟩

theorem hex_store_show_roundtrip_witness :
    kstrtou32 "c8000\n".toList 16 = .ok 0xC8000 ∧
    (f0_stored_store (example_env fun _ => 0) "c8000\n".toList 6 example_state).ret = 6 ∧
    (f0_stored_show (example_env fun _ => 0)
        (f0_stored_store (example_env fun _ => 0) "c8000\n".toList 6 example_state).st).ret = 9 ∧
    (f0_stored_show (example_env fun _ => 0)
        (f0_stored_store (example_env fun _ => 0) "c8000\n".toList 6 example_state).st).st.buf
      = "000C8000\n".toList := by
  have h := hex_store_show_roundtrip .f0_stored f0_stored_store
    (fun e s => .returned (f0_stored_show e s))
    (example_env fun _ => 0) "c8000\n".toList 6 example_state 0xC8000
    (Or.inr (Or.inl rfl)) rfl rfl (by decide) (by decide) (by decide) rfl rfl rfl
  exact ⟨rfl, rfl, by simpa [Outcome.ret] using h.1, h.2⟩

/-! ## First failing lower-layer call of a show handler -/

set_option maxHeartbeats 2000000 in
/-- Whenever a show handler returns after a lower-layer call has failed, it returns
the code of the first failing call, the sysfs page is untouched, and no lookup,
register access, driver-core call or output follows that call. -/
theorem show_first_failure (a : Attr) (hsh : Env → State → Outcome) (e : Env) (s : State)
    (r : Result) (code : Int)
    (hh : a.show_handler = some hsh) (hr : hsh e s = .returned r)
    (hf : first_failure (events_since s r.st) = some code) :
    r.ret = code ∧ r.st.buf = s.buf ∧ quiet_after_failure (events_since s r.st) = true := by
  cases a <;> simp only [Attr.show_handler, Option.some.injEq, reduceCtorEq] at hh <;>
    subst hh <;>
    simp only [num_waves_show, die_temp_show, owt_free_space_show, power_on_seq_show,
      dsp_state_show, halo_heartbeat_show, fw_mode_show, pm_timeout_ms_show,
      vibe_state_show, boost_disable_delay_show, f0_offset_show,
      delay_before_stop_playback_us_show, calib_fw_load_show, max_vbst_show, max_bemf_show,
      logging_en_show, f0_measured_show, q_measured_show, redc_measured_show, redc_est_show,
      f0_stored_show, q_stored_show, redc_stored_show, f0_and_q_cal_time_ms_show,
      redc_cal_time_ms_show] at hr <;>
    (try split_ifs at hr) <;>
    simp only [Outcome.returned.injEq, reduceCtorEq] at hr <;>
    subst hr <;>
    simp_all [events_since, first_failure, quiet_after_failure, Event.ret,
      Event.is_access_or_output]

/-! ## More on formatted numbers -/

theorem number_digits_length_le (base : Nat) : ∀ (fuel n : Nat),
    (number_digits base fuel n).length ≤ fuel := by
  intro fuel
  induction fuel with
  | zero => intro n; simp [number_digits]
  | succ f ih =>
    intro n
    simp only [number_digits]
    split_ifs
    · simp
    · have := ih (n / base)
      simp only [List.length_cons]
      omega

theorem number_digits_length_ge (k : Nat) : ∀ (fuel n : Nat), k + 1 ≤ fuel → 16 ^ k ≤ n →
    k + 1 ≤ (number_digits 16 fuel n).length := by
  induction k with
  | zero =>
    intro fuel n hf _
    obtain ⟨f, rfl⟩ : ∃ f, fuel = f + 1 := ⟨fuel - 1, by omega⟩
    simp [number_digits]
  | succ k ih =>
    intro fuel n hf hn
    obtain ⟨f, rfl⟩ : ∃ f, fuel = f + 1 := ⟨fuel - 1, by omega⟩
    have hq : 16 ^ k ≤ n / 16 := by
      rw [Nat.le_div_iff_mul_le (by norm_num)]
      calc 16 ^ k * 16 = 16 ^ (k + 1) := by ring
        _ ≤ n := hn
    have h0 : n / 16 ≠ 0 := by
      have : 0 < 16 ^ k := Nat.pow_pos (by norm_num)
      omega
    have := ih f (n / 16) (by omega) hq
    simp only [number_digits, h0, if_false, List.length_cons]
    omega

/-- `%0wX` of a value with at most `w` hexadecimal digits: exactly `w` digits. -/
theorem fmt_0X_narrow (w v : Nat) (hw : w + 1 ≤ NUMBER_TMP) (hv : v < 16 ^ (w + 1))
    (h32 : v < 4294967296) :
    fmt_0X (w + 1) v =
      ((List.range (w + 1)).map fun i => hex_digit_upper (v / 16 ^ i % 16)).reverse := by
  have hu : u32 v = v := by simp only [u32]; omega
  have h := number_digits_padded w NUMBER_TMP v hw hv
  have h2 := congrArg (fun l => (l.reverse.map hex_digit_upper)) h
  simp only [List.reverse_append, List.map_append, List.reverse_replicate, List.map_replicate] at h2
  have h0 : hex_digit_upper 0 = '0' := rfl
  rw [h0] at h2
  simp only [fmt_0X, hu, List.length_map, List.length_reverse]
  rw [h2]
  simp [List.map_reverse, Function.comp_def]

/-- `%0wX` of a value with `k + 1 ≥ w` hexadecimal digits: all `k + 1` digits. -/
theorem fmt_0X_wide (w k v : Nat) (hk : k + 1 ≤ NUMBER_TMP) (hwk : w ≤ k + 1)
    (hlo : 16 ^ k ≤ v) (hv : v < 16 ^ (k + 1)) (h32 : v < 4294967296) :
    fmt_0X w v =
      ((List.range (k + 1)).map fun i => hex_digit_upper (v / 16 ^ i % 16)).reverse := by
  have hu : u32 v = v := by simp only [u32]; omega
  have h := number_digits_padded k NUMBER_TMP v hk hv
  have hge := number_digits_length_ge k NUMBER_TMP v hk hlo
  have hle : (number_digits 16 NUMBER_TMP v).length ≤ k + 1 := by
    have := congrArg List.length h
    simp at this
    omega
  have hlen : (number_digits 16 NUMBER_TMP v).length = k + 1 := by omega
  rw [hlen] at h
  simp only [Nat.sub_self, List.replicate_zero, List.append_nil] at h
  simp only [fmt_0X, hu, List.length_map, List.length_reverse, hlen]
  have : w - (k + 1) = 0 := by omega
  rw [this, h]
  simp [List.map_reverse, Function.comp_def]

/-! ## Decimal text -/

theorem number_digits_lt (base : Nat) (hb : 0 < base) : ∀ (fuel n : Nat),
    ∀ d ∈ number_digits base fuel n, d < base := by
  intro fuel
  induction fuel with
  | zero => intro n d hd; simp [number_digits] at hd
  | succ f ih =>
    intro n d hd
    simp only [number_digits, List.mem_cons] at hd
    rcases hd with rfl | hd
    · exact Nat.mod_lt _ hb
    · split_ifs at hd
      · simp at hd
      · exact ih _ d hd

theorem number_digits_value (base : Nat) (hb : 1 < base) : ∀ (fuel n : Nat), n < base ^ fuel →
    (number_digits base fuel n).foldr (fun d a => a * base + d) 0 = n := by
  intro fuel
  induction fuel with
  | zero =>
    intro n hn
    simp at hn
    simp [number_digits, hn]
  | succ f ih =>
    intro n hn
    simp only [number_digits]
    by_cases h0 : n / base = 0
    · simp only [h0, if_true, List.foldr_cons, List.foldr_nil]
      have : n < base := by
        exact (Nat.div_eq_zero_iff (by omega)).mp h0
      have := Nat.mod_eq_of_lt this
      omega
    · simp only [h0, if_false, List.foldr_cons]
      have hq : n / base < base ^ f := by
        rw [Nat.div_lt_iff_lt_mul (by omega)]
        calc n < base ^ (f + 1) := hn
          _ = base ^ f * base := by ring
      rw [ih (n / base) hq]
      have := Nat.div_add_mod n base
      rw [Nat.mul_comm]
      exact this

theorem _parse_integer_digits (base : Nat) (hb : base ≤ 16) (rest : List Char) :
    ∀ (ds : List Nat) (acc rv : Nat), (∀ d ∈ ds, d < base) →
    _parse_integer base (ds.map hex_digit_upper ++ rest) acc rv =
      _parse_integer base rest (ds.foldl (fun a d => a * base + d) acc) (rv + ds.length) := by
  intro ds
  induction ds with
  | nil => intro acc rv _; simp
  | cons d t ih =>
    intro acc rv hd
    have hdb : d < base := hd d (List.mem_cons_self _ _)
    have hdv := digit_val_hex_digit_upper d (by omega)
    simp only [List.map_cons, List.cons_append, _parse_integer, hdv, hdb, if_true,
      List.foldl_cons, List.length_cons, List.append_eq]
    rw [ih _ _ (fun x hx => hd x (List.mem_cons_of_mem _ hx))]
    congr 1
    omega

theorem fmt_u_length_le (n : Nat) : (fmt_u n).length ≤ NUMBER_TMP := by
  simp only [fmt_u, List.length_map, List.length_reverse]
  exact number_digits_length_le 10 _ _

theorem kstrtoull_cons (c : Char) (t : List Char) (base : Nat) (hc : c ≠ '+') (n rv : Nat)
    (hfix : _parse_integer_fixup_radix (c :: t) base = c :: t)
    (hparse : _parse_integer base (c :: t) 0 0 = (n, rv, ['\n']))
    (h1 : ¬ n > ULLONG_MAX) (hrv : rv ≠ 0) :
    kstrtoull (c :: t) base = .ok n := by
  unfold kstrtoull
  have hm : ∀ t', c :: t = '+' :: t' → False := by
    intro t' h; injection h with h1 _; exact hc h1
  simp only [hm, hfix, hparse, imp_false]
  simp [h1, hrv]

/-- The text `%u` produces is read back by `kstrtou32` in base 10. -/
theorem kstrtou32_fmt_u (n : Nat) (hn : n < 4294967296) :
    kstrtou32 (fmt_u n ++ ['\n']) 10 = .ok n := by
  have hlt := number_digits_lt 10 (by norm_num) NUMBER_TMP n
  have hval := number_digits_value 10 (by norm_num) NUMBER_TMP n
    (by simp only [NUMBER_TMP]; omega)
  have hne : number_digits 10 NUMBER_TMP n ≠ [] := by simp [NUMBER_TMP, number_digits]
  have hparse : _parse_integer 10 (fmt_u n ++ ['\n']) 0 0 =
      (n, (number_digits 10 NUMBER_TMP n).length, ['\n']) := by
    have h := _parse_integer_digits 10 (by norm_num) ['\n']
      (number_digits 10 NUMBER_TMP n).reverse 0 0
      (fun d hd => hlt d (List.mem_reverse.mp hd))
    have hnl : digit_val '\n' = none := by decide
    simp only [fmt_u]
    rw [h, List.foldl_reverse]
    simp only [_parse_integer, hnl, List.length_reverse, Nat.zero_add]
    rw [hval]
  -- the first character is a digit, not a sign
  obtain ⟨c, t, hct, hc⟩ : ∃ c t, fmt_u n ++ ['\n'] = c :: t ∧ c ≠ '+' := by
    obtain ⟨l, d, hl⟩ : ∃ l d, number_digits 10 NUMBER_TMP n = l ++ [d] :=
      ⟨_, _, (List.dropLast_append_getLast hne).symm⟩
    have hd : d < 10 := hlt d (by rw [hl]; simp)
    refine ⟨hex_digit_upper d, l.reverse.map hex_digit_upper ++ ['\n'], ?_,
      hex_digit_upper_not_plus d (by omega)⟩
    simp [fmt_u, hl]
  have hfix : _parse_integer_fixup_radix (fmt_u n ++ ['\n']) 10 = fmt_u n ++ ['\n'] := by
    unfold _parse_integer_fixup_radix
    split
    · simp
    · rfl
  have hlen : (number_digits 10 NUMBER_TMP n).length ≠ 0 := by
    intro h; exact hne (List.length_eq_zero.mp h)
  have h1 : ¬ n > ULLONG_MAX := by simp only [ULLONG_MAX]; omega
  have h2 : u32 n = n := by simp only [u32]; omega
  have hk : kstrtoull (fmt_u n ++ ['\n']) 10 = .ok n := by
    rw [hct] at hfix hparse ⊢
    exact kstrtoull_cons c t 10 hc n _ hfix hparse h1 hlen
  unfold kstrtou32
  rw [hk]
  simp [h2]



theorem fmt_0X_6 (v : Nat) (hv : v < 16777216) : fmt_0X 6 v = hex6 v := by
  rw [fmt_0X_narrow 5 v (by decide) (by simpa using hv) (by omega)]
  simp [List.range_succ, hex6]

/-- C11, the claim as stated fails: with the word 0x1000000 at DATA+4, `max_bemf_show`
prints seven digits, ten characters in all, and returns 10. -/
theorem max_bemf_show_seven_digits :
    (max_bemf_show (example_env fun _ => 0)
        { example_state with regs := fun _ => 0x1000000 }).st.buf = "0x1000000\n".toList ∧
    (max_bemf_show (example_env fun _ => 0)
        { example_state with regs := fun _ => 0x1000000 }).ret = 10 := by
  decide

/-- C11, amended: when the lookup of DATA and the register read succeed,
`max_bemf_show` reads the word at DATA+4 and `max_vbst_show` the word at DATA+16
(one register read each), and for every value read below 2^24 the output is "0x",
exactly six upper-case hexadecimal digits of the value and a newline: 9 characters,
return value 9. -/
theorem logger_max_show (a : Attr) (hsh : Env → State → Outcome) (e : Env) (s : State)
    (v : Nat)
    (ha : a = .max_bemf ∨ a = .max_vbst)
    (hh : a.show_handler = some hsh)
    (hpage : 9 < e.c.PAGE_SIZE)
    (hl : a.lookup_ret e = 0) (hr : e.rc s.ncalls = 0)
    (hv : u32 (s.regs (u32 (a.reg e + a.data_offset))) = v) (hlt : v < 16777216) :
    (events_since s (hsh e s).st).filter Event.is_guarded =
      [.regmap_read (u32 (a.reg e + a.data_offset)) 0] ∧
    (hsh e s).ret = some 9 ∧
    (hsh e s).st.buf = ['0', 'x'] ++ hex6 v ++ ['\n'] ∧
    (hsh e s).st.buf.length = 9 := by
  have hfmt := fmt_0X_6 v hlt
  have hlen : (['0', 'x'] ++ hex6 v ++ ['\n']).length = 9 := rfl
  have htake : List.take (e.c.PAGE_SIZE - 1) ('0' :: 'x' :: (hex6 v ++ ['\n'])) =
      '0' :: 'x' :: (hex6 v ++ ['\n']) :=
    List.take_of_length_le (by simp [hex6]; omega)
  rcases ha with rfl | rfl <;>
    simp [Attr.show_handler] at hh <;> subst hh <;>
    simp only [Attr.lookup_ret, Attr.reg, Attr.symbol, Attr.data_offset] at hl hv ⊢ <;>
    simp [max_bemf_show, max_vbst_show, Outcome.ret, Outcome.st, events_since,
      hl, hr, hv, hfmt, htake, List.filter_cons, Event.is_guarded] <;>
    simp [hex6]

theorem logger_max_show_witness :
    (max_vbst_show (example_env fun _ => 0)
        { example_state with regs := fun _ => 0xABCDE }).ret = 9 ∧
    (max_vbst_show (example_env fun _ => 0)
        { example_state with regs := fun _ => 0xABCDE }).st.buf = "0x0ABCDE\n".toList := by
  have h := logger_max_show .max_vbst (fun e s => .returned (max_vbst_show e s))
    (example_env fun _ => 0) { example_state with regs := fun _ => 0xABCDE } 0xABCDE
    (Or.inr rfl) rfl (by decide) rfl rfl rfl (by decide)
  exact ⟨by simpa [Outcome.ret] using h.2.1, h.2.2.1⟩



theorem to_int_of_lt (n : Nat) (h : n < 2147483648) : to_int n = (n : Int) := by
  have h1 : n % 4294967296 = n := Nat.mod_eq_of_lt (by omega)
  simp [to_int, h1, h]

theorem fmt_d_natCast (n : Nat) : fmt_d (n : Int) = fmt_u n := by
  have : ¬ ((n : Int) < 0) := by omega
  simp [fmt_d, this]

theorem cal_time_no_wrap (c : Consts) (freq_span freq_centre : Nat)
    (hs : freq_span < 4294967296) (hb : cal_time_bound c) :
    cal_time_u32 c freq_span freq_centre = cal_time_nat c freq_span freq_centre ∧
    cal_time_nat c freq_span freq_centre < 2147483648 := by
  unfold cal_time_bound at hb
  have hsh : freq_span >>> c.CS40L26_F0_EST_FREQ_SHIFT ≤
      4294967295 >>> c.CS40L26_F0_EST_FREQ_SHIFT := by
    simp only [Nat.shiftRight_eq_div_pow]
    exact Nat.div_le_div_right (by omega)
  have hprod : c.CS40L26_F0_CHIRP_DURATION_FACTOR *
        (freq_span >>> c.CS40L26_F0_EST_FREQ_SHIFT) ≤
      c.CS40L26_F0_CHIRP_DURATION_FACTOR * (4294967295 >>> c.CS40L26_F0_EST_FREQ_SHIFT) :=
    Nat.mul_le_mul_left _ hsh
  have hq : c.CS40L26_F0_CHIRP_DURATION_FACTOR *
        (freq_span >>> c.CS40L26_F0_EST_FREQ_SHIFT) /
        (freq_centre >>> c.CS40L26_F0_EST_FREQ_SHIFT) ≤
      c.CS40L26_F0_CHIRP_DURATION_FACTOR * (freq_span >>> c.CS40L26_F0_EST_FREQ_SHIFT) :=
    Nat.div_le_self _ _
  have h1 : u32 (c.CS40L26_F0_CHIRP_DURATION_FACTOR *
      (freq_span >>> c.CS40L26_F0_EST_FREQ_SHIFT)) =
      c.CS40L26_F0_CHIRP_DURATION_FACTOR * (freq_span >>> c.CS40L26_F0_EST_FREQ_SHIFT) := by
    simp only [u32]; exact Nat.mod_eq_of_lt (by omega)
  refine ⟨?_, ?_⟩
  · simp only [cal_time_u32, cal_time_nat, h1]
    simp only [u32]; exact Nat.mod_eq_of_lt (by omega)
  · simp only [cal_time_nat]; omega

/-- The bound on the constants is also necessary: when it fails (and the shift is a
valid 32-bit shift), the register values FREQ_SPAN = 2^32 - 1 and FREQ_CENTRE =
2^SHIFT make the 32-bit estimate wrap or print as a negative number. -/
theorem cal_time_bound_necessary (c : Consts) (hsh : c.CS40L26_F0_EST_FREQ_SHIFT ≤ 31)
    (hb : ¬ cal_time_bound c) :
    2 ^ c.CS40L26_F0_EST_FREQ_SHIFT < 4294967296 ∧
    (2 ^ c.CS40L26_F0_EST_FREQ_SHIFT) >>> c.CS40L26_F0_EST_FREQ_SHIFT ≠ 0 ∧
    (cal_time_u32 c 4294967295 (2 ^ c.CS40L26_F0_EST_FREQ_SHIFT) ≠
        cal_time_nat c 4294967295 (2 ^ c.CS40L26_F0_EST_FREQ_SHIFT) ∨
      to_int (cal_time_u32 c 4294967295 (2 ^ c.CS40L26_F0_EST_FREQ_SHIFT)) < 0) := by
  unfold cal_time_bound at hb
  have h1 : (2 ^ c.CS40L26_F0_EST_FREQ_SHIFT) >>> c.CS40L26_F0_EST_FREQ_SHIFT = 1 := by
    simp only [Nat.shiftRight_eq_div_pow]
    exact Nat.div_self (Nat.pow_pos (by norm_num))
  have hlt : 2 ^ c.CS40L26_F0_EST_FREQ_SHIFT < 4294967296 :=
    calc 2 ^ c.CS40L26_F0_EST_FREQ_SHIFT ≤ 2 ^ 31 := Nat.pow_le_pow_right (by norm_num) hsh
      _ < 4294967296 := by norm_num
  refine ⟨hlt, by rw [h1]; norm_num, ?_⟩
  by_cases heq : cal_time_u32 c 4294967295 (2 ^ c.CS40L26_F0_EST_FREQ_SHIFT) =
      cal_time_nat c 4294967295 (2 ^ c.CS40L26_F0_EST_FREQ_SHIFT)
  · right
    have hnat : 2147483648 ≤ cal_time_nat c 4294967295 (2 ^ c.CS40L26_F0_EST_FREQ_SHIFT) := by
      simp only [cal_time_nat, h1, Nat.div_one]; omega
    have hlt32 : cal_time_u32 c 4294967295 (2 ^ c.CS40L26_F0_EST_FREQ_SHIFT) < 4294967296 := by
      simp only [cal_time_u32, u32]; exact Nat.mod_lt _ (by norm_num)
    rw [heq] at hlt32
    rw [heq]
    have hm : cal_time_nat c 4294967295 (2 ^ c.CS40L26_F0_EST_FREQ_SHIFT) % 4294967296 =
        cal_time_nat c 4294967295 (2 ^ c.CS40L26_F0_EST_FREQ_SHIFT) := Nat.mod_eq_of_lt hlt32
    simp only [to_int, hm]
    have : ¬ cal_time_nat c 4294967295 (2 ^ c.CS40L26_F0_EST_FREQ_SHIFT) < 2147483648 := by omega
    simp only [this, if_false]
    omega
  · left; exact heq

/-- C12: the constants being parameters that satisfy `cal_time_bound` (no estimate
reaches 2^31). When both lookups and both reads succeed and the shifted FREQ_CENTRE
is not zero, `f0_and_q_cal_time_ms_show` returns and prints, in decimal and followed
by a newline, the estimate computed in unsigned 32-bit arithmetic, and that number
is the estimate computed over the naturals: nothing wraps and no sign is printed. -/
theorem f0_and_q_cal_time_ms_show_value (e : Env) (s : State) (freq_span freq_centre : Nat)
    (hpage : NUMBER_TMP + 1 < e.c.PAGE_SIZE)
    (hb : cal_time_bound e.c)
    (hl1 : (e.sym "FREQ_SPAN" e.c.CL_DSP_XM_UNPACKED_TYPE e.c.CS40L26_F0_EST_ALGO_ID).1 = 0)
    (hl2 : (e.sym "FREQ_CENTRE" e.c.CL_DSP_XM_UNPACKED_TYPE e.c.CS40L26_F0_EST_ALGO_ID).1 = 0)
    (hr1 : e.rc s.ncalls = 0) (hr2 : e.rc (s.ncalls + 1) = 0)
    (hspan : u32 (s.regs (u32
      (e.sym "FREQ_SPAN" e.c.CL_DSP_XM_UNPACKED_TYPE e.c.CS40L26_F0_EST_ALGO_ID).2)) = freq_span)
    (hcentre : u32 (s.regs (u32
      (e.sym "FREQ_CENTRE" e.c.CL_DSP_XM_UNPACKED_TYPE e.c.CS40L26_F0_EST_ALGO_ID).2))
        = freq_centre)
    (hnz : freq_centre >>> e.c.CS40L26_F0_EST_FREQ_SHIFT ≠ 0) :
    cal_time_u32 e.c freq_span freq_centre = cal_time_nat e.c freq_span freq_centre ∧
    cal_time_nat e.c freq_span freq_centre < 2147483648 ∧
    (f0_and_q_cal_time_ms_show e s).st.buf =
      fmt_u (cal_time_nat e.c freq_span freq_centre) ++ ['\n'] ∧
    (f0_and_q_cal_time_ms_show e s).ret =
      some (((fmt_u (cal_time_nat e.c freq_span freq_centre)).length : Int) + 1) ∧
    kstrtou32 (f0_and_q_cal_time_ms_show e s).st.buf 10 =
      .ok (cal_time_nat e.c freq_span freq_centre) := by
  have hs : freq_span < 4294967296 := by
    rw [← hspan]; simp only [u32]; exact Nat.mod_lt _ (by norm_num)
  obtain ⟨hw, hlt⟩ := cal_time_no_wrap e.c freq_span freq_centre hs hb
  have hti := to_int_of_lt _ hlt
  have hlen := fmt_u_length_le (cal_time_nat e.c freq_span freq_centre)
  have htake : List.take (e.c.PAGE_SIZE - 1)
      (fmt_u (cal_time_nat e.c freq_span freq_centre) ++ ['\n']) =
      fmt_u (cal_time_nat e.c freq_span freq_centre) ++ ['\n'] :=
    List.take_of_length_le (by simp; omega)
  have hbuf : (f0_and_q_cal_time_ms_show e s).st.buf =
        fmt_u (cal_time_nat e.c freq_span freq_centre) ++ ['\n'] ∧
      (f0_and_q_cal_time_ms_show e s).ret =
        some (((fmt_u (cal_time_nat e.c freq_span freq_centre)).length : Int) + 1) := by
    unfold cal_time_u32 at hw
    simp [f0_and_q_cal_time_ms_show, Outcome.ret, Outcome.st, hl1, hl2, hr1, hr2, hspan,
      hcentre, hnz, hw, hti, fmt_d_natCast, htake]
  refine ⟨hw, hlt, hbuf.1, hbuf.2, ?_⟩
  rw [hbuf.1]
  exact kstrtou32_fmt_u _ (by omega)

theorem f0_and_q_cal_time_ms_show_value_witness :
    cal_time_bound example_consts ∧
    cal_time_nat example_consts 0x10000 0x10000 = 5250 ∧
    (f0_and_q_cal_time_ms_show (example_env fun _ => 0)
        { example_state with regs := fun _ => 0x10000 }).st.buf = "5250\n".toList := by
  have h := f0_and_q_cal_time_ms_show_value (example_env fun _ => 0)
    { example_state with regs := fun _ => 0x10000 } 0x10000 0x10000
    (by decide) (by decide) rfl rfl rfl rfl rfl rfl (by decide)
  exact ⟨by decide, by decide, h.2.2.1⟩



theorem fmt_0X_3 (v : Nat) (hv : v < 65536) : fmt_0X 3 v = hex3_min v := by
  by_cases h : v < 4096
  · rw [fmt_0X_narrow 2 v (by decide) (by simpa using h) (by omega)]
    simp [List.range_succ, hex3_min, h]
  · rw [fmt_0X_wide 3 3 v (by decide) (by decide) (by simpa using (Nat.le_of_not_lt h))
      (by simpa using hv) (by omega)]
    simp [List.range_succ, hex3_min, h]

theorem hex3_min_length (v : Nat) : (hex3_min v).length ≤ 4 := by
  unfold hex3_min; split_ifs <;> simp

/-- C13: `die_temp_show` equals the reference, the register and mask constants being
parameters: same return value, same text on the sysfs page (the page is untouched
when the reference yields no text), same registers read in the same order. And
when both reads succeed with the global enable set and the masked and shifted field
is at most 0xFFF, the truncation to 16 bits loses nothing and the output is "0x",
the three digits of the field and a newline: exactly 6 characters. -/
theorem die_temp_show_reference (e : Env) (s : State) (hpage : 7 < e.c.PAGE_SIZE) :
    ((die_temp_show e s).ret =
        (die_temp_reference e.c (bus_read e s.ncalls s.regs e.c.CS40L26_GLOBAL_ENABLES)
          (bus_read e (s.ncalls + 1) s.regs e.c.CS40L26_ENABLES_AND_CODES_DIG)).ret ∧
      (die_temp_show e s).st.buf =
        (die_temp_reference e.c (bus_read e s.ncalls s.regs e.c.CS40L26_GLOBAL_ENABLES)
          (bus_read e (s.ncalls + 1) s.regs e.c.CS40L26_ENABLES_AND_CODES_DIG)).text.getD s.buf ∧
      (events_since s (die_temp_show e s).st).filterMap Event.read_addr =
        (die_temp_reference e.c (bus_read e s.ncalls s.regs e.c.CS40L26_GLOBAL_ENABLES)
          (bus_read e (s.ncalls + 1) s.regs e.c.CS40L26_ENABLES_AND_CODES_DIG)).reads) ∧
    (∀ (enables value : Nat),
      bus_read e s.ncalls s.regs e.c.CS40L26_GLOBAL_ENABLES = .ok enables →
      enables &&& e.c.CS40L26_GLOBAL_EN_MASK ≠ 0 →
      bus_read e (s.ncalls + 1) s.regs e.c.CS40L26_ENABLES_AND_CODES_DIG = .ok value →
      (value &&& e.c.CS40L26_TEMP_RESULT_FILT_MASK) >>> e.c.CS40L26_TEMP_RESULT_FILT_SHIFT
        ≤ 0xFFF →
      u16 ((value &&& e.c.CS40L26_TEMP_RESULT_FILT_MASK) >>> e.c.CS40L26_TEMP_RESULT_FILT_SHIFT)
        = (value &&& e.c.CS40L26_TEMP_RESULT_FILT_MASK) >>> e.c.CS40L26_TEMP_RESULT_FILT_SHIFT ∧
      (die_temp_show e s).ret = 6 ∧
      (die_temp_show e s).st.buf.length = 6 ∧
      (die_temp_show e s).st.buf =
        [ '0', 'x',
          hex_digit_upper (((value &&& e.c.CS40L26_TEMP_RESULT_FILT_MASK) >>>
            e.c.CS40L26_TEMP_RESULT_FILT_SHIFT) / 256 % 16),
          hex_digit_upper (((value &&& e.c.CS40L26_TEMP_RESULT_FILT_MASK) >>>
            e.c.CS40L26_TEMP_RESULT_FILT_SHIFT) / 16 % 16),
          hex_digit_upper (((value &&& e.c.CS40L26_TEMP_RESULT_FILT_MASK) >>>
            e.c.CS40L26_TEMP_RESULT_FILT_SHIFT) % 16),
          '\n']) := by
  have hfmt : ∀ v, fmt_0X 3 (u16 v) = hex3_min (v % 65536) := fun v =>
    fmt_0X_3 (u16 v) (by simp only [u16]; exact Nat.mod_lt _ (by norm_num))
  have htake : ∀ v, List.take (e.c.PAGE_SIZE - 1) ('0' :: 'x' :: (hex3_min v ++ ['\n'])) =
      '0' :: 'x' :: (hex3_min v ++ ['\n']) := fun v =>
    List.take_of_length_le (by have := hex3_min_length v; simp; omega)
  have href : (die_temp_show e s).ret =
        (die_temp_reference e.c (bus_read e s.ncalls s.regs e.c.CS40L26_GLOBAL_ENABLES)
          (bus_read e (s.ncalls + 1) s.regs e.c.CS40L26_ENABLES_AND_CODES_DIG)).ret ∧
      (die_temp_show e s).st.buf =
        (die_temp_reference e.c (bus_read e s.ncalls s.regs e.c.CS40L26_GLOBAL_ENABLES)
          (bus_read e (s.ncalls + 1) s.regs e.c.CS40L26_ENABLES_AND_CODES_DIG)).text.getD s.buf ∧
      (events_since s (die_temp_show e s).st).filterMap Event.read_addr =
        (die_temp_reference e.c (bus_read e s.ncalls s.regs e.c.CS40L26_GLOBAL_ENABLES)
          (bus_read e (s.ncalls + 1) s.regs e.c.CS40L26_ENABLES_AND_CODES_DIG)).reads := by
    simp only [die_temp_show, die_temp_reference, bus_read]
    by_cases h1 : e.rc s.ncalls = 0
    · by_cases hen : u32 (s.regs e.c.CS40L26_GLOBAL_ENABLES) &&& e.c.CS40L26_GLOBAL_EN_MASK = 0
      · simp [h1, hen, events_since, List.filterMap_cons, Event.read_addr]
      · by_cases h2 : e.rc (s.ncalls + 1) = 0
        · simp [h1, hen, h2, events_since, List.filterMap_cons, Event.read_addr, hfmt, htake]
        · simp [h1, hen, h2, events_since, List.filterMap_cons, Event.read_addr]
    · simp [h1, events_since, List.filterMap_cons, Event.read_addr]
  refine ⟨href, ?_⟩
  intro enables value hg hen hv hle
  have hu : u16 ((value &&& e.c.CS40L26_TEMP_RESULT_FILT_MASK) >>>
      e.c.CS40L26_TEMP_RESULT_FILT_SHIFT) =
      (value &&& e.c.CS40L26_TEMP_RESULT_FILT_MASK) >>> e.c.CS40L26_TEMP_RESULT_FILT_SHIFT := by
    simp only [u16]; exact Nat.mod_eq_of_lt (by omega)
  have hbuf : (die_temp_show e s).ret = 6 ∧ (die_temp_show e s).st.buf =
        [ '0', 'x',
          hex_digit_upper (((value &&& e.c.CS40L26_TEMP_RESULT_FILT_MASK) >>>
            e.c.CS40L26_TEMP_RESULT_FILT_SHIFT) / 256 % 16),
          hex_digit_upper (((value &&& e.c.CS40L26_TEMP_RESULT_FILT_MASK) >>>
            e.c.CS40L26_TEMP_RESULT_FILT_SHIFT) / 16 % 16),
          hex_digit_upper (((value &&& e.c.CS40L26_TEMP_RESULT_FILT_MASK) >>>
            e.c.CS40L26_TEMP_RESULT_FILT_SHIFT) % 16),
          '\n'] := by
    have hlt : (value &&& e.c.CS40L26_TEMP_RESULT_FILT_MASK) >>>
        e.c.CS40L26_TEMP_RESULT_FILT_SHIFT < 4096 := by omega
    have hmod : ((value &&& e.c.CS40L26_TEMP_RESULT_FILT_MASK) >>>
        e.c.CS40L26_TEMP_RESULT_FILT_SHIFT) % 65536 =
        (value &&& e.c.CS40L26_TEMP_RESULT_FILT_MASK) >>> e.c.CS40L26_TEMP_RESULT_FILT_SHIFT :=
      Nat.mod_eq_of_lt (by omega)
    rw [href.1, href.2.1, hg, hv]
    simp [die_temp_reference, hen, hmod, hex3_min, hlt]
  exact ⟨hu, hbuf.1, by rw [hbuf.2]; rfl, hbuf.2⟩

theorem die_temp_show_reference_witness :
    (die_temp_show (example_env fun _ => 0)
        { example_state with regs := fun _ => 0x00AB0001 }).ret = 6 ∧
    (die_temp_show (example_env fun _ => 0)
        { example_state with regs := fun _ => 0x00AB0001 }).st.buf = "0x0AB\n".toList := by
  have h := (die_temp_show_reference (example_env fun _ => 0)
    { example_state with regs := fun _ => 0x00AB0001 } (by decide)).2 0x00AB0001 0x00AB0001
    rfl (by decide) rfl (by decide)
  exact ⟨h.2.1, h.2.2.2⟩



/-- C14, the claim as stated fails: with the bounds MAX = 0x190000 and MIN = 0xE70000,
the inputs "0" (below MIN) and "16777215" (above MAX) are not rejected:
`f0_offset_store` writes each value to the F0_OFFSET register and returns `count`. -/
theorem f0_offset_store_accepts_outside :
    kstrtou32 "0".toList 10 = .ok 0 ∧
    0 < example_consts.CS40L26_F0_OFFSET_MIN ∧
    (f0_offset_store (example_env fun _ => 0) "0".toList 1 example_state).ret = 1 ∧
    (events_since example_state
        (f0_offset_store (example_env fun _ => 0) "0".toList 1 example_state).st).filter
        Event.is_reg_write = [.regmap_write 0x2800000 0 0] ∧
    kstrtou32 "16777215".toList 10 = .ok 16777215 ∧
    16777215 > example_consts.CS40L26_F0_OFFSET_MAX ∧
    (f0_offset_store (example_env fun _ => 0) "16777215".toList 8 example_state).ret = 8 ∧
    (events_since example_state
        (f0_offset_store (example_env fun _ => 0) "16777215".toList 8 example_state).st).filter
        Event.is_reg_write = [.regmap_write 0x2800000 16777215 0] := by
  refine ⟨rfl, by decide, rfl, ?_, rfl, by decide, rfl, ?_⟩ <;> decide

/-- C14, amended: with CS40L26_F0_OFFSET_MIN and CS40L26_F0_OFFSET_MAX as parameters,
for an input that parses as the decimal value `v`, `f0_offset_store` returns
`-EINVAL` without any symbol lookup or register write exactly when `v` lies
strictly between the two bounds, `v > MAX` and `v < MIN`; for every other `v`, when
the lookup and the write succeed, the handler issues exactly one register write, of
`v` unchanged to the F0_OFFSET register, and returns `count`. -/
theorem f0_offset_store_range (e : Env) (buf : List Char) (count : Nat) (s : State) (v : Nat)
    (hv : kstrtou32 buf 10 = .ok v) (hcount : count < 2147483648) :
    (((f0_offset_store e buf count s).ret = -EINVAL ∧
        (events_since s (f0_offset_store e buf count s).st).filter Event.is_lookup = [] ∧
        (events_since s (f0_offset_store e buf count s).st).filter Event.is_reg_write = []) ↔
      (v > e.c.CS40L26_F0_OFFSET_MAX ∧ v < e.c.CS40L26_F0_OFFSET_MIN)) ∧
    ((v > e.c.CS40L26_F0_OFFSET_MAX ∧ v < e.c.CS40L26_F0_OFFSET_MIN) →
      (f0_offset_store e buf count s).st = s) ∧
    (¬ (v > e.c.CS40L26_F0_OFFSET_MAX ∧ v < e.c.CS40L26_F0_OFFSET_MIN) →
      Attr.lookup_ret e .f0_offset = 0 → e.rc s.ncalls = 0 →
      (f0_offset_store e buf count s).ret = count ∧
      (events_since s (f0_offset_store e buf count s).st).filter Event.is_reg_write =
        [.regmap_write (Attr.reg e .f0_offset) v 0]) := by
  have hc := to_int_of_lt count hcount
  by_cases hr : v > e.c.CS40L26_F0_OFFSET_MAX ∧ v < e.c.CS40L26_F0_OFFSET_MIN
  · refine ⟨?_, ?_, fun h => absurd hr h⟩
    · simp only [f0_offset_store, hv]
      rw [if_pos hr]
      simp [events_since, hr]
    · intro _
      simp only [f0_offset_store, hv]
      rw [if_pos hr]
  · refine ⟨?_, fun h => absurd h hr, ?_⟩
    · simp only [hr, iff_false, not_and]
      intro _ hl
      exfalso
      revert hl
      simp only [f0_offset_store, hv]
      rw [if_neg hr]
      split_ifs <;> simp [events_since, List.filter_cons, Event.is_lookup]
    · intro _ hl hw
      simp only [Attr.lookup_ret, Attr.symbol] at hl
      simp only [f0_offset_store, hv]
      rw [if_neg hr]
      simp [events_since, hl, hw, hc, List.filter_cons, Event.is_reg_write, Attr.reg,
        Attr.symbol]

theorem f0_offset_store_range_witness :
    kstrtou32 "16777215".toList 10 = .ok 16777215 ∧
    (f0_offset_store (example_env fun _ => 0) "16777215".toList 8 example_state).ret = 8 ∧
    kstrtou32 "8388608".toList 10 = .ok 8388608 ∧
    (f0_offset_store (example_env fun _ => 0) "8388608".toList 7 example_state).st
      = example_state :=
  ⟨rfl,
   ((f0_offset_store_range (example_env fun _ => 0) "16777215".toList 8 example_state 16777215
      rfl (by decide)).2.2 (by decide) rfl rfl).1,
   rfl,
   (f0_offset_store_range (example_env fun _ => 0) "8388608".toList 7 example_state 8388608
      rfl (by decide)).2.1 (by decide)⟩



theorem u32_and_of_lt (x m : Nat) (hm : m < 4294967296) : u32 x &&& m = x &&& m := by
  apply Nat.eq_of_testBit_eq
  intro i
  simp only [u32, Nat.testBit_and]
  have h32 : (4294967296 : Nat) = 2 ^ 32 := by norm_num
  rw [h32, Nat.testBit_mod_two_pow]
  by_cases hi : i < 32
  · simp [hi]
  · have : m.testBit i = false := by
      apply Nat.testBit_lt_two_pow
      calc m < 2 ^ 32 := by omega
        _ ≤ 2 ^ i := Nat.pow_le_pow_right (by norm_num) (by omega)
    simp [this]

/-- The mailbox command of a calibration request over 32-bit mask constants is the
expression of the source, no truncation taking place. -/
theorem mailbox_command_eq (c : Consts) (p : Nat)
    (hm : c.CS40L26_DSP_MBOX_CMD_INDEX_MASK < 4294967296)
    (hp : c.CS40L26_DSP_MBOX_CMD_PAYLOAD_MASK < 4294967296) :
    u32 ((u32 (c.CS40L26_DSP_MBOX_CMD_INDEX_CALIBRATION_CONTROL <<<
            c.CS40L26_DSP_MBOX_CMD_INDEX_SHIFT) &&& c.CS40L26_DSP_MBOX_CMD_INDEX_MASK) |||
        (p &&& c.CS40L26_DSP_MBOX_CMD_PAYLOAD_MASK)) =
      ((c.CS40L26_DSP_MBOX_CMD_INDEX_CALIBRATION_CONTROL <<<
            c.CS40L26_DSP_MBOX_CMD_INDEX_SHIFT) &&& c.CS40L26_DSP_MBOX_CMD_INDEX_MASK) |||
        (p &&& c.CS40L26_DSP_MBOX_CMD_PAYLOAD_MASK) := by
  rw [u32_and_of_lt _ _ hm]
  have h1 : (c.CS40L26_DSP_MBOX_CMD_INDEX_CALIBRATION_CONTROL <<<
      c.CS40L26_DSP_MBOX_CMD_INDEX_SHIFT) &&& c.CS40L26_DSP_MBOX_CMD_INDEX_MASK < 2 ^ 32 :=
    Nat.lt_of_le_of_lt Nat.and_le_right (by omega)
  have h2 : p &&& c.CS40L26_DSP_MBOX_CMD_PAYLOAD_MASK < 2 ^ 32 :=
    Nat.lt_of_le_of_lt Nat.and_le_right (by omega)
  have h3 := Nat.or_lt_two_pow h1 h2
  simp only [u32]
  exact Nat.mod_eq_of_lt (by omega)

/-- C15: `trigger_calibration_store`, the mask constants being 32-bit values and
`count` fitting an `int`. Unless the input parses in base 16 to a payload `p` of 1
or 2 the handler returns `-EINVAL` and changes nothing, `cal_requested` included.
For `p` in {1, 2} it issues exactly one acknowledged mailbox write, to
CS40L26_DSP_VIRTUAL1_MBOX_1, with the command
`((CALIBRATION_CONTROL << INDEX_SHIFT) & INDEX_MASK) | (p & PAYLOAD_MASK)`; if the
write succeeds `cal_requested` becomes `p` and the handler returns `count`; if it
fails with the code `err`, `cal_requested` becomes 0 and the handler returns `err`;
no other private-state field changes. -/
theorem trigger_calibration_store_request (e : Env) (buf : List Char) (count : Nat) (s : State)
    (hm : e.c.CS40L26_DSP_MBOX_CMD_INDEX_MASK < 4294967296)
    (hp : e.c.CS40L26_DSP_MBOX_CMD_PAYLOAD_MASK < 4294967296)
    (hcount : count < 2147483648) :
    ((∀ p, kstrtou32 buf 16 = .ok p → p ≠ 1 ∧ p ≠ 2) →
      (trigger_calibration_store e buf count s).ret = -EINVAL ∧
      (trigger_calibration_store e buf count s).st = s) ∧
    (∀ p, kstrtou32 buf 16 = .ok p → (p = 1 ∨ p = 2) →
      (events_since s (trigger_calibration_store e buf count s).st).filter Event.is_ack_write =
        [.cs40l26_ack_write e.c.CS40L26_DSP_VIRTUAL1_MBOX_1
          (((e.c.CS40L26_DSP_MBOX_CMD_INDEX_CALIBRATION_CONTROL <<<
              e.c.CS40L26_DSP_MBOX_CMD_INDEX_SHIFT) &&& e.c.CS40L26_DSP_MBOX_CMD_INDEX_MASK) |||
            (p &&& e.c.CS40L26_DSP_MBOX_CMD_PAYLOAD_MASK))
          e.c.CS40L26_DSP_MBOX_RESET (e.rc s.ncalls)] ∧
      (e.rc s.ncalls = 0 →
        (trigger_calibration_store e buf count s).ret = count ∧
        (trigger_calibration_store e buf count s).st.priv =
          { s.priv with cal_requested := p }) ∧
      (e.rc s.ncalls ≠ 0 →
        (trigger_calibration_store e buf count s).ret = e.rc s.ncalls ∧
        (trigger_calibration_store e buf count s).st.priv =
          { s.priv with cal_requested := 0 })) := by
  have hc := to_int_of_lt count hcount
  refine ⟨?_, ?_⟩
  · intro hrej
    simp only [trigger_calibration_store]
    split
    · exact ⟨rfl, rfl⟩
    · next p hpv =>
      have := hrej p hpv
      have hr : p < 1 ∨ p > 2 := by omega
      rw [if_pos hr]
      exact ⟨rfl, rfl⟩
  · intro p hpv hp12
    have hr : ¬ (p < 1 ∨ p > 2) := by omega
    have hcmd := mailbox_command_eq e.c p hm hp
    simp only [trigger_calibration_store, hpv]
    rw [if_neg hr, hcmd]
    refine ⟨?_, ?_, ?_⟩
    · split_ifs <;> simp [events_since, List.filter_cons, Event.is_ack_write]
    · intro h0
      simp [h0, hc]
    · intro h0
      simp [h0]

theorem trigger_calibration_store_request_witness :
    kstrtou32 "2".toList 16 = .ok 2 ∧
    (trigger_calibration_store (example_env fun _ => 0) "2".toList 1 example_state).ret = 1 ∧
    (trigger_calibration_store (example_env fun _ => 0) "2".toList 1
        example_state).st.priv.cal_requested = 2 ∧
    (events_since example_state
        (trigger_calibration_store (example_env fun _ => 0) "2".toList 1
          example_state).st).filter Event.is_ack_write =
      [.cs40l26_ack_write 0x13020 0x07000002 0 0] ∧
    (trigger_calibration_store (example_env fun _ => 0) "3".toList 1 example_state).ret
      = -EINVAL := by
  have h := trigger_calibration_store_request (example_env fun _ => 0) "2".toList 1
    example_state (by decide) (by decide) (by decide)
  have h3 := trigger_calibration_store_request (example_env fun _ => 0) "3".toList 1
    example_state (by decide) (by decide) (by decide)
  refine ⟨rfl, ((h.2 2 rfl (Or.inr rfl)).2.1 rfl).1, ?_, (h.2 2 rfl (Or.inr rfl)).1, ?_⟩
  · rw [((h.2 2 rfl (Or.inr rfl)).2.1 rfl).2]
  · refine (h3.1 ?_).1
    intro p hp
    have h33 : kstrtou32 "3".toList 16 = .ok 3 := rfl
    rw [h33] at hp
    injection hp with hp
    omega



/-- C16: the divisor of `f0_and_q_cal_time_ms_show` can be zero. With every lookup and
read succeeding and the word 0 (or any word below 2^14, here 0x3FFF, the shift being
14) in FREQ_CENTRE, the shifted divisor is 0 and the handler ends in the division
by zero, after the successful read of FREQ_CENTRE and with the lock held. -/
theorem f0_and_q_cal_time_ms_show_zero_divisor :
    u32 (example_state.regs 0x2800000) >>> example_consts.CS40L26_F0_EST_FREQ_SHIFT = 0 ∧
    (f0_and_q_cal_time_ms_show (example_env fun _ => 0) example_state).ret = none ∧
    events_since example_state
        (f0_and_q_cal_time_ms_show (example_env fun _ => 0) example_state).st =
      [.pm_runtime_get_sync, .mutex_lock,
        .cl_dsp_get_reg "FREQ_SPAN" 5 0x00040F31 0,
        .regmap_read 0x2800000 0,
        .cl_dsp_get_reg "FREQ_CENTRE" 5 0x00040F31 0,
        .regmap_read 0x2800000 0] ∧
    (f0_and_q_cal_time_ms_show (example_env fun _ => 0) example_state).st.lock_held = true ∧
    (0x3FFF : Nat) >>> example_consts.CS40L26_F0_EST_FREQ_SHIFT = 0 ∧
    (f0_and_q_cal_time_ms_show (example_env fun _ => 0)
        { example_state with regs := fun _ => 0x3FFF }).ret = none := by
  refine ⟨by decide, ?_, ?_, rfl, by decide, ?_⟩ <;> decide

/-! ## The logger set-up of `logging_en_store` -/

theorem update_bits_testBit (old mask val i : Nat) (hi : i < 32) :
    ((u32 old &&& (u32 mask ^^^ UINT_MAX)) ||| (u32 val &&& u32 mask)).testBit i =
      if mask.testBit i then val.testBit i else old.testBit i := by
  have h32 : (4294967296 : Nat) = 2 ^ 32 := by norm_num
  have hmax : UINT_MAX = 2 ^ 32 - 1 := by norm_num [UINT_MAX]
  simp only [u32, h32, hmax, Nat.testBit_or, Nat.testBit_and, Nat.testBit_xor,
    Nat.testBit_mod_two_pow, Nat.testBit_two_pow_sub_one, hi, decide_True, Bool.true_and]
  cases mask.testBit i <;> cases val.testBit i <;> cases old.testBit i <;> rfl

theorem update_bits_lt (old mask val : Nat) :
    (u32 old &&& (u32 mask ^^^ UINT_MAX)) ||| (u32 val &&& u32 mask) < 4294967296 := by
  have h1 : u32 old &&& (u32 mask ^^^ UINT_MAX) < 2 ^ 32 :=
    Nat.lt_of_le_of_lt Nat.and_le_left (by simp only [u32]; omega)
  have h2 : u32 val &&& u32 mask < 2 ^ 32 :=
    Nat.lt_of_le_of_lt Nat.and_le_left (by simp only [u32]; omega)
  have := Nat.or_lt_two_pow h1 h2
  omega

/-- C17: the write sequence of `logging_en_store`, the register map being a function
from address to word. A parsed value other than 0 and 1 gives `-EINVAL` and no
access at all. For 0 no register but ENABLE is modified, and ENABLE becomes 0 when
its lookup and write succeed. For 1 with every lookup and write succeeding and the
symbols at distinct addresses: ENABLE becomes 1, COUNT becomes 2, in the words at
SOURCE and SOURCE+4 exactly the bits of `SRC_SIZE_MASK | SRC_ID_MASK` are replaced,
by those of `SRC_SIZE_MASK | (1 << SRC_ID_SHIFT)` and
`SRC_SIZE_MASK | (2 << SRC_ID_SHIFT)`, every other bit and every other register being
unchanged. -/
theorem logging_en_store_writes (e : Env) (buf : List Char) (count : Nat) (s : State) :
    (∀ v, kstrtou32 buf 10 = .ok v → v ≠ 0 → v ≠ 1 →
      (logging_en_store e buf count s).ret = -EINVAL ∧
      (logging_en_store e buf count s).st = s) ∧
    (kstrtou32 buf 10 = .ok 0 →
      (∀ addr, addr ≠ logger_reg e "ENABLE" →
        (logging_en_store e buf count s).st.regs addr = s.regs addr) ∧
      (logger_lookup_ret e "ENABLE" = 0 → e.rc s.ncalls = 0 →
        (logging_en_store e buf count s).st.regs (logger_reg e "ENABLE") = 0)) ∧
    (kstrtou32 buf 10 = .ok 1 →
      logger_lookup_ret e "ENABLE" = 0 → logger_lookup_ret e "COUNT" = 0 →
      logger_lookup_ret e "SOURCE" = 0 →
      e.rc s.ncalls = 0 → e.rc (s.ncalls + 1) = 0 → e.rc (s.ncalls + 2) = 0 →
      e.rc (s.ncalls + 3) = 0 →
      logger_reg e "ENABLE" ≠ logger_reg e "COUNT" →
      logger_reg e "ENABLE" ≠ logger_reg e "SOURCE" →
      logger_reg e "ENABLE" ≠ u32 (logger_reg e "SOURCE" + 4) →
      logger_reg e "COUNT" ≠ logger_reg e "SOURCE" →
      logger_reg e "COUNT" ≠ u32 (logger_reg e "SOURCE" + 4) →
      (logging_en_store e buf count s).st.regs (logger_reg e "ENABLE") = 1 ∧
      (logging_en_store e buf count s).st.regs (logger_reg e "COUNT") = 2 ∧
      (logging_en_store e buf count s).st.regs (logger_reg e "SOURCE") < 4294967296 ∧
      (∀ i, i < 32 →
        ((logging_en_store e buf count s).st.regs (logger_reg e "SOURCE")).testBit i =
          if (e.c.CS40L26_LOGGER_SRC_SIZE_MASK ||| e.c.CS40L26_LOGGER_SRC_ID_MASK).testBit i
          then (e.c.CS40L26_LOGGER_SRC_SIZE_MASK |||
            (1 <<< e.c.CS40L26_LOGGER_SRC_ID_SHIFT)).testBit i
          else (s.regs (logger_reg e "SOURCE")).testBit i) ∧
      (logging_en_store e buf count s).st.regs (u32 (logger_reg e "SOURCE" + 4)) < 4294967296 ∧
      (∀ i, i < 32 →
        ((logging_en_store e buf count s).st.regs (u32 (logger_reg e "SOURCE" + 4))).testBit i =
          if (e.c.CS40L26_LOGGER_SRC_SIZE_MASK ||| e.c.CS40L26_LOGGER_SRC_ID_MASK).testBit i
          then (e.c.CS40L26_LOGGER_SRC_SIZE_MASK |||
            (2 <<< e.c.CS40L26_LOGGER_SRC_ID_SHIFT)).testBit i
          else (s.regs (u32 (logger_reg e "SOURCE" + 4))).testBit i) ∧
      (∀ addr, addr ≠ logger_reg e "ENABLE" → addr ≠ logger_reg e "COUNT" →
        addr ≠ logger_reg e "SOURCE" → addr ≠ u32 (logger_reg e "SOURCE" + 4) →
        (logging_en_store e buf count s).st.regs addr = s.regs addr)) := by
  refine ⟨?_, ?_, ?_⟩
  · intro v hv h0 h1
    simp only [logging_en_store, hv]
    rw [if_pos ⟨h0, h1⟩]
    exact ⟨rfl, rfl⟩
  · intro hv
    have hr : ¬ ((0 : Nat) ≠ 0 ∧ (0 : Nat) ≠ 1) := by simp
    simp only [logging_en_store, hv, logger_reg, logger_lookup_ret]
    rw [if_neg hr]
    refine ⟨?_, ?_⟩
    · intro addr haddr
      by_cases hl : (e.sym "ENABLE" e.c.CL_DSP_XM_UNPACKED_TYPE e.c.CS40L26_LOGGER_ALGO_ID).1 = 0 <;>
        by_cases hw : e.rc s.ncalls = 0 <;>
        simp [hl, hw, Function.update_apply, haddr]
    · intro hl hw
      simp [hl, hw]
      simp [u32]
  · intro hv hl1 hl2 hl3 hw0 hw1 hw2 hw3 d1 d2 d3 d4 d5
    have hr : ¬ ((1 : Nat) ≠ 0 ∧ (1 : Nat) ≠ 1) := by simp
    have d6 : logger_reg e "SOURCE" ≠ u32 (logger_reg e "SOURCE" + 4) := by
      have : logger_reg e "SOURCE" < 4294967296 := by
        simp only [logger_reg, u32]; exact Nat.mod_lt _ (by norm_num)
      simp only [u32]; omega
    have hst : (logging_en_store e buf count s).st.regs =
        Function.update (Function.update (Function.update (Function.update s.regs
          (logger_reg e "ENABLE") 1) (logger_reg e "COUNT") 2) (logger_reg e "SOURCE")
          ((u32 (s.regs (logger_reg e "SOURCE")) &&&
              (u32 (e.c.CS40L26_LOGGER_SRC_SIZE_MASK ||| e.c.CS40L26_LOGGER_SRC_ID_MASK) ^^^
                UINT_MAX)) |||
            (u32 (e.c.CS40L26_LOGGER_SRC_SIZE_MASK |||
                (1 <<< e.c.CS40L26_LOGGER_SRC_ID_SHIFT)) &&&
              u32 (e.c.CS40L26_LOGGER_SRC_SIZE_MASK ||| e.c.CS40L26_LOGGER_SRC_ID_MASK))))
          (u32 (logger_reg e "SOURCE" + 4))
          ((u32 (s.regs (u32 (logger_reg e "SOURCE" + 4))) &&&
              (u32 (e.c.CS40L26_LOGGER_SRC_SIZE_MASK ||| e.c.CS40L26_LOGGER_SRC_ID_MASK) ^^^
                UINT_MAX)) |||
            (u32 (e.c.CS40L26_LOGGER_SRC_SIZE_MASK |||
                (2 <<< e.c.CS40L26_LOGGER_SRC_ID_SHIFT)) &&&
              u32 (e.c.CS40L26_LOGGER_SRC_SIZE_MASK ||| e.c.CS40L26_LOGGER_SRC_ID_MASK))) := by
      simp only [logger_reg, logger_lookup_ret] at hl1 hl2 hl3 d1 d2 d3 d4 d5 d6 ⊢
      simp only [logging_en_store, hv]
      rw [if_neg hr]
      simp [hl1, hl2, hl3, hw0, hw1, hw2, hw3, Function.update_apply, d1, d2, d3, d4, d5, d6,
        Ne.symm d1, Ne.symm d2, Ne.symm d3, Ne.symm d4, Ne.symm d5, Ne.symm d6]
      simp [u32]
    rw [hst]
    refine ⟨?_, ?_, ?_, ?_, ?_, ?_, ?_⟩
    · simp [Function.update_apply, d1, d2, d3]
    · simp [Function.update_apply, d4, d5]
    · simp only [Function.update_apply, d6, if_false, if_true]
      exact update_bits_lt _ _ _
    · intro i hi
      simp only [Function.update_apply, d6, if_false, if_true]
      exact update_bits_testBit _ _ _ i hi
    · simp only [Function.update_apply, if_true]
      exact update_bits_lt _ _ _
    · intro i hi
      simp only [Function.update_apply, if_true]
      exact update_bits_testBit _ _ _ i hi
    · intro addr a1 a2 a3 a4
      simp [Function.update_apply, a1, a2, a3, a4]

theorem logging_en_store_writes_witness :
    kstrtou32 "1".toList 10 = .ok 1 ∧
    (logging_en_store (example_env fun _ => 0) "1".toList 1 example_state).st.regs 0x2800000
      = 1 ∧
    (logging_en_store (example_env fun _ => 0) "1".toList 1 example_state).st.regs 0x2800004
      = 2 ∧
    (logging_en_store (example_env fun _ => 0) "1".toList 1 example_state).st.regs 0x2800008
      = 0x410000 ∧
    (logging_en_store (example_env fun _ => 0) "1".toList 1 example_state).st.regs 0x280000C
      = 0x420000 ∧
    (logging_en_store (example_env fun _ => 0) "1".toList 1 example_state).st.regs 0x2800010
      = 0 := by
  have h := (logging_en_store_writes (example_env fun _ => 0) "1".toList 1 example_state).2.2
    rfl rfl rfl rfl rfl rfl rfl rfl (by decide) (by decide) (by decide) (by decide) (by decide)
  exact ⟨rfl, h.1, h.2.1, by decide, by decide, h.2.2.2.2.2.2 0x2800010
    (by decide) (by decide) (by decide) (by decide)⟩

/-! ## The power-on sequence -/

theorem pseq_count_eq_length (ops : List cs40l26_pseq_op) : pseq_count ops = ops.length := by
  have h : ∀ (l : List cs40l26_pseq_op) (a : Int),
      l.foldl (fun count _ => count + 1) a = a + l.length := by
    intro l
    induction l with
    | nil => intro a; simp
    | cons x t ih =>
      intro a
      simp only [List.foldl_cons, List.length_cons, ih]
      push_cast
      ring
  simp [pseq_count, h]

/-- C18: `power_on_seq_show`, the power-on sequence being a list of fewer than 2^31
operations. The handler returns `-EINVAL`, leaving the page untouched, if the list
is empty or its number of entries differs from `pseq_num_ops`. Otherwise it
succeeds and prints `pseq_num_ops` in decimal with a newline; the printed number is
the length of the list (the text parses back to it) and is at least 1. In every case
the private data, the list and `pseq_num_ops` included, is unchanged. -/
theorem power_on_seq_show_check (e : Env) (s : State)
    (hpage : NUMBER_TMP + 1 < e.c.PAGE_SIZE)
    (hlen : s.priv.pseq_op_head.length < 2147483648) :
    ((s.priv.pseq_op_head = [] ∨ (s.priv.pseq_op_head.length : Int) ≠ s.priv.pseq_num_ops) →
      (power_on_seq_show e s).ret = -EINVAL ∧ (power_on_seq_show e s).st.buf = s.buf) ∧
    (s.priv.pseq_op_head ≠ [] → (s.priv.pseq_op_head.length : Int) = s.priv.pseq_num_ops →
      (power_on_seq_show e s).st.buf = fmt_d s.priv.pseq_num_ops ++ ['\n'] ∧
      (power_on_seq_show e s).st.buf = fmt_u s.priv.pseq_op_head.length ++ ['\n'] ∧
      (power_on_seq_show e s).ret = ((fmt_u s.priv.pseq_op_head.length).length : Int) + 1 ∧
      0 < (power_on_seq_show e s).ret ∧
      kstrtou32 (power_on_seq_show e s).st.buf 10 = .ok s.priv.pseq_op_head.length ∧
      1 ≤ s.priv.pseq_op_head.length) ∧
    (power_on_seq_show e s).st.priv = s.priv := by
  have hcnt := pseq_count_eq_length s.priv.pseq_op_head
  refine ⟨?_, ?_, ?_⟩
  · intro h
    simp only [power_on_seq_show]
    rcases h with h | h
    · simp [h]
    · split_ifs with h1 h2
      · simp
      · simp
      · exfalso
        simp only [hcnt, priv_read_priv, mutex_unlock_priv, mutex_lock_priv, ne_eq,
          not_not] at h2
        exact h h2
  · intro hne heq
    have hempty : s.priv.pseq_op_head.isEmpty = false := by
      cases hl : s.priv.pseq_op_head with
      | nil => exact absurd hl hne
      | cons x t => rfl
    have hpos : 1 ≤ s.priv.pseq_op_head.length := by
      cases hl : s.priv.pseq_op_head with
      | nil => exact absurd hl hne
      | cons x t => simp
    have hfl := fmt_u_length_le s.priv.pseq_op_head.length
    have htake : List.take (e.c.PAGE_SIZE - 1)
        (fmt_u s.priv.pseq_op_head.length ++ ['\n']) =
        fmt_u s.priv.pseq_op_head.length ++ ['\n'] :=
      List.take_of_length_le (by simp; omega)
    have hfd : fmt_d s.priv.pseq_num_ops = fmt_u s.priv.pseq_op_head.length := by
      rw [← heq]; exact fmt_d_natCast _
    have hbuf : (power_on_seq_show e s).st.buf = fmt_u s.priv.pseq_op_head.length ++ ['\n'] ∧
        (power_on_seq_show e s).ret = ((fmt_u s.priv.pseq_op_head.length).length : Int) + 1 := by
      simp [power_on_seq_show, hempty, hcnt, heq, hfd, htake]
    refine ⟨by rw [hbuf.1, hfd], hbuf.1, hbuf.2, by rw [hbuf.2]; omega, ?_, hpos⟩
    rw [hbuf.1]
    exact kstrtou32_fmt_u _ (by omega)
  · simp only [power_on_seq_show]
    split_ifs <;> simp

theorem power_on_seq_show_check_witness :
    example_state.priv.pseq_op_head.length = 1 ∧
    (power_on_seq_show (example_env fun _ => 0) example_state).st.buf = "1\n".toList ∧
    kstrtou32 (power_on_seq_show (example_env fun _ => 0) example_state).st.buf 10 = .ok 1 := by
  have h := (power_on_seq_show_check (example_env fun _ => 0) example_state
    (by decide) (by decide)).2.1 (List.cons_ne_nil _ _) rfl
  exact ⟨rfl, h.2.1, h.2.2.2.2.1⟩

end CS40L26
